import Mathlib

/-!
# vtkMapper: scalar-to-colour mapping and its caches

A shallow embedding of `Rendering/Core/vtkMapper.cxx`.

Conventions of the embedding.

* A C++ `double` or `float` is a value of `Dbl`: NaN, the two infinities, or a
  finite value carried as an exact rational.  The special values follow
  IEEE-754 (`inf - inf`, `0 * inf`, `0 / 0` are NaN, `x / 0` is an infinity,
  every ordered comparison with NaN is false).  Arithmetic on finite values is
  exact: rounding, overflow of finite values and the sign of zero are not
  represented, and the narrowing `static_cast<float>` is the identity.
* Objects that the mapper shares by pointer (lookup tables) live in a heap
  indexed by their address; objects the mapper creates and caches (colour
  arrays, coordinates, texture image) carry the address they were allocated
  at in `id`.
* `vtkTimeStamp::Modified` draws from one process-wide counter, `World.clock`.
* Collaborators whose code is outside this file (`vtkAbstractMapper`,
  `vtkScalarsToColors`, `vtkLookupTable`, `vtkColorSeries`, `vtkMath`) are
  either fields of `Env` or small definitions marked as modelled.
* A null-pointer dereference is the result `none`.
* The integer types `int` and `vtkIdType` are unbounded integers; the values
  the mapper computes with them stay far from the limits of either type.
-/

namespace VtkMapper

/-! ## Floating-point values -/

/-- Value of a C++ `double` (or `float`): NaN, minus infinity, plus infinity,
or a finite number. -/
inductive Dbl where
  | nan : Dbl
  | ninf : Dbl
  | pinf : Dbl
  | fin (q : ℚ) : Dbl
deriving DecidableEq

namespace Dbl

/-- Result of `vtkMath::IsNan`. -/
def IsNan : Dbl → Bool
  | nan => true
  | _ => false

/-- Unary minus. -/
def neg : Dbl → Dbl
  | nan => nan
  | ninf => pinf
  | pinf => ninf
  | fin q => fin (-q)

/-- Addition `a + b`. -/
def add : Dbl → Dbl → Dbl
  | nan, _ => nan
  | _, nan => nan
  | pinf, ninf => nan
  | ninf, pinf => nan
  | pinf, _ => pinf
  | _, pinf => pinf
  | ninf, _ => ninf
  | _, ninf => ninf
  | fin a, fin b => fin (a + b)

/-- Subtraction `a - b`. -/
def sub (a b : Dbl) : Dbl := add a (neg b)

/-- Infinity carrying the sign of the rational `q`, NaN when `q` is zero:
the product of `q` with plus infinity. -/
def signedInf (q : ℚ) : Dbl :=
  if q = 0 then nan else if 0 < q then pinf else ninf

/-- Multiplication `a * b`. -/
def mul : Dbl → Dbl → Dbl
  | nan, _ => nan
  | _, nan => nan
  | fin a, fin b => fin (a * b)
  | fin a, pinf => signedInf a
  | fin a, ninf => signedInf (-a)
  | pinf, fin b => signedInf b
  | ninf, fin b => signedInf (-b)
  | pinf, pinf => pinf
  | pinf, ninf => ninf
  | ninf, pinf => ninf
  | ninf, ninf => pinf

/-- Division `a / b`; a zero divisor is taken as `+0`. -/
def div : Dbl → Dbl → Dbl
  | nan, _ => nan
  | _, nan => nan
  | fin a, fin b => if b = 0 then signedInf a else fin (a / b)
  | fin _, pinf => fin 0
  | fin _, ninf => fin 0
  | pinf, fin b => if 0 ≤ b then pinf else ninf
  | ninf, fin b => if 0 ≤ b then ninf else pinf
  | pinf, pinf => nan
  | pinf, ninf => nan
  | ninf, pinf => nan
  | ninf, ninf => nan

/-- Comparison `a < b` of C++. -/
def lt : Dbl → Dbl → Bool
  | nan, _ => false
  | _, nan => false
  | ninf, ninf => false
  | ninf, _ => true
  | _, ninf => false
  | pinf, _ => false
  | fin _, pinf => true
  | fin a, fin b => decide (a < b)

/-- Comparison `a > b` of C++. -/
def gt (a b : Dbl) : Bool := lt b a

/-- Comparison `a == b` of C++: NaN equals nothing. -/
def eq : Dbl → Dbl → Bool
  | nan, _ => false
  | _, nan => false
  | a, b => decide (a = b)

/-- Comparison `a != b` of C++. -/
def ne (a b : Dbl) : Bool := !(eq a b)

/-- Comparison `a <= b` of C++. -/
def le (a b : Dbl) : Bool := lt a b || eq a b

/-- Conversion of an integer (`int`, `vtkIdType`) to `double`. -/
def ofInt (i : Int) : Dbl := fin (i : ℚ)

end Dbl

/-! ## Constants of the headers -/

/-- Modelled from the spec: `VTK_COLOR_MODE_DEFAULT` of the missing header
`vtkSystemIncludes.h` (colour mode "default-with-byte-arrays"). -/
def VTK_COLOR_MODE_DEFAULT : Int := 0
/-- Modelled from the spec: `VTK_COLOR_MODE_MAP_SCALARS` of the missing header. -/
def VTK_COLOR_MODE_MAP_SCALARS : Int := 1
/-- Modelled from the spec: `VTK_COLOR_MODE_DIRECT_SCALARS` of the missing
header (explicit direct-scalar mode). -/
def VTK_COLOR_MODE_DIRECT_SCALARS : Int := 2
/-- Modelled from the spec: `VTK_SCALAR_MODE_DEFAULT` of the missing header. -/
def VTK_SCALAR_MODE_DEFAULT : Int := 0
/-- Modelled from the spec: `VTK_GET_ARRAY_BY_ID` of the missing header. -/
def VTK_GET_ARRAY_BY_ID : Int := 0
/-- Modelled from the spec: `VTK_GET_ARRAY_BY_NAME` of the missing header. -/
def VTK_GET_ARRAY_BY_NAME : Int := 1
/-- Modelled from the spec: `vtkScalarsToColors::MAGNITUDE` of the missing
header `vtkScalarsToColors.h`. -/
def MAGNITUDE : Int := 0
/-- Modelled from the spec: `vtkScalarsToColors::COMPONENT` of the missing header. -/
def COMPONENT : Int := 1
/-- Modelled from the spec: `VTK_BIT` of the missing header `vtkType.h`, the
tag of 1-bit storage. -/
def VTK_BIT : Int := 1
/-- Modelled from the spec: `VTK_DOUBLE` of the missing header `vtkType.h`. -/
def VTK_DOUBLE : Int := 11

/-- Modelled from the spec: the cases of `vtkTemplateMacro` (missing header
`vtkSetGet.h`): "all numeric scalar storage types except 1-bit arrays". The
tags are those of `vtkType.h`: char 2, unsigned char 3, short 4, unsigned
short 5, int 6, unsigned int 7, long 8, unsigned long 9, float 10, double 11,
id type 12, signed char 15, long long 16, unsigned long long 17. -/
def vtkTemplateMacroCovers (dataType : Int) : Bool :=
  decide (dataType ∈ [2, 3, 4, 5, 6, 7, 8, 9, 10, 11, 12, 15, 16, 17])

/-! ## Data model -/

/-- One RGBA colour, four bytes. -/
abbrev RGBA := Nat × Nat × Nat × Nat

/-- Observable state of a `vtkScalarsToColors` / `vtkLookupTable`. -/
structure ScalarsToColors where
  /-- Value of `GetMTime()`. -/
  mtime : Nat
  /-- Value of `GetAlpha()`. -/
  alpha : Dbl
  /-- Value of `GetRange()`. -/
  range : Dbl × Dbl
  /-- Value of `GetIndexedLookup()`. -/
  indexedLookup : Bool
  /-- Value of `GetVectorMode()`. -/
  vectorMode : Int
  /-- Value of `GetVectorComponent()`. -/
  vectorComponent : Int
  /-- Value of `GetNumberOfAvailableColors()`. -/
  numberOfAvailableColors : Int
  /-- Whether `UsingLogScale()` is non-zero. -/
  usingLogScale : Bool
  /-- Annotated values set through `SetAnnotation`, in order. -/
  annotations : List String
  /-- Colours of the table set by a colour series. -/
  tableValues : List RGBA
deriving DecidableEq

/-- A `vtkAbstractArray` of the input, as far as the mapper looks at it. -/
structure AbstractArray where
  /-- Whether `vtkArrayDownCast<vtkDataArray>` succeeds (numeric array). -/
  isDataArray : Bool
  /-- Whether `vtkArrayDownCast<vtkUnsignedCharArray>` succeeds. -/
  isUnsignedCharArray : Bool
  /-- Value of `GetDataType()`. -/
  dataType : Int
  /-- Value of `GetNumberOfComponents()`. -/
  numberOfComponents : Int
  /-- Value of `GetNumberOfTuples()`. -/
  numberOfTuples : Nat
  /-- The stored components converted to `double`, tuple after tuple. -/
  values : List Dbl
  /-- Address of the table returned by `vtkDataArray::GetLookupTable()`. -/
  lookupTable : Option Nat
deriving DecidableEq

/-- A `vtkDataSet`: its modification time and a key that the scalar resolver
of `vtkAbstractMapper` reads its arrays from. -/
structure DataSet where
  /-- Value of `GetMTime()`. -/
  mtime : Nat
  /-- Contents, as seen by the resolver. -/
  key : Nat
deriving DecidableEq

/-- A `vtkDataObject`: a data set, or an object for which
`IsA("vtkDataSet")` is false. -/
inductive DataObject where
  | dataSet (ds : DataSet) : DataObject
  | other (mtime : Nat) : DataObject
deriving DecidableEq

/-- `vtkDataObject::GetMTime`. -/
def DataObject.GetMTime : DataObject → Nat
  | DataObject.dataSet ds => ds.mtime
  | DataObject.other mtime => mtime

/-- A `vtkUnsignedCharArray` of colours produced by a table. -/
structure ColorArray where
  /-- Address of the object. -/
  id : Nat
  /-- Value of `GetMTime()`. -/
  mtime : Nat
  /-- One colour per mapped tuple. -/
  colors : List RGBA
deriving DecidableEq

/-- The `vtkFloatArray` of texture coordinates; `coords` is `none` while the
allocated buffer has not been written. -/
structure FloatArray where
  /-- Address of the object. -/
  id : Nat
  /-- Value of `GetMTime()`. -/
  mtime : Nat
  /-- Value of `GetNumberOfTuples()`. -/
  numberOfTuples : Nat
  /-- The pairs `(s, t)`, one per tuple. -/
  coords : Option (List (Dbl × Dbl))
deriving DecidableEq

/-- The `vtkImageData` holding the colour texture. -/
structure ImageData where
  /-- Address of the object. -/
  id : Nat
  /-- Value of `GetMTime()`. -/
  mtime : Nat
  /-- Extent set by `SetExtent`: x from, x to, y from, y to, z from, z to. -/
  extent : Int × Int × Int × Int × Int × Int
  /-- The scalars handed to the table to colour the texels. -/
  samples : List Dbl
  /-- The point scalars: the colours the table returned for `samples`. -/
  scalars : ColorArray
deriving DecidableEq

/-- Per-object state of a `vtkMapper`. -/
structure Mapper where
  /-- Own modification time, `vtkAbstractMapper::GetMTime()`. -/
  MTime : Nat
  /-- Pipeline input `GetExecutive()->GetInputData(0, 0)`; `none` when the
  mapper has no input connection. -/
  InputData : Option DataObject
  Colors : Option ColorArray
  ColorCoordinates : Option FloatArray
  ColorTextureMap : Option ImageData
  /-- Address of the lookup table, if one is assigned. -/
  LookupTable : Option Nat
  ScalarVisibility : Bool
  ScalarRange : Dbl × Dbl
  UseLookupTableScalarRange : Bool
  ColorMode : Int
  ScalarMode : Int
  ArrayName : String
  ArrayId : Int
  ArrayComponent : Int
  ArrayAccessMode : Int
  FieldDataTupleId : Int
  InterpolateScalarsBeforeMapping : Bool
  CoincidentPolygonFactor : Dbl
  CoincidentPolygonOffset : Dbl
  CoincidentLineFactor : Dbl
  CoincidentLineOffset : Dbl
  CoincidentPointOffset : Dbl
  RelativeCoincidentTopologyZShift : Dbl
deriving DecidableEq

/-- State shared by all objects: the time-stamp counter, the allocator, the
heap of lookup tables and the errors reported through `vtkErrorMacro`. -/
structure World where
  /-- Last value handed out by `vtkTimeStamp::Modified`. -/
  clock : Nat
  /-- Next free address. -/
  nextId : Nat
  /-- The lookup table stored at each address. -/
  luts : Nat → ScalarsToColors
  /-- Messages of `vtkErrorMacro`, oldest first. -/
  errors : List String

/-- Collaborators of the mapper whose code is outside this file. -/
structure Env where
  /-- Array and cell flag of `vtkAbstractMapper::GetAbstractScalars`, from
  the input, scalar mode, access mode, array id, array name and the cell flag
  on entry. -/
  GetAbstractScalars :
    Option DataSet → Int → Int → Int → String → Int → Option AbstractArray × Int
  /-- Array and cell flag of `vtkAbstractMapper::GetScalars`. -/
  GetScalars : DataSet → Int → Int → Int → String → Int → Option AbstractArray × Int
  /-- Colours of `vtkScalarsToColors::MapScalars(array, colorMode, component)`. -/
  lutMapScalars : ScalarsToColors → AbstractArray → Int → Int → List RGBA
  /-- Values found by `vtkAbstractArray::GetProminentComponentValues(0, ..)`,
  each rendered by `vtkVariant::ToString`. -/
  prominentValues : AbstractArray → List String
  /-- Colours of the scheme `vtkColorSeries::BREWER_QUALITATIVE_PAIRED`. -/
  palette : List RGBA
  /-- The function `sqrt` of the C library. -/
  sqrt : Dbl → Dbl
  /-- The function `pow(10.0, x)` of the C library. -/
  pow10 : Dbl → Dbl
  /-- Range converted by `vtkLookupTable::GetLogRange`. -/
  GetLogRange : Dbl × Dbl → Dbl × Dbl
  /-- Value of `vtkLookupTable::ApplyLogScale(v, table_range, log_range)`. -/
  ApplyLogScale : Dbl → Dbl × Dbl → Dbl × Dbl → Dbl

/-- Result of a `MapScalars` call: the returned pointer, the mapper and the
shared state afterwards, and the cell flag written through the reference. -/
structure MapScalarsResult where
  ret : Option ColorArray
  mapper : Mapper
  world : World
  cellFlag : Int

/-- The call `vtkAbstractMapper::GetAbstractScalars(input, this->ScalarMode,
this->ArrayAccessMode, this->ArrayId, this->ArrayName, cellFlag)`: the array,
and the cell flag on return. -/
def resolveAbstractScalars (env : Env) (m : Mapper) (input : Option DataSet) (cellFlag : Int) :
    Option AbstractArray × Int :=
  env.GetAbstractScalars input m.ScalarMode m.ArrayAccessMode m.ArrayId m.ArrayName cellFlag

/-- The call `vtkAbstractMapper::GetScalars(ds, this->ScalarMode,
this->ArrayAccessMode, this->ArrayId, this->ArrayName, cellFlag)`: the array,
and the cell flag on return. -/
def resolveScalars (env : Env) (m : Mapper) (ds : DataSet) (cellFlag : Int) :
    Option AbstractArray × Int :=
  env.GetScalars ds m.ScalarMode m.ArrayAccessMode m.ArrayId m.ArrayName cellFlag

/-! ## Lookup-table collaborator -/

/-- Modelled from the spec: `vtkLookupTable::New()`, missing from the sources;
"a standard continuous ramp table": not indexed, range (0, 1), alpha 1,
256 colours, linear scale, colouring by component 0. Its time stamp is set by
the caller. -/
def newLookupTable : ScalarsToColors :=
  { mtime := 0, alpha := Dbl.fin 1, range := (Dbl.fin 0, Dbl.fin 1), indexedLookup := false,
    vectorMode := COMPONENT, vectorComponent := 0, numberOfAvailableColors := 256,
    usingLogScale := false, annotations := [], tableValues := [] }

/-- Modelled from the spec: `vtkScalarsToColors::SetAlpha`, missing from the
sources ("alpha get/set"); the alpha is stored and the table's modification
time is left alone, as the reuse of cached colours after the alpha has been
restored requires. -/
def lutSetAlpha (w : World) (l : Nat) (alpha : Dbl) : World :=
  { w with luts := Function.update w.luts l { w.luts l with alpha := alpha } }

/-- Modelled from the spec: `vtkScalarsToColors::SetRange`, missing from the
sources ("range get/set"); a range that differs from the stored one is stored
and the table is stamped modified, an equal range changes nothing. -/
def lutSetRange (w : World) (l : Nat) (range : Dbl × Dbl) : World :=
  if Dbl.eq (w.luts l).range.1 range.1 && Dbl.eq (w.luts l).range.2 range.2 then w
  else
    { w with
      clock := w.clock + 1
      luts := Function.update w.luts l { w.luts l with range := range, mtime := w.clock + 1 } }

/-- Modelled from the spec: `vtkScalarsToColors::Build`, missing from the
sources ("build()"); it regenerates the colours inside the table, which the
observable state does not hold. -/
def lutBuild (w : World) (_l : Nat) : World := w

/-- Modelled from the spec: the calls of `CreateDefaultLookupTable` on a new
table for a non-numeric array, all missing from the sources
(`IndexedLookupOn`, `SetNumberOfTableValues`, `SetAnnotation` for each
prominent value, `vtkColorSeries::BuildLookupTable` with the scheme
`BREWER_QUALITATIVE_PAIRED` and `CATEGORICAL`): the table "switches into
indexed-lookup mode", "registers each [prominent value] as an annotation
mapped to a qualitative, visually-distinct color drawn from a fixed
categorical palette scheme, sized exactly to the number of distinct values
found". The table is stamped modified. -/
def lutSetupIndexed (env : Env) (w : World) (l : Nat) (a : AbstractArray) : World :=
  let prominent := env.prominentValues a
  let n := prominent.length
  { w with
    clock := w.clock + 1
    luts := Function.update w.luts l
      { w.luts l with
        indexedLookup := true
        numberOfAvailableColors := (n : Int)
        annotations := prominent
        tableValues := (List.range n).map
          (fun i => env.palette.getD (i % env.palette.length) (0, 0, 0, 255))
        mtime := w.clock + 1 } }

/-! ## The mapper -/

/-- `vtkObject::Modified()` on the mapper. -/
def Modified (m : Mapper) (w : World) : Mapper × World :=
  ({ m with MTime := w.clock + 1 }, { w with clock := w.clock + 1 })

/-- `vtkMapper::GetMTime`. -/
def GetMTime (m : Mapper) (w : World) : Nat :=
  let mTime := m.MTime
  match m.LookupTable with
  | some l =>
    let lutMTime := (w.luts l).mtime
    if lutMTime > mTime then lutMTime else mTime
  | none => mTime

/-- `vtkMapper::GetInput`. -/
def GetInput (m : Mapper) : Option DataSet :=
  match m.InputData with
  | some (DataObject.dataSet ds) => some ds
  | _ => none

/-- `vtkMapper::SetLookupTable`. -/
def SetLookupTable (m : Mapper) (w : World) (lut : Option Nat) : Mapper × World :=
  if m.LookupTable ≠ lut then Modified { m with LookupTable := lut } w
  else (m, w)

/-- `vtkMapper::CreateDefaultLookupTable`. -/
def CreateDefaultLookupTable (env : Env) (m : Mapper) (w : World) : Mapper × World :=
  let table := w.nextId
  let w1 : World :=
    { w with
      clock := w.clock + 1
      nextId := w.nextId + 1
      luts := Function.update w.luts table { newLookupTable with mtime := w.clock + 1 } }
  let m1 := { m with LookupTable := some table }
  let abstractArray := (resolveAbstractScalars env m1 (GetInput m1) 0).1
  match abstractArray with
  | some a => if !a.isDataArray then (m1, lutSetupIndexed env w1 table a) else (m1, w1)
  | none => (m1, w1)

/-- `vtkMapper::GetLookupTable`. -/
def GetLookupTable (env : Env) (m : Mapper) (w : World) : Option Nat × Mapper × World :=
  let mw := if m.LookupTable = none then CreateDefaultLookupTable env m w else (m, w)
  (mw.1.LookupTable, mw.1, mw.2)

/-- `vtkMapper::CanUseTextureMapForColoring`. -/
def CanUseTextureMapForColoring (env : Env) (m : Mapper) (w : World) (input : DataObject) : Bool :=
  if !m.InterpolateScalarsBeforeMapping then false
  else if (match m.LookupTable with
      | some l => (w.luts l).indexedLookup
      | none => false) then false
  else
    match input with
    | DataObject.dataSet ds =>
      let r := resolveScalars env m ds 0
      match r.1 with
      | none => true
      | some scalars =>
        if r.2 ≠ 0 then false
        else if (m.ColorMode = VTK_COLOR_MODE_DEFAULT ∧ scalars.isUnsignedCharArray = true) ∨
            m.ColorMode = VTK_COLOR_MODE_DIRECT_SCALARS then false
        else true
    | DataObject.other _ => true

/-- `ScalarToTextureCoordinate`: the pair `(tex_coord_s, tex_coord_t)`. -/
def ScalarToTextureCoordinate (scalar_value range_min inv_range_width : Dbl) : Dbl × Dbl :=
  let st : Dbl × Dbl :=
    if scalar_value.IsNan then (Dbl.fin (1 / 2), Dbl.fin 1)
    else
      let ranged_scalar := Dbl.mul (Dbl.sub scalar_value range_min) inv_range_width
      (ranged_scalar, Dbl.fin (49 / 100))
  if Dbl.gt st.1 (Dbl.fin 1000) then (Dbl.fin 1000, st.2)
  else if Dbl.lt st.1 (Dbl.fin (-1000)) then (Dbl.fin (-1000), st.2)
  else st

/-- The local `padded_range[0]` and `inv_range_width` of
`CreateColorTextureCoordinates`. -/
def paddedRange (range : Dbl × Dbl) (tableNumberOfColors : Int) : Dbl × Dbl :=
  let scalar_texel_width := Dbl.div (Dbl.sub range.2 range.1) (Dbl.ofInt tableNumberOfColors)
  let padded_range0 := Dbl.sub range.1 scalar_texel_width
  let padded_range1 := Dbl.add range.2 scalar_texel_width
  let inv_range_width := Dbl.div (Dbl.fin 1) (Dbl.sub padded_range1 padded_range0)
  (padded_range0, inv_range_width)

/-- `CreateColorTextureCoordinates`: the pairs written to `output`. A read
past the end of `input` yields NaN. -/
def CreateColorTextureCoordinates (env : Env) (input : List Dbl) (numScalars : Nat)
    (numComps component : Int) (range table_range : Dbl × Dbl) (tableNumberOfColors : Int)
    (use_log_scale : Bool) : List (Dbl × Dbl) :=
  let pr := paddedRange range tableNumberOfColors
  if component < 0 ∨ component ≥ numComps then
    (List.range numScalars).map fun scalarIdx =>
      let sum := (List.range numComps.toNat).foldl
        (fun sum compIdx =>
          let tmp := input.getD (scalarIdx * numComps.toNat + compIdx) Dbl.nan
          Dbl.add sum (Dbl.mul tmp tmp))
        (Dbl.fin 0)
      let magnitude := env.sqrt sum
      let magnitude := if use_log_scale then env.ApplyLogScale magnitude table_range range
        else magnitude
      ScalarToTextureCoordinate magnitude pr.1 pr.2
  else
    (List.range numScalars).map fun scalarIdx =>
      let input_value := input.getD (component.toNat + scalarIdx * numComps.toNat) Dbl.nan
      let input_value := if use_log_scale then env.ApplyLogScale input_value table_range range
        else input_value
      ScalarToTextureCoordinate input_value pr.1 pr.2

/-- The local `numberOfColors` of `MapScalarsToTexture`, from the value of
`GetNumberOfAvailableColors()`. -/
def textureNumberOfColors (numberOfAvailableColors : Int) : Int :=
  let numberOfColors := numberOfAvailableColors + 2
  if numberOfColors > 65538 then 8192 else numberOfColors

/-- The local `k` of `MapScalarsToTexture`. -/
def textureStep (range : Dbl × Dbl) (numberOfColors : Int) : Dbl :=
  Dbl.div (Dbl.sub range.2 range.1) (Dbl.ofInt (numberOfColors - 2))

/-- The contents of the array `tmp` of `MapScalarsToTexture` after its two
loops. -/
def textureSamples (env : Env) (range : Dbl × Dbl) (numberOfColors : Int)
    (use_log_scale : Bool) : List Dbl :=
  let k := textureStep range numberOfColors
  (List.range numberOfColors.toNat).map
      (fun (i : Nat) =>
        let v := Dbl.sub (Dbl.add range.1 (Dbl.mul (Dbl.ofInt (i : Int)) k)) (Dbl.div k (Dbl.fin 2))
        if use_log_scale then env.pow10 v else v)
    ++ (List.range numberOfColors.toNat).map (fun _ => Dbl.nan)

/-- The part of `MapScalarsToTexture` that recreates the colour texture map. -/
def buildColorTextureMap (env : Env) (m : Mapper) (w : World) (l : Nat) (range : Dbl × Dbl)
    (use_log_scale : Bool) (alpha orig_alpha : Dbl) : Mapper × World :=
  let w1 := lutSetAlpha w l alpha
  let numberOfColors := textureNumberOfColors (w1.luts l).numberOfAvailableColors
  let samples := textureSamples env range numberOfColors use_log_scale
  let tmp : AbstractArray :=
    { isDataArray := true, isUnsignedCharArray := false, dataType := VTK_DOUBLE,
      numberOfComponents := 1, numberOfTuples := (numberOfColors * 2).toNat,
      values := samples, lookupTable := none }
  let scalars : ColorArray :=
    { id := w1.nextId, mtime := w1.clock + 1,
      colors := env.lutMapScalars (w1.luts l) tmp m.ColorMode 0 }
  let image : ImageData :=
    { id := w1.nextId + 1, mtime := w1.clock + 2,
      extent := (0, numberOfColors - 1, 0, 1, 0, 0), samples := samples, scalars := scalars }
  let w2 := { w1 with clock := w1.clock + 2, nextId := w1.nextId + 2 }
  ({ m with ColorTextureMap := some image }, lutSetAlpha w2 l orig_alpha)

/-- The part of `MapScalarsToTexture` that recreates the texture coordinates. -/
def buildColorCoordinates (env : Env) (m : Mapper) (w : World) (l : Nat)
    (scalars : AbstractArray) (range : Dbl × Dbl) (use_log_scale : Bool) : Mapper × World :=
  let numComps := scalars.numberOfComponents
  let num := scalars.numberOfTuples
  let fresh : FloatArray :=
    { id := w.nextId, mtime := w.clock + 1, numberOfTuples := num, coords := none }
  let w1 := { w with clock := w.clock + 1, nextId := w.nextId + 1 }
  let lut := w1.luts l
  let scalarComponent : Int :=
    if lut.vectorMode = MAGNITUDE ∧ scalars.numberOfComponents > 1 then -1
    else lut.vectorComponent
  if vtkTemplateMacroCovers scalars.dataType then
    let out := CreateColorTextureCoordinates env scalars.values num numComps scalarComponent
      range lut.range lut.numberOfAvailableColors use_log_scale
    ({ m with ColorCoordinates := some { fresh with coords := some out } }, w1)
  else if scalars.dataType = VTK_BIT then
    ({ m with ColorCoordinates := some fresh },
      { w1 with errors := w1.errors ++ ["Cannot color by bit array."] })
  else
    ({ m with ColorCoordinates := some fresh },
      { w1 with errors := w1.errors ++ ["Unknown input ScalarType"] })

/-- Lines 867 to 923 of `MapScalarsToTexture`: the colour texture map is
recreated when it is missing or older than the mapper or the table, or when
the table's alpha is not the requested one. -/
def updateColorTextureMap (env : Env) (m : Mapper) (w : World) (l : Nat) (range : Dbl × Dbl)
    (use_log_scale : Bool) (alpha orig_alpha : Dbl) : Mapper × World :=
  let rebuildTexture : Bool :=
    match m.ColorTextureMap with
    | none => true
    | some t =>
      decide (GetMTime m w > t.mtime) || decide ((w.luts l).mtime > t.mtime) ||
        Dbl.ne (w.luts l).alpha alpha
  if rebuildTexture then buildColorTextureMap env m w l range use_log_scale alpha orig_alpha
  else (m, w)

/-- Lines 925 to 970 of `MapScalarsToTexture`: the texture coordinates are
recreated when they are missing or older than the mapper, the pipeline input
or the table. -/
def updateColorCoordinates (env : Env) (m : Mapper) (w : World) (l : Nat)
    (scalars : AbstractArray) (range : Dbl × Dbl) (use_log_scale : Bool) :
    Option (Mapper × World) :=
  match m.ColorCoordinates with
  | none => some (buildColorCoordinates env m w l scalars range use_log_scale)
  | some c =>
    if GetMTime m w > c.mtime then
      some (buildColorCoordinates env m w l scalars range use_log_scale)
    else
      match m.InputData with
      | none => none
      | some inputData =>
        if inputData.GetMTime > c.mtime ∨ (w.luts l).mtime > c.mtime then
          some (buildColorCoordinates env m w l scalars range use_log_scale)
        else some (m, w)

/-- `vtkMapper::MapScalarsToTexture`. -/
def MapScalarsToTexture (env : Env) (m : Mapper) (w : World) (scalars : AbstractArray)
    (alpha : Dbl) : Option (Mapper × World) :=
  match m.LookupTable with
  | none => none
  | some l =>
    let use_log_scale := (w.luts l).usingLogScale
    let range := if use_log_scale then env.GetLogRange (w.luts l).range else (w.luts l).range
    let orig_alpha := (w.luts l).alpha
    let m1 := { m with Colors := none }
    let mw2 := updateColorTextureMap env m1 w l range use_log_scale alpha orig_alpha
    updateColorCoordinates env mw2.1 mw2.2 l scalars range use_log_scale

/-- Lines 451 to 457 of `MapScalars`: the legacy reset of the array component. -/
def resetArrayComponent (m : Mapper) (scalars : Option AbstractArray) : Mapper :=
  match scalars with
  | none => { m with ArrayComponent := 0 }
  | some a => if a.numberOfComponents ≤ m.ArrayComponent then { m with ArrayComponent := 0 } else m

/-- The table of `dataArray->GetLookupTable()` at line 481 of `MapScalars`,
`none` when the array is no `vtkDataArray` or has no table. -/
def arrayLookupTable (a : AbstractArray) : Option Nat :=
  if a.isDataArray then a.lookupTable else none

/-- Lines 479 to 493 of `MapScalars`: the table is taken from the array, or
created when the mapper has none, and built. -/
def selectLookupTable (env : Env) (m : Mapper) (w : World) (scalars : AbstractArray) :
    Option (Mapper × World) :=
  match arrayLookupTable scalars with
  | some t => some (SetLookupTable m w (some t))
  | none =>
    let mw := if m.LookupTable = none then CreateDefaultLookupTable env m w else (m, w)
    match mw.1.LookupTable with
    | none => none
    | some l => some (mw.1, lutBuild mw.2 l)

/-- Lines 494 to 497 of `MapScalars`: the mapper's range is given to the
table unless the table's own range is to be used. -/
def applyScalarRange (m : Mapper) (w : World) : Option (Mapper × World) :=
  if !m.UseLookupTableScalarRange then
    match m.LookupTable with
    | none => none
    | some l => some (m, lutSetRange w l m.ScalarRange)
  else some (m, w)

/-- Lines 479 to 497 of `MapScalars`. -/
def setupLookupTable (env : Env) (m : Mapper) (w : World) (scalars : AbstractArray) :
    Option (Mapper × World) :=
  match selectLookupTable env m w scalars with
  | none => none
  | some (m1, w1) => applyScalarRange m1 w1

/-- Lines 523 to 535 of `MapScalars`: the cached colours, when they may be
reused. -/
def reusableColors (m : Mapper) (w : World) (input : DataSet) (alpha : Dbl) : Option ColorArray :=
  match m.Colors with
  | none => none
  | some c =>
    match m.LookupTable with
    | none => none
    | some l =>
      if Dbl.eq (w.luts l).alpha alpha then
        if GetMTime m w < c.mtime ∧ input.mtime < c.mtime ∧ (w.luts l).mtime < c.mtime
        then some c else none
      else none

/-- Lines 537 to 553 of `MapScalars`: the colours are mapped anew. -/
def recomputeColors (env : Env) (m : Mapper) (w : World) (scalars : AbstractArray)
    (alpha : Dbl) : Option (ColorArray × Mapper × World) :=
  let m1 := { m with Colors := none }
  match m1.LookupTable with
  | none => none
  | some l =>
    let orig_alpha := (w.luts l).alpha
    let w1 := lutSetAlpha w l alpha
    let colors : ColorArray :=
      { id := w1.nextId, mtime := w1.clock + 1,
        colors := env.lutMapScalars (w1.luts l) scalars m1.ColorMode m1.ArrayComponent }
    let w2 := { w1 with clock := w1.clock + 1, nextId := w1.nextId + 1 }
    let w3 := lutSetAlpha w2 l orig_alpha
    some (colors, { m1 with Colors := some colors }, w3)

/-- `vtkMapper::MapScalars(vtkDataSet* input, double alpha, int& cellFlag)`. -/
def MapScalars (env : Env) (m : Mapper) (w : World) (input : Option DataSet) (alpha : Dbl)
    (cellFlag : Int) : Option MapScalarsResult :=
  let r := resolveAbstractScalars env m input cellFlag
  let m0 := resetArrayComponent m r.1
  match m0.ScalarVisibility, r.1, input with
  | true, some scalars, some ds =>
    match setupLookupTable env m0 w scalars with
    | none => none
    | some (m1, w1) =>
      if CanUseTextureMapForColoring env m1 w1 (DataObject.dataSet ds) then
        match MapScalarsToTexture env m1 w1 scalars alpha with
        | none => none
        | some (m2, w2) => some { ret := none, mapper := m2, world := w2, cellFlag := r.2 }
      else
        let m2 := { m1 with ColorCoordinates := none, ColorTextureMap := none }
        match reusableColors m2 w1 ds alpha with
        | some c => some { ret := some c, mapper := m2, world := w1, cellFlag := r.2 }
        | none =>
          match recomputeColors env m2 w1 scalars alpha with
          | none => none
          | some (c, m3, w3) => some { ret := some c, mapper := m3, world := w3, cellFlag := r.2 }
  | _, _, _ =>
    some { ret := none,
           mapper := { m0 with ColorCoordinates := none, ColorTextureMap := none, Colors := none },
           world := w, cellFlag := r.2 }

/-- `vtkMapper::MapScalars(vtkDataSet* input, double alpha)`. -/
def MapScalars2 (env : Env) (m : Mapper) (w : World) (input : Option DataSet) (alpha : Dbl) :
    Option MapScalarsResult :=
  MapScalars env m w input alpha 0

/-- The four pointers a renderer can see after `MapScalars`: the returned
array, `Colors`, `ColorCoordinates` and `ColorTextureMap`. -/
def MapScalarsResult.outputs (r : MapScalarsResult) :
    Option ColorArray × Option ColorArray × Option FloatArray × Option ImageData :=
  (r.ret, r.mapper.Colors, r.mapper.ColorCoordinates, r.mapper.ColorTextureMap)

/-- The branch a `MapScalars` call takes. -/
inductive ColorPath where
  | noColor : ColorPath
  | texture : ColorPath
  | vertex : ColorPath
  | fault : ColorPath
deriving DecidableEq

/-- The branch `MapScalars` takes: no colours (line 459), the texture path
(line 502), the vertex-colour path (line 508), or a null lookup table. -/
def MapScalarsPath (env : Env) (m : Mapper) (w : World) (input : Option DataSet)
    (cellFlag : Int) : ColorPath :=
  let r := resolveAbstractScalars env m input cellFlag
  let m0 := resetArrayComponent m r.1
  match m0.ScalarVisibility, r.1, input with
  | true, some scalars, some ds =>
    match setupLookupTable env m0 w scalars with
    | none => ColorPath.fault
    | some (m1, w1) =>
      if CanUseTextureMapForColoring env m1 w1 (DataObject.dataSet ds) then ColorPath.texture
      else ColorPath.vertex
  | _, _, _ => ColorPath.noColor

/-- The constructor `vtkMapper::vtkMapper`, for an object stamped `mtime`. -/
def vtkMapper_new (mtime : Nat) : Mapper :=
  { MTime := mtime, InputData := none, Colors := none, ColorCoordinates := none,
    ColorTextureMap := none, LookupTable := none, ScalarVisibility := true,
    ScalarRange := (Dbl.fin 0, Dbl.fin 1), UseLookupTableScalarRange := false,
    ColorMode := VTK_COLOR_MODE_DEFAULT, ScalarMode := VTK_SCALAR_MODE_DEFAULT,
    ArrayName := "", ArrayId := -1, ArrayComponent := 0, ArrayAccessMode := VTK_GET_ARRAY_BY_ID,
    FieldDataTupleId := -1, InterpolateScalarsBeforeMapping := false,
    CoincidentPolygonFactor := Dbl.fin 0, CoincidentPolygonOffset := Dbl.fin 0,
    CoincidentLineFactor := Dbl.fin 0, CoincidentLineOffset := Dbl.fin 0,
    CoincidentPointOffset := Dbl.fin 0, RelativeCoincidentTopologyZShift := Dbl.fin 0 }

/-! ## Concrete objects used to exercise the definitions -/

/-- A one-component `vtkDoubleArray` with the three values 0, 1/2 and 1. -/
def sampleArray : AbstractArray :=
  { isDataArray := true, isUnsignedCharArray := false, dataType := VTK_DOUBLE,
    numberOfComponents := 1, numberOfTuples := 3,
    values := [Dbl.fin 0, Dbl.fin (1 / 2), Dbl.fin 1], lookupTable := none }

/-- A resolver and a table over the sample data: the data set with key 1
carries `sampleArray` as point scalars, the one with key 2 as cell scalars,
any other data set has no scalars. -/
def sampleEnv : Env :=
  { GetAbstractScalars := fun input _ _ _ _ cellFlag =>
      match input with
      | none => (none, cellFlag)
      | some ds =>
        if ds.key = 1 then (some sampleArray, 0)
        else if ds.key = 2 then (some sampleArray, 1)
        else (none, cellFlag)
    GetScalars := fun ds _ _ _ _ cellFlag =>
      if ds.key = 1 then (some sampleArray, 0)
      else if ds.key = 2 then (some sampleArray, 1)
      else (none, cellFlag)
    lutMapScalars := fun _ a _ _ => a.values.map (fun _ => (0, 0, 0, 255))
    prominentValues := fun _ => []
    palette := []
    sqrt := fun x => x
    pow10 := fun x => x
    GetLogRange := fun r => r
    ApplyLogScale := fun v _ _ => v }

/-- A heap in which every address holds a new table stamped 2; clock at 10. -/
def sampleWorld : World :=
  { clock := 10, nextId := 5, luts := fun _ => { newLookupTable with mtime := 2 }, errors := [] }

/-- A data set with point scalars, last modified at time 3. -/
def samplePointData : DataSet := { mtime := 3, key := 1 }

/-- A data set with cell scalars, last modified at time 3. -/
def sampleCellData : DataSet := { mtime := 3, key := 2 }

/-- A mapper as constructed, connected to `samplePointData`, with the table at
address 0. -/
def sampleMapper : Mapper :=
  { vtkMapper_new 1 with
    InputData := some (DataObject.dataSet samplePointData), LookupTable := some 0 }

/-- Two `MapScalars` calls in a row with the same input and alpha, nothing
else touching the mapper, its table or the input in between: the results of
the first and of the second call. -/
def MapScalarsTwice (env : Env) (m : Mapper) (w : World) (input : Option DataSet) (alpha : Dbl)
    (cellFlag : Int) : Option (MapScalarsResult × MapScalarsResult) :=
  match MapScalars env m w input alpha cellFlag with
  | none => none
  | some r1 =>
    match MapScalars env r1.mapper r1.world input alpha cellFlag with
    | none => none
    | some r2 => some (r1, r2)

/-- The sample mapper with `InterpolateScalarsBeforeMapping` switched on. -/
def sampleTextureMapper : Mapper :=
  { sampleMapper with InterpolateScalarsBeforeMapping := true }

/-- No time stamp of the mapper or of a lookup table is ahead of the
process-wide counter they are drawn from. -/
def Stamped (m : Mapper) (w : World) : Prop :=
  m.MTime ≤ w.clock ∧ ∀ l, (w.luts l).mtime ≤ w.clock

/-- The table set-up of `MapScalars` has nothing left to do: the mapper holds
the table `l`, which is the array's own table if it has one, and the table's
range compares equal to the mapper's range unless the table's range is used. -/
def TableReady (m : Mapper) (w : World) (a : AbstractArray) (l : Nat) : Prop :=
  m.LookupTable = some l ∧
  (∀ t, arrayLookupTable a = some t → t = l) ∧
  (m.UseLookupTableScalarRange = false →
    Dbl.eq (w.luts l).range.1 m.ScalarRange.1 = true ∧
    Dbl.eq (w.luts l).range.2 m.ScalarRange.2 = true)

/-- A `MapScalars` call, then a change of the range of the mapper's lookup
table by its owner (`SetRange` on the table), then a second `MapScalars` call
with the same input and alpha: the results of the two calls. -/
def MapScalarsAroundRangeChange (env : Env) (m : Mapper) (w : World) (input : Option DataSet)
    (alpha : Dbl) (cellFlag : Int) (range : Dbl × Dbl) :
    Option (MapScalarsResult × MapScalarsResult) :=
  match MapScalars env m w input alpha cellFlag with
  | none => none
  | some r1 =>
    match r1.mapper.LookupTable with
    | none => none
    | some l =>
      match MapScalars env r1.mapper (lutSetRange r1.world l range) input alpha cellFlag with
      | none => none
      | some r2 => some (r1, r2)

/-- The sample mapper holding colours cached at time 4 in an array at
address 1. -/
def sampleCachedMapper : Mapper :=
  { sampleMapper with Colors := some { id := 1, mtime := 4, colors := [] } }

/-- The sample heap after the range of every table has been changed at time
9. -/
def sampleLaterWorld : World :=
  { clock := 10, nextId := 5,
    luts := fun _ => { newLookupTable with mtime := 9, range := (Dbl.fin 0, Dbl.fin 2) },
    errors := [] }

/-- The condition the specification gives for colouring through a texture:
interpolation before mapping is on, the assigned table (if any) is not in
indexed-lookup mode, and, for a data-set input, either no scalar array
resolves or the resolved array is point-associated (cell flag 0) and it is
neither the case that the colour mode is DEFAULT with an unsigned-char array
nor that the colour mode is DIRECT_SCALARS. -/
def CanUseTextureSpec (env : Env) (m : Mapper) (w : World) (input : DataObject) : Prop :=
  m.InterpolateScalarsBeforeMapping = true ∧
  (∀ l, m.LookupTable = some l → (w.luts l).indexedLookup = false) ∧
  (∀ ds, input = DataObject.dataSet ds →
    (resolveScalars env m ds 0).1 = none ∨
    ∃ a, (resolveScalars env m ds 0).1 = some a ∧ (resolveScalars env m ds 0).2 = 0 ∧
      ¬ (m.ColorMode = VTK_COLOR_MODE_DEFAULT ∧ a.isUnsignedCharArray = true) ∧
      ¬ m.ColorMode = VTK_COLOR_MODE_DIRECT_SCALARS)

/-- A value clamped to the interval [-1000, 1000], as the specification
words it; NaN has no place in the interval and stays NaN. -/
def clampTo1000 : Dbl → Dbl
  | Dbl.nan => Dbl.nan
  | Dbl.pinf => Dbl.fin 1000
  | Dbl.ninf => Dbl.fin (-1000)
  | Dbl.fin q => Dbl.fin (max (-1000) (min 1000 q))

/-- Number of texels of the colour texture along its first axis, from the
extent given to `SetExtent`. -/
def ImageData.width (t : ImageData) : Int := t.extent.2.1 - t.extent.1 + 1

/-- A heap in which every address holds a new table reporting `n` available
colours. -/
def sampleWorldWithColors (n : Int) : World :=
  { clock := 10, nextId := 5,
    luts := fun _ => { newLookupTable with mtime := 2, numberOfAvailableColors := n },
    errors := [] }

/-- Modelled from the spec: `VTK_RESOLVE_OFF` of the missing header
`vtkMapper.h`. -/
def VTK_RESOLVE_OFF : Int := 0

/-- The file-scope statics of `vtkMapper.cxx` (lines 35 to 43), shared by all
mappers of the process. -/
structure Globals where
  ResolveCoincidentTopology : Int
  ResolveCoincidentTopologyZShift : Dbl
  ResolveCoincidentTopologyPolygonOffsetFaces : Int
  ResolveCoincidentTopologyPolygonOffsetFactor : Dbl
  ResolveCoincidentTopologyPolygonOffsetUnits : Dbl
  ResolveCoincidentTopologyLineOffsetFactor : Dbl
  ResolveCoincidentTopologyLineOffsetUnits : Dbl
  ResolveCoincidentTopologyPointOffsetUnits : Dbl
deriving DecidableEq

/-- The initial values of the statics (lines 35 to 43); the z-shift 0.01 is
the rational 1/100. -/
def initialGlobals : Globals :=
  { ResolveCoincidentTopology := VTK_RESOLVE_OFF
    ResolveCoincidentTopologyZShift := Dbl.fin (1 / 100)
    ResolveCoincidentTopologyPolygonOffsetFaces := 1
    ResolveCoincidentTopologyPolygonOffsetFactor := Dbl.fin 0
    ResolveCoincidentTopologyPolygonOffsetUnits := Dbl.fin 0
    ResolveCoincidentTopologyLineOffsetFactor := Dbl.fin 0
    ResolveCoincidentTopologyLineOffsetUnits := Dbl.fin (-4)
    ResolveCoincidentTopologyPointOffsetUnits := Dbl.fin (-8) }

/-- A process as the coincident-topology functions see it: the statics, a
mapper of the process, and the state shared by all objects. -/
structure Process where
  globals : Globals
  mapper : Mapper
  world : World

/-- `vtkMapper::SetResolveCoincidentTopology`. -/
def SetResolveCoincidentTopology (p : Process) (val : Int) : Process :=
  if val = p.globals.ResolveCoincidentTopology then p
  else { p with globals := { p.globals with ResolveCoincidentTopology := val } }

/-- `vtkMapper::GetResolveCoincidentTopology`. -/
def GetResolveCoincidentTopology (p : Process) : Int :=
  p.globals.ResolveCoincidentTopology

/-- `vtkMapper::SetResolveCoincidentTopologyToDefault`. -/
def SetResolveCoincidentTopologyToDefault (p : Process) : Process :=
  { p with globals := { p.globals with ResolveCoincidentTopology := VTK_RESOLVE_OFF } }

/-- `vtkMapper::SetResolveCoincidentTopologyZShift`. -/
def SetResolveCoincidentTopologyZShift (p : Process) (val : Dbl) : Process :=
  if Dbl.eq val p.globals.ResolveCoincidentTopologyZShift then p
  else { p with globals := { p.globals with ResolveCoincidentTopologyZShift := val } }

/-- `vtkMapper::GetGlobalResolveCoincidentTopologyZShift`. -/
def GetGlobalResolveCoincidentTopologyZShift (p : Process) : Dbl :=
  p.globals.ResolveCoincidentTopologyZShift

/-- `vtkMapper::GetResolveCoincidentTopologyZShift`. -/
def GetResolveCoincidentTopologyZShift (p : Process) : Dbl :=
  Dbl.add p.globals.ResolveCoincidentTopologyZShift p.mapper.RelativeCoincidentTopologyZShift

/-- `vtkMapper::SetResolveCoincidentTopologyPolygonOffsetParameters`. -/
def SetResolveCoincidentTopologyPolygonOffsetParameters (p : Process) (factor units : Dbl) :
    Process :=
  if Dbl.eq factor p.globals.ResolveCoincidentTopologyPolygonOffsetFactor &&
      Dbl.eq units p.globals.ResolveCoincidentTopologyPolygonOffsetUnits then p
  else
    { p with globals :=
      { p.globals with
        ResolveCoincidentTopologyPolygonOffsetFactor := factor
        ResolveCoincidentTopologyPolygonOffsetUnits := units } }

/-- `vtkMapper::GetResolveCoincidentTopologyPolygonOffsetParameters`: the
pair `(factor, units)`. -/
def GetResolveCoincidentTopologyPolygonOffsetParameters (p : Process) : Dbl × Dbl :=
  (p.globals.ResolveCoincidentTopologyPolygonOffsetFactor,
    p.globals.ResolveCoincidentTopologyPolygonOffsetUnits)

/-- The mapper after `this->Modified()`, inside a process. -/
def ModifiedMapper (p : Process) : Process :=
  { p with mapper := (Modified p.mapper p.world).1, world := (Modified p.mapper p.world).2 }

/-- `vtkMapper::SetRelativeCoincidentTopologyPolygonOffsetParameters`. -/
def SetRelativeCoincidentTopologyPolygonOffsetParameters (p : Process) (factor units : Dbl) :
    Process :=
  if Dbl.eq factor p.mapper.CoincidentPolygonFactor &&
      Dbl.eq units p.mapper.CoincidentPolygonOffset then p
  else
    ModifiedMapper
      { p with mapper :=
        { p.mapper with CoincidentPolygonFactor := factor, CoincidentPolygonOffset := units } }

/-- `vtkMapper::GetRelativeCoincidentTopologyPolygonOffsetParameters`: the
pair `(factor, units)`. -/
def GetRelativeCoincidentTopologyPolygonOffsetParameters (p : Process) : Dbl × Dbl :=
  (p.mapper.CoincidentPolygonFactor, p.mapper.CoincidentPolygonOffset)

/-- `vtkMapper::SetRelativeCoincidentTopologyZShift`. -/
def SetRelativeCoincidentTopologyZShift (p : Process) (shift : Dbl) : Process :=
  { p with mapper := { p.mapper with RelativeCoincidentTopologyZShift := shift } }

/-- `vtkMapper::GetRelativeCoincidentTopologyZShift`. -/
def GetRelativeCoincidentTopologyZShift (p : Process) : Dbl :=
  p.mapper.RelativeCoincidentTopologyZShift

/-- `vtkMapper::GetCoincidentTopologyPolygonOffsetParameters`: the pair
`(factor, units)`. -/
def GetCoincidentTopologyPolygonOffsetParameters (p : Process) : Dbl × Dbl :=
  (Dbl.add p.globals.ResolveCoincidentTopologyPolygonOffsetFactor
      p.mapper.CoincidentPolygonFactor,
    Dbl.add p.globals.ResolveCoincidentTopologyPolygonOffsetUnits
      p.mapper.CoincidentPolygonOffset)

/-- `vtkMapper::SetResolveCoincidentTopologyLineOffsetParameters`. -/
def SetResolveCoincidentTopologyLineOffsetParameters (p : Process) (factor units : Dbl) :
    Process :=
  if Dbl.eq factor p.globals.ResolveCoincidentTopologyLineOffsetFactor &&
      Dbl.eq units p.globals.ResolveCoincidentTopologyLineOffsetUnits then p
  else
    { p with globals :=
      { p.globals with
        ResolveCoincidentTopologyLineOffsetFactor := factor
        ResolveCoincidentTopologyLineOffsetUnits := units } }

/-- `vtkMapper::GetResolveCoincidentTopologyLineOffsetParameters`: the pair
`(factor, units)`. -/
def GetResolveCoincidentTopologyLineOffsetParameters (p : Process) : Dbl × Dbl :=
  (p.globals.ResolveCoincidentTopologyLineOffsetFactor,
    p.globals.ResolveCoincidentTopologyLineOffsetUnits)

/-- `vtkMapper::SetRelativeCoincidentTopologyLineOffsetParameters`. -/
def SetRelativeCoincidentTopologyLineOffsetParameters (p : Process) (factor units : Dbl) :
    Process :=
  if Dbl.eq factor p.mapper.CoincidentLineFactor &&
      Dbl.eq units p.mapper.CoincidentLineOffset then p
  else
    ModifiedMapper
      { p with mapper :=
        { p.mapper with CoincidentLineFactor := factor, CoincidentLineOffset := units } }

/-- `vtkMapper::GetRelativeCoincidentTopologyLineOffsetParameters`: the pair
`(factor, units)`. -/
def GetRelativeCoincidentTopologyLineOffsetParameters (p : Process) : Dbl × Dbl :=
  (p.mapper.CoincidentLineFactor, p.mapper.CoincidentLineOffset)

/-- `vtkMapper::GetCoincidentTopologyLineOffsetParameters`: the pair
`(factor, units)`. -/
def GetCoincidentTopologyLineOffsetParameters (p : Process) : Dbl × Dbl :=
  (Dbl.add p.globals.ResolveCoincidentTopologyLineOffsetFactor p.mapper.CoincidentLineFactor,
    Dbl.add p.globals.ResolveCoincidentTopologyLineOffsetUnits p.mapper.CoincidentLineOffset)

/-- `vtkMapper::SetResolveCoincidentTopologyPointOffsetParameter`. -/
def SetResolveCoincidentTopologyPointOffsetParameter (p : Process) (units : Dbl) : Process :=
  if Dbl.eq units p.globals.ResolveCoincidentTopologyPointOffsetUnits then p
  else { p with globals := { p.globals with ResolveCoincidentTopologyPointOffsetUnits := units } }

/-- `vtkMapper::GetResolveCoincidentTopologyPointOffsetParameter`. -/
def GetResolveCoincidentTopologyPointOffsetParameter (p : Process) : Dbl :=
  p.globals.ResolveCoincidentTopologyPointOffsetUnits

/-- `vtkMapper::SetRelativeCoincidentTopologyPointOffsetParameter`. -/
def SetRelativeCoincidentTopologyPointOffsetParameter (p : Process) (units : Dbl) : Process :=
  if Dbl.eq units p.mapper.CoincidentPointOffset then p
  else ModifiedMapper { p with mapper := { p.mapper with CoincidentPointOffset := units } }

/-- `vtkMapper::GetRelativeCoincidentTopologyPointOffsetParameter`. -/
def GetRelativeCoincidentTopologyPointOffsetParameter (p : Process) : Dbl :=
  p.mapper.CoincidentPointOffset

/-- `vtkMapper::GetCoincidentTopologyPointOffsetParameter`. -/
def GetCoincidentTopologyPointOffsetParameter (p : Process) : Dbl :=
  Dbl.add p.globals.ResolveCoincidentTopologyPointOffsetUnits p.mapper.CoincidentPointOffset

/-- `vtkMapper::SetResolveCoincidentTopologyPolygonOffsetFaces`. -/
def SetResolveCoincidentTopologyPolygonOffsetFaces (p : Process) (faces : Int) : Process :=
  { p with globals := { p.globals with ResolveCoincidentTopologyPolygonOffsetFaces := faces } }

/-- `vtkMapper::GetResolveCoincidentTopologyPolygonOffsetFaces`. -/
def GetResolveCoincidentTopologyPolygonOffsetFaces (p : Process) : Int :=
  p.globals.ResolveCoincidentTopologyPolygonOffsetFaces

/-- A process at start-up with the sample mapper. -/
def sampleProcess : Process :=
  { globals := initialGlobals, mapper := sampleMapper, world := sampleWorld }

/-- The sample mapper configured to colour by component 5 of an array that
has a single component. -/
def sampleComponentMapper : Mapper :=
  { sampleMapper with ArrayComponent := 5 }

/-- A one-component `double` array holding the single value `v`. -/
def sampleValueArray (v : ℚ) : AbstractArray :=
  { isDataArray := true, isUnsignedCharArray := false, dataType := VTK_DOUBLE,
    numberOfComponents := 1, numberOfTuples := 1, values := [Dbl.fin v], lookupTable := none }

/-- A string array of four tuples. -/
def sampleStringArray : AbstractArray :=
  { isDataArray := false, isUnsignedCharArray := false, dataType := 13,
    numberOfComponents := 1, numberOfTuples := 4, values := [], lookupTable := none }

/-- A resolver that finds `sampleStringArray` on every data set, with three
prominent values, and a palette of two colours. -/
def sampleStringEnv : Env :=
  { sampleEnv with
    GetAbstractScalars := fun input _ _ _ _ cellFlag =>
      match input with
      | none => (none, cellFlag)
      | some _ => (some sampleStringArray, 0)
    prominentValues := fun _ => ["a", "b", "c"]
    palette := [(166, 206, 227, 255), (31, 120, 180, 255)] }

/-- The sample mapper before any table has been assigned to it. -/
def sampleBareMapper : Mapper := { sampleMapper with LookupTable := none }

/-- The sample mapper with the scalar range from 2 to 7. -/
def sampleRangeMapper : Mapper := { sampleMapper with ScalarRange := (Dbl.fin 2, Dbl.fin 7) }

/-! ## Value selection on the texture path -/

/-- The local `magnitude` of the first loop of `CreateColorTextureCoordinates`
for tuple `scalarIdx`, before the log scale is applied. -/
def tupleMagnitude (env : Env) (input : List Dbl) (numComps : Int) (scalarIdx : Nat) : Dbl :=
  env.sqrt ((List.range numComps.toNat).foldl
    (fun sum compIdx =>
      let tmp := input.getD (scalarIdx * numComps.toNat + compIdx) Dbl.nan
      Dbl.add sum (Dbl.mul tmp tmp))
    (Dbl.fin 0))

/-- The local `input_value` of the second loop of
`CreateColorTextureCoordinates` for tuple `scalarIdx`, before the log scale is
applied. -/
def tupleComponent (input : List Dbl) (numComps component : Int) (scalarIdx : Nat) : Dbl :=
  input.getD (component.toNat + scalarIdx * numComps.toNat) Dbl.nan

/-- The local `scalarComponent` of `MapScalarsToTexture` (lines 946 to 956). -/
def textureScalarComponent (lut : ScalarsToColors) (scalars : AbstractArray) : Int :=
  if lut.vectorMode = MAGNITUDE ∧ scalars.numberOfComponents > 1 then -1
  else lut.vectorComponent

/-- The sample resolver with a square root that is right at 25. -/
def sampleSqrtEnv : Env :=
  { sampleEnv with sqrt := fun x => if Dbl.eq x (Dbl.fin 25) then Dbl.fin 5 else x }

/-- A two-component `double` array holding the single tuple (3, 4). -/
def sampleVectorArray : AbstractArray :=
  { isDataArray := true, isUnsignedCharArray := false, dataType := VTK_DOUBLE,
    numberOfComponents := 2, numberOfTuples := 1, values := [Dbl.fin 3, Dbl.fin 4],
    lookupTable := none }

/-- A heap in which every address holds a table of 8 colours over the range
from 0 to 10 that colours by component `c` in the vector mode `mode`. -/
def sampleVectorWorld (mode c : Int) : World :=
  { clock := 10, nextId := 5,
    luts := fun _ =>
      { newLookupTable with
        mtime := 2, numberOfAvailableColors := 8, range := (Dbl.fin 0, Dbl.fin 10),
        vectorMode := mode, vectorComponent := c },
    errors := [] }

/-! ## Copying a mapper -/

/-- Modelled from the spec: `vtkMapper::SetScalarVisibility`, a `vtkSetMacro`
setter of the missing header `vtkMapper.h` ("scalar coloring disabled"): a
value that differs from the stored one is stored and the mapper is stamped
modified. -/
def SetScalarVisibility (m : Mapper) (w : World) (v : Bool) : Mapper × World :=
  if m.ScalarVisibility ≠ v then Modified { m with ScalarVisibility := v } w else (m, w)

/-- Modelled from the spec: `vtkMapper::SetScalarRange`, a `vtkSetVector2Macro`
setter of the missing header ("its configured scalar range"). -/
def SetScalarRange (m : Mapper) (w : World) (v : Dbl × Dbl) : Mapper × World :=
  if Dbl.ne m.ScalarRange.1 v.1 || Dbl.ne m.ScalarRange.2 v.2 then
    Modified { m with ScalarRange := v } w
  else (m, w)

/-- Modelled from the spec: `vtkMapper::SetColorMode`, a `vtkSetMacro` setter
of the missing header ("color mode"). -/
def SetColorMode (m : Mapper) (w : World) (v : Int) : Mapper × World :=
  if m.ColorMode ≠ v then Modified { m with ColorMode := v } w else (m, w)

/-- Modelled from the spec: `vtkMapper::SetScalarMode`, a `vtkSetMacro` setter
of the missing header ("scalar-association mode"). -/
def SetScalarMode (m : Mapper) (w : World) (v : Int) : Mapper × World :=
  if m.ScalarMode ≠ v then Modified { m with ScalarMode := v } w else (m, w)

/-- Modelled from the spec: `vtkMapper::SetUseLookupTableScalarRange`, a
`vtkSetMacro` setter of the missing header ("the user pins the range to the
table's own range"). -/
def SetUseLookupTableScalarRange (m : Mapper) (w : World) (v : Bool) : Mapper × World :=
  if m.UseLookupTableScalarRange ≠ v then Modified { m with UseLookupTableScalarRange := v } w
  else (m, w)

/-- Modelled from the spec: `vtkMapper::SetInterpolateScalarsBeforeMapping`,
a `vtkSetMacro` setter of the missing header ("interpolation-before-mapping
is enabled by configuration"). -/
def SetInterpolateScalarsBeforeMapping (m : Mapper) (w : World) (v : Bool) : Mapper × World :=
  if m.InterpolateScalarsBeforeMapping ≠ v then
    Modified { m with InterpolateScalarsBeforeMapping := v } w
  else (m, w)

/-- Modelled from the spec: `vtkMapper::SetFieldDataTupleId`, a `vtkSetMacro`
setter of the missing header (part of "the mapper's configuration"). -/
def SetFieldDataTupleId (m : Mapper) (w : World) (v : Int) : Mapper × World :=
  if m.FieldDataTupleId ≠ v then Modified { m with FieldDataTupleId := v } w else (m, w)

/-- Modelled from the spec: `vtkMapper::SetArrayName`, a `vtkSetStringMacro`
setter of the missing header ("identified either by integer id or by
name"). -/
def SetArrayName (m : Mapper) (w : World) (v : String) : Mapper × World :=
  if m.ArrayName ≠ v then Modified { m with ArrayName := v } w else (m, w)

/-- `vtkMapper::ColorByArrayComponent(int arrayNum, int component)`. -/
def ColorByArrayComponent (m : Mapper) (w : World) (arrayNum component : Int) :
    Mapper × World :=
  if m.ArrayId = arrayNum ∧ component = m.ArrayComponent ∧
      m.ArrayAccessMode = VTK_GET_ARRAY_BY_ID then (m, w)
  else
    let mw := Modified m w
    ({ mw.1 with ArrayId := arrayNum, ArrayComponent := component,
                 ArrayAccessMode := VTK_GET_ARRAY_BY_ID }, mw.2)

/-- `vtkMapper::ColorByArrayComponent(const char* arrayName, int component)`;
a null `arrayName` is `none`. -/
def ColorByArrayComponentName (m : Mapper) (w : World) (arrayName : Option String)
    (component : Int) : Mapper × World :=
  match arrayName with
  | none => (m, w)
  | some name =>
    if m.ArrayName = name ∧ component = m.ArrayComponent ∧
        m.ArrayAccessMode = VTK_GET_ARRAY_BY_NAME then (m, w)
    else
      let mw := Modified m w
      let mw2 := SetArrayName mw.1 mw.2 name
      ({ mw2.1 with ArrayComponent := component, ArrayAccessMode := VTK_GET_ARRAY_BY_NAME },
        mw2.2)

/-- Modelled from the spec: `vtkAbstractMapper3D::ShallowCopy`, missing from
the sources; the superclasses copy their clipping planes, which are no part of
"the mapper's configuration" held in `Mapper`. -/
def vtkAbstractMapper3D_ShallowCopy (p : Process) (_mapper : Option Mapper) : Process := p

/-- Lines 337 to 353 of `ShallowCopy`: the configuration of `m` is given to
the mapper `this`, the table `lut` being the one `m->GetLookupTable()` has
returned. -/
def copyConfiguration (this : Mapper) (w : World) (lut : Option Nat) (m : Mapper) :
    Mapper × World :=
  let s1 := SetLookupTable this w lut
  let s2 := SetScalarVisibility s1.1 s1.2 m.ScalarVisibility
  let s3 := SetScalarRange s2.1 s2.2 m.ScalarRange
  let s4 := SetColorMode s3.1 s3.2 m.ColorMode
  let s5 := SetScalarMode s4.1 s4.2 m.ScalarMode
  let s6 := SetUseLookupTableScalarRange s5.1 s5.2 m.UseLookupTableScalarRange
  let s7 := SetInterpolateScalarsBeforeMapping s6.1 s6.2 m.InterpolateScalarsBeforeMapping
  let s8 := SetFieldDataTupleId s7.1 s7.2 m.FieldDataTupleId
  if m.ArrayAccessMode = VTK_GET_ARRAY_BY_ID then
    ColorByArrayComponent s8.1 s8.2 m.ArrayId m.ArrayComponent
  else ColorByArrayComponentName s8.1 s8.2 (some m.ArrayName) m.ArrayComponent

/-- Lines 355 to 363 of `ShallowCopy`: the relative polygon, line and point
offsets are read from the mapper of `src` and set on the mapper of `p`. -/
def copyRelativeOffsets (p src : Process) : Process :=
  let fu := GetRelativeCoincidentTopologyPolygonOffsetParameters src
  let p2 := SetRelativeCoincidentTopologyPolygonOffsetParameters p fu.1 fu.2
  let fu2 := GetRelativeCoincidentTopologyLineOffsetParameters src
  let p3 := SetRelativeCoincidentTopologyLineOffsetParameters p2 fu2.1 fu2.2
  let u := GetRelativeCoincidentTopologyPointOffsetParameter src
  SetRelativeCoincidentTopologyPointOffsetParameter p3 u

/-- `vtkMapper::ShallowCopy(vtkAbstractMapper* mapper)` on the mapper of `p`.
The argument is `none` when it is no `vtkMapper`, and is a mapper other than
the one of `p`. The result is the process afterwards and the argument as the
call leaves it (its `GetLookupTable` may give it a default table). -/
def ShallowCopy (env : Env) (p : Process) (mapper : Option Mapper) : Process × Option Mapper :=
  match mapper with
  | none => (vtkAbstractMapper3D_ShallowCopy p none, none)
  | some m0 =>
    let g := GetLookupTable env m0 p.world
    let m := g.2.1
    let s := copyConfiguration p.mapper g.2.2 g.1 m
    let p4 := copyRelativeOffsets { p with mapper := s.1, world := s.2 } { p with mapper := m }
    (vtkAbstractMapper3D_ShallowCopy p4 (some m), some m)

/-- A mapper as constructed whose relative coincident-topology parameters
have been set: polygon (1, 2), line (1, 0), point 2, z-shift 1. -/
def sampleShiftedMapper : Mapper :=
  { vtkMapper_new 4 with
    LookupTable := some 0
    CoincidentPolygonFactor := Dbl.fin 1, CoincidentPolygonOffset := Dbl.fin 2
    CoincidentLineFactor := Dbl.fin 1, CoincidentLineOffset := Dbl.fin 0
    CoincidentPointOffset := Dbl.fin 2, RelativeCoincidentTopologyZShift := Dbl.fin 1 }

/-- The two mappers hold the same relative coincident-topology parameters. -/
def SameRelative (a b : Mapper) : Prop :=
  a.CoincidentPolygonFactor = b.CoincidentPolygonFactor ∧
  a.CoincidentPolygonOffset = b.CoincidentPolygonOffset ∧
  a.CoincidentLineFactor = b.CoincidentLineFactor ∧
  a.CoincidentLineOffset = b.CoincidentLineOffset ∧
  a.CoincidentPointOffset = b.CoincidentPointOffset ∧
  a.RelativeCoincidentTopologyZShift = b.RelativeCoincidentTopologyZShift

theorem resetArrayComponent_ScalarVisibility (m : Mapper) (a : Option AbstractArray) :
    (resetArrayComponent m a).ScalarVisibility = m.ScalarVisibility := by
  unfold resetArrayComponent
  split
  · rfl
  · split <;> rfl

/-- C1: for every mapper state, input and alpha, when scalar visibility is
off, or no scalar array resolves on the input, or the input is null,
`MapScalars` returns null and leaves `Colors`, `ColorCoordinates` and
`ColorTextureMap` all null. -/
theorem MapScalars_without_scalars (env : Env) (m : Mapper) (w : World)
    (input : Option DataSet) (alpha : Dbl) (cellFlag : Int)
    (h : m.ScalarVisibility = false ∨
      (resolveAbstractScalars env m input cellFlag).1 = none ∨
      input = none) :
    (MapScalars env m w input alpha cellFlag).map MapScalarsResult.outputs
      = some (none, none, none, none) := by
  unfold MapScalars
  simp only
  split
  · rename_i scalars ds hv hs
    rw [resetArrayComponent_ScalarVisibility] at hv
    rcases h with h | h | h
    · rw [h] at hv; cases hv
    · rw [h] at hs; cases hs
    · cases h
  · rfl

/-- C1 at the sample mapper with scalar visibility switched off and all three
caches filled. -/
theorem MapScalars_without_scalars_witness :
    (MapScalars sampleEnv
      { sampleMapper with
        ScalarVisibility := false
        Colors := some { id := 1, mtime := 4, colors := [] }
        ColorCoordinates := some { id := 2, mtime := 4, numberOfTuples := 0, coords := none } }
      sampleWorld (some samplePointData) (Dbl.fin 1) 0).map MapScalarsResult.outputs
      = some (none, none, none, none) :=
  MapScalars_without_scalars sampleEnv _ sampleWorld (some samplePointData) (Dbl.fin 1) 0
    (Or.inl rfl)

/-! ### Frame facts of the helper steps -/

theorem Modified_frame (m : Mapper) (w : World) :
    (Modified m w).1 = { m with MTime := w.clock + 1 } ∧
    (Modified m w).2 = { w with clock := w.clock + 1 } := ⟨rfl, rfl⟩

/-- After the table set-up of `MapScalars` the mapper has a lookup table, and
differs from the mapper before at most in the table pointer and in its own
modification time. -/
theorem CreateDefaultLookupTable_mapper (env : Env) (m : Mapper) (w : World) :
    (CreateDefaultLookupTable env m w).1 = { m with LookupTable := some w.nextId } := by
  unfold CreateDefaultLookupTable
  simp only
  split
  · split <;> rfl
  · rfl

theorem SetLookupTable_mapper (m : Mapper) (w : World) (t : Nat) :
    (SetLookupTable m w (some t)).1 =
      { m with LookupTable := some t, MTime := (SetLookupTable m w (some t)).1.MTime } := by
  unfold SetLookupTable
  by_cases h : m.LookupTable = some t
  · simp only [h, ne_eq, not_true_eq_false, if_false]
    rw [← h]
  · simp only [h, ne_eq, not_false_eq_true, if_true, Modified]

theorem selectLookupTable_frame (env : Env) (m : Mapper) (w : World) (a : AbstractArray) :
    ∃ m1 w1 l, selectLookupTable env m w a = some (m1, w1) ∧
      m1 = { m with LookupTable := some l, MTime := m1.MTime } := by
  unfold selectLookupTable
  simp only
  split
  · rename_i t ht
    exact ⟨_, _, t, rfl, SetLookupTable_mapper m w t⟩
  · cases hl : m.LookupTable with
    | none =>
      simp only [if_true, CreateDefaultLookupTable_mapper]
      exact ⟨_, _, w.nextId, rfl, rfl⟩
    | some l =>
      exact ⟨m, w, l, by simp [lutBuild, hl], by rw [← hl]⟩

theorem setupLookupTable_frame (env : Env) (m : Mapper) (w : World) (a : AbstractArray) :
    ∃ m1 w1 l, setupLookupTable env m w a = some (m1, w1) ∧
      m1 = { m with LookupTable := some l, MTime := m1.MTime } := by
  obtain ⟨m1, w1, l, h1, hm⟩ := selectLookupTable_frame env m w a
  have hl : m1.LookupTable = some l := by rw [hm]
  unfold setupLookupTable
  rw [h1]
  simp only [applyScalarRange, hl]
  cases hu : m1.UseLookupTableScalarRange
  · exact ⟨m1, lutSetRange w1 l m1.ScalarRange, l, by simp, hm⟩
  · exact ⟨m1, w1, l, by simp, hm⟩

theorem buildColorTextureMap_mapper (env : Env) (m : Mapper) (w : World) (l : Nat)
    (range : Dbl × Dbl) (ls : Bool) (alpha orig : Dbl) :
    (buildColorTextureMap env m w l range ls alpha orig).1 =
      { m with ColorTextureMap :=
          (buildColorTextureMap env m w l range ls alpha orig).1.ColorTextureMap } := rfl

theorem buildColorCoordinates_mapper (env : Env) (m : Mapper) (w : World) (l : Nat)
    (a : AbstractArray) (range : Dbl × Dbl) (ls : Bool) :
    (buildColorCoordinates env m w l a range ls).1 =
      { m with ColorCoordinates :=
          (buildColorCoordinates env m w l a range ls).1.ColorCoordinates } := by
  unfold buildColorCoordinates
  simp only
  split
  · rfl
  · split <;> rfl

theorem updateColorTextureMap_mapper (env : Env) (m : Mapper) (w : World) (l : Nat)
    (range : Dbl × Dbl) (ls : Bool) (alpha orig : Dbl) :
    (updateColorTextureMap env m w l range ls alpha orig).1 =
      { m with ColorTextureMap :=
          (updateColorTextureMap env m w l range ls alpha orig).1.ColorTextureMap } := by
  unfold updateColorTextureMap
  simp only
  split
  · rfl
  · rfl

theorem updateColorCoordinates_mapper (env : Env) (m : Mapper) (w : World) (l : Nat)
    (a : AbstractArray) (range : Dbl × Dbl) (ls : Bool) (m2 : Mapper) (w2 : World)
    (h : updateColorCoordinates env m w l a range ls = some (m2, w2)) :
    m2 = { m with ColorCoordinates := m2.ColorCoordinates } := by
  have hb := buildColorCoordinates_mapper env m w l a range ls
  have key : buildColorCoordinates env m w l a range ls = (m2, w2) →
      m2 = { m with ColorCoordinates := m2.ColorCoordinates } := by
    intro e
    have e1 : m2 = (buildColorCoordinates env m w l a range ls).1 := by rw [e]
    subst e1
    exact hb
  unfold updateColorCoordinates at h
  split at h
  · exact key (Option.some.inj h)
  · split at h
    · exact key (Option.some.inj h)
    · split at h
      · exact absurd h (by simp)
      · split at h
        · exact key (Option.some.inj h)
        · have e1 : m = m2 := (Prod.mk.inj (Option.some.inj h)).1
          subst e1
          rfl

theorem updateColorCoordinates_none (env : Env) (m : Mapper) (w : World) (l : Nat)
    (a : AbstractArray) (range : Dbl × Dbl) (ls : Bool)
    (h : updateColorCoordinates env m w l a range ls = none) : m.InputData = none := by
  unfold updateColorCoordinates at h
  split at h
  · exact absurd h (by simp)
  · split at h
    · exact absurd h (by simp)
    · split at h
      · assumption
      · split at h <;> exact absurd h (by simp)

/-- The texture path leaves no vertex colours, and it fails only on a mapper
without lookup table or without pipeline input. -/
theorem MapScalarsToTexture_Colors (env : Env) (m : Mapper) (w : World) (a : AbstractArray)
    (alpha : Dbl) :
    (∀ m2 w2, MapScalarsToTexture env m w a alpha = some (m2, w2) → m2.Colors = none) ∧
    (MapScalarsToTexture env m w a alpha = none → m.LookupTable = none ∨ m.InputData = none) := by
  unfold MapScalarsToTexture
  cases hl : m.LookupTable with
  | none => simp
  | some l =>
    simp only
    constructor
    · intro m2 w2 h
      have h2 := updateColorCoordinates_mapper _ _ _ _ _ _ _ _ _ h
      rw [h2, updateColorTextureMap_mapper]
    · intro h
      have h2 := updateColorCoordinates_none _ _ _ _ _ _ _ h
      rw [updateColorTextureMap_mapper] at h2
      exact Or.inr h2

theorem resetArrayComponent_mapper (m : Mapper) (a : Option AbstractArray) :
    resetArrayComponent m a =
      { m with ArrayComponent := (resetArrayComponent m a).ArrayComponent } := by
  unfold resetArrayComponent
  split
  · rfl
  · split <;> rfl

theorem recomputeColors_some (env : Env) (m : Mapper) (w : World) (a : AbstractArray)
    (alpha : Dbl) (l : Nat) (hl : m.LookupTable = some l) :
    ∃ c w3, recomputeColors env m w a alpha = some (c, { m with Colors := some c }, w3) := by
  unfold recomputeColors
  simp only [hl]
  exact ⟨_, _, rfl⟩

/-- C2: a `MapScalars` call that takes the texture path leaves `Colors` null,
one that takes the vertex-colour path leaves `ColorCoordinates` and
`ColorTextureMap` null, and after any call `Colors` is not non-null together
with a non-null texture cache. The call fails to return only on the texture
path of a mapper without pipeline input. -/
theorem MapScalars_exclusive (env : Env) (m : Mapper) (w : World) (input : Option DataSet)
    (alpha : Dbl) (cellFlag : Int) :
    (MapScalars env m w input alpha cellFlag = none →
      MapScalarsPath env m w input cellFlag = ColorPath.texture ∧ m.InputData = none) ∧
    ∀ r, MapScalars env m w input alpha cellFlag = some r →
      (MapScalarsPath env m w input cellFlag = ColorPath.texture → r.mapper.Colors = none) ∧
      (MapScalarsPath env m w input cellFlag = ColorPath.vertex →
        r.mapper.ColorCoordinates = none ∧ r.mapper.ColorTextureMap = none) ∧
      ¬ (r.mapper.Colors ≠ none ∧
        (r.mapper.ColorCoordinates ≠ none ∨ r.mapper.ColorTextureMap ≠ none)) := by
  unfold MapScalars MapScalarsPath
  simp only
  split
  · rename_i scalars ds hv hs
    obtain ⟨m1, w1, l, hsetup, hm1⟩ := setupLookupTable_frame env
      (resetArrayComponent m (resolveAbstractScalars env m (some ds) cellFlag).1) w scalars
    have hl : m1.LookupTable = some l := by rw [hm1]
    have hin : m1.InputData = m.InputData := by rw [hm1, resetArrayComponent_mapper]
    rw [hsetup]
    simp only
    by_cases hcan : CanUseTextureMapForColoring env m1 w1 (DataObject.dataSet ds) = true
    · simp only [hcan, if_true]
      obtain ⟨htex, hnone⟩ := MapScalarsToTexture_Colors env m1 w1 scalars alpha
      cases ht : MapScalarsToTexture env m1 w1 scalars alpha with
      | none =>
        rcases hnone ht with h | h
        · rw [hl] at h; cases h
        · simp [← hin, h]
      | some mw =>
        obtain ⟨m2, w2⟩ := mw
        have hc := htex m2 w2 ht
        simp [hc]
    · simp only [hcan]
      simp only [Bool.false_eq_true, if_false]
      cases hr : reusableColors { m1 with ColorCoordinates := none, ColorTextureMap := none } w1 ds
          alpha with
      | some c => simp
      | none =>
        obtain ⟨c, w3, hrec⟩ := recomputeColors_some env
          { m1 with ColorCoordinates := none, ColorTextureMap := none } w1 scalars alpha l hl
        rw [hrec]
        simp
  · simp

/-- C2 at the sample mapper with interpolation before mapping switched on and
stale vertex colours cached: the call takes the texture path and leaves
`Colors` null. -/
theorem MapScalars_exclusive_witness :
    MapScalarsPath sampleEnv
        { sampleTextureMapper with Colors := some { id := 1, mtime := 4, colors := [] } }
        sampleWorld (some samplePointData) 0 = ColorPath.texture ∧
      (MapScalars sampleEnv
        { sampleTextureMapper with Colors := some { id := 1, mtime := 4, colors := [] } }
        sampleWorld (some samplePointData) (Dbl.fin 1) 0).map (fun r => r.mapper.Colors)
        = some none := by
  refine ⟨by decide, ?_⟩
  cases h : MapScalars sampleEnv
      { sampleTextureMapper with Colors := some { id := 1, mtime := 4, colors := [] } }
      sampleWorld (some samplePointData) (Dbl.fin 1) 0 with
  | none => exact absurd ((MapScalars_exclusive _ _ _ _ _ _).1 h).2 (by decide)
  | some r => exact congrArg some (((MapScalars_exclusive _ _ _ _ _ _).2 r h).1 (by decide))

/-! ### Time stamps and the table set-up -/

theorem Dbl.eq_self (x : Dbl) (h : x.IsNan = false) : Dbl.eq x x = true := by
  cases x <;> simp_all [Dbl.eq, Dbl.IsNan]

theorem lutSetRange_noop (w : World) (l : Nat) (r : Dbl × Dbl)
    (h1 : Dbl.eq (w.luts l).range.1 r.1 = true) (h2 : Dbl.eq (w.luts l).range.2 r.2 = true) :
    lutSetRange w l r = w := by
  simp [lutSetRange, h1, h2]

theorem lutSetRange_range (w : World) (l : Nat) (r : Dbl × Dbl)
    (h1 : r.1.IsNan = false) (h2 : r.2.IsNan = false) :
    Dbl.eq ((lutSetRange w l r).luts l).range.1 r.1 = true ∧
    Dbl.eq ((lutSetRange w l r).luts l).range.2 r.2 = true := by
  unfold lutSetRange
  split
  · rename_i h
    simpa using h
  · simp [Dbl.eq_self, h1, h2]

theorem lutSetRange_stamped (m : Mapper) (w : World) (l : Nat) (r : Dbl × Dbl)
    (h : Stamped m w) : Stamped m (lutSetRange w l r) ∧ w.clock ≤ (lutSetRange w l r).clock := by
  obtain ⟨hm, hl⟩ := h
  unfold lutSetRange
  split
  · exact ⟨⟨hm, hl⟩, le_refl _⟩
  · refine ⟨⟨Nat.le_succ_of_le hm, ?_⟩, Nat.le_succ _⟩
    intro k
    by_cases hk : k = l
    · subst hk; simp
    · simp [Function.update_noteq hk]
      exact Nat.le_succ_of_le (hl k)

theorem lutSetRange_indexedLookup (w : World) (l k : Nat) (r : Dbl × Dbl) :
    ((lutSetRange w l r).luts k).indexedLookup = (w.luts k).indexedLookup ∧
    ((lutSetRange w l r).luts k).alpha = (w.luts k).alpha := by
  unfold lutSetRange
  split
  · exact ⟨rfl, rfl⟩
  · by_cases hk : k = l
    · subst hk; simp
    · simp [Function.update_noteq hk]

theorem SetLookupTable_stamped (m : Mapper) (w : World) (t : Nat) (h : Stamped m w) :
    Stamped (SetLookupTable m w (some t)).1 (SetLookupTable m w (some t)).2 ∧
    w.clock ≤ (SetLookupTable m w (some t)).2.clock := by
  obtain ⟨hm, hl⟩ := h
  unfold SetLookupTable
  split
  · exact ⟨⟨le_refl _, fun k => Nat.le_succ_of_le (hl k)⟩, Nat.le_succ _⟩
  · exact ⟨⟨hm, hl⟩, le_refl _⟩

theorem CreateDefaultLookupTable_stamped (env : Env) (m : Mapper) (w : World)
    (h : Stamped m w) :
    Stamped (CreateDefaultLookupTable env m w).1 (CreateDefaultLookupTable env m w).2 ∧
    w.clock ≤ (CreateDefaultLookupTable env m w).2.clock := by
  obtain ⟨hm, hl⟩ := h
  have hstep : ∀ k v, v.mtime ≤ w.clock + 2 →
      (Function.update w.luts w.nextId v k).mtime ≤ w.clock + 2 := by
    intro k v hv
    by_cases hk : k = w.nextId
    · subst hk; simpa using hv
    · rw [Function.update_noteq hk]; exact Nat.le_succ_of_le (Nat.le_succ_of_le (hl k))
  have hstep1 : ∀ k v, v.mtime ≤ w.clock + 1 →
      (Function.update w.luts w.nextId v k).mtime ≤ w.clock + 1 := by
    intro k v hv
    by_cases hk : k = w.nextId
    · subst hk; simpa using hv
    · rw [Function.update_noteq hk]; exact Nat.le_succ_of_le (hl k)
  unfold CreateDefaultLookupTable
  simp only
  split
  · split
    · simp only [lutSetupIndexed, Stamped, Function.update_idem]
      refine ⟨⟨by omega, fun k => hstep k _ (by simp)⟩, by omega⟩
    · simp only [Stamped]
      exact ⟨⟨by omega, fun k => hstep1 k _ (by simp)⟩, by omega⟩
  · simp only [Stamped]
    exact ⟨⟨by omega, fun k => hstep1 k _ (by simp)⟩, by omega⟩

theorem selectLookupTable_stamped (env : Env) (m : Mapper) (w : World) (a : AbstractArray)
    (m1 : Mapper) (w1 : World) (h : Stamped m w)
    (hs : selectLookupTable env m w a = some (m1, w1)) :
    Stamped m1 w1 ∧ w.clock ≤ w1.clock ∧
      (∀ t, arrayLookupTable a = some t → m1.LookupTable = some t) := by
  unfold selectLookupTable at hs
  split at hs
  · rename_i t ht
    have e := Option.some.inj hs
    have e1 : m1 = (SetLookupTable m w (some t)).1 := by rw [e]
    have e2 : w1 = (SetLookupTable m w (some t)).2 := by rw [e]
    subst e1 e2
    obtain ⟨h1, h2⟩ := SetLookupTable_stamped m w t h
    refine ⟨h1, h2, ?_⟩
    intro t2 ht2
    rw [ht] at ht2
    cases ht2
    rw [SetLookupTable_mapper]
  · rename_i hnone
    cases hl : m.LookupTable with
    | none =>
      simp only [hl, if_true, CreateDefaultLookupTable_mapper, lutBuild] at hs
      have e := Option.some.inj hs
      have e1 : m1 = (CreateDefaultLookupTable env m w).1 := by
        rw [CreateDefaultLookupTable_mapper]; exact (Prod.mk.inj e).1.symm
      have e2 : w1 = (CreateDefaultLookupTable env m w).2 := (Prod.mk.inj e).2.symm
      subst e1 e2
      obtain ⟨h1, h2⟩ := CreateDefaultLookupTable_stamped env m w h
      exact ⟨h1, h2, fun t ht => by rw [hnone] at ht; cases ht⟩
    | some l =>
      simp only [hl, reduceCtorEq, if_false, lutBuild] at hs
      have e := Option.some.inj hs
      have e1 : m = m1 := (Prod.mk.inj e).1
      have e2 : w = w1 := (Prod.mk.inj e).2
      subst e1 e2
      exact ⟨h, le_refl _, fun t ht => by rw [hnone] at ht; cases ht⟩

theorem selectLookupTable_noop (env : Env) (m : Mapper) (w : World) (a : AbstractArray)
    (l : Nat) (hl : m.LookupTable = some l) (ha : ∀ t, arrayLookupTable a = some t → t = l) :
    selectLookupTable env m w a = some (m, w) := by
  unfold selectLookupTable
  split
  · rename_i t ht
    have := ha t ht
    subst this
    simp [SetLookupTable, hl]
  · simp [hl, lutBuild]

theorem applyScalarRange_noop (m : Mapper) (w : World) (l : Nat) (hl : m.LookupTable = some l)
    (hr : m.UseLookupTableScalarRange = false →
      Dbl.eq (w.luts l).range.1 m.ScalarRange.1 = true ∧
      Dbl.eq (w.luts l).range.2 m.ScalarRange.2 = true) :
    applyScalarRange m w = some (m, w) := by
  unfold applyScalarRange
  cases hu : m.UseLookupTableScalarRange
  · obtain ⟨h1, h2⟩ := hr hu
    simp [hl, lutSetRange_noop w l _ h1 h2]
  · simp

/-- The table set-up of `MapScalars` changes nothing when the table is ready. -/
theorem setupLookupTable_noop (env : Env) (m : Mapper) (w : World) (a : AbstractArray)
    (l : Nat) (h : TableReady m w a l) : setupLookupTable env m w a = some (m, w) := by
  obtain ⟨hl, ha, hr⟩ := h
  unfold setupLookupTable
  rw [selectLookupTable_noop env m w a l hl ha]
  exact applyScalarRange_noop m w l hl hr

/-- The table set-up of `MapScalars` keeps the time stamps behind the clock
and leaves the table ready. -/
theorem setupLookupTable_ready (env : Env) (m : Mapper) (w : World) (a : AbstractArray)
    (m1 : Mapper) (w1 : World) (h : Stamped m w)
    (hrange : m.UseLookupTableScalarRange = true ∨
      (m.ScalarRange.1.IsNan = false ∧ m.ScalarRange.2.IsNan = false))
    (hs : setupLookupTable env m w a = some (m1, w1)) :
    Stamped m1 w1 ∧ w.clock ≤ w1.clock ∧ ∃ l, TableReady m1 w1 a l := by
  obtain ⟨m0, w0, l, h0, hm0⟩ := selectLookupTable_frame env m w a
  obtain ⟨hst, hclock, harr⟩ := selectLookupTable_stamped env m w a m0 w0 h h0
  have hl : m0.LookupTable = some l := by rw [hm0]
  have hu : m0.UseLookupTableScalarRange = m.UseLookupTableScalarRange := by rw [hm0]
  have hsr : m0.ScalarRange = m.ScalarRange := by rw [hm0]
  have harr2 : ∀ t, arrayLookupTable a = some t → t = l := by
    intro t ht
    have := harr t ht
    rw [hl] at this
    exact (Option.some.inj this).symm
  unfold setupLookupTable at hs
  rw [h0] at hs
  simp only [applyScalarRange, hl] at hs
  cases hu2 : m0.UseLookupTableScalarRange
  · simp only [hu2, Bool.not_false, if_true] at hs
    have e := Option.some.inj hs
    have e1 : m0 = m1 := (Prod.mk.inj e).1
    have e2 : lutSetRange w0 l m0.ScalarRange = w1 := (Prod.mk.inj e).2
    subst e1 e2
    obtain ⟨h3, h4⟩ := lutSetRange_stamped m0 w0 l m0.ScalarRange hst
    refine ⟨h3, le_trans hclock h4, l, hl, harr2, ?_⟩
    intro _
    rcases hrange with hr | ⟨hr1, hr2⟩
    · rw [← hu, hu2] at hr; cases hr
    · rw [← hsr] at hr1 hr2
      exact lutSetRange_range w0 l m0.ScalarRange hr1 hr2
  · simp only [hu2, Bool.not_true, Bool.false_eq_true, if_false] at hs
    have e := Option.some.inj hs
    have e1 : m0 = m1 := (Prod.mk.inj e).1
    have e2 : w0 = w1 := (Prod.mk.inj e).2
    subst e1 e2
    exact ⟨hst, hclock, l, hl, harr2, fun hf => by rw [hu2] at hf; cases hf⟩

/-! ### The vertex-colour path -/

theorem clearTextureCaches_eq (m : Mapper) (hcc : m.ColorCoordinates = none)
    (hctm : m.ColorTextureMap = none) :
    { m with ColorCoordinates := none, ColorTextureMap := none } = m := by
  cases m
  simp_all

/-- A `MapScalars` call that finds the table ready, takes the vertex-colour
path and may reuse the cached colours returns them and changes nothing. -/
theorem MapScalars_reuse (env : Env) (m : Mapper) (w : World) (ds : DataSet) (alpha : Dbl)
    (cellFlag : Int) (a : AbstractArray) (l : Nat) (c : ColorArray)
    (hres : (resolveAbstractScalars env m (some ds) cellFlag).1 = some a)
    (hvis : m.ScalarVisibility = true)
    (hreset : resetArrayComponent m (some a) = m)
    (hready : TableReady m w a l)
    (hcan : CanUseTextureMapForColoring env m w (DataObject.dataSet ds) = false)
    (hcc : m.ColorCoordinates = none) (hctm : m.ColorTextureMap = none)
    (hreuse : reusableColors m w ds alpha = some c) :
    MapScalars env m w (some ds) alpha cellFlag =
      some { ret := some c, mapper := m, world := w,
             cellFlag := (resolveAbstractScalars env m (some ds) cellFlag).2 } := by
  unfold MapScalars
  simp only [hres, hreset]
  split
  · rename_i hv hs hi
    cases hs
    cases hi
    simp only [setupLookupTable_noop env m w a l hready, hcan,
      clearTextureCaches_eq m hcc hctm, hreuse, Bool.false_eq_true, if_false]
  · rename_i hno
    exact absurd rfl (hno a ds hvis rfl)

theorem resetArrayComponent_again (m m2 : Mapper) (a : AbstractArray)
    (h : m2.ArrayComponent = (resetArrayComponent m (some a)).ArrayComponent) :
    resetArrayComponent m2 (some a) = m2 := by
  unfold resetArrayComponent at *
  simp only at *
  split at h
  · simp only at h
    split
    · cases m2; simp_all
    · rfl
  · rename_i hgt
    rw [← h] at hgt
    simp [hgt]

theorem recomputeColors_eq (env : Env) (m : Mapper) (w : World) (a : AbstractArray)
    (alpha : Dbl) (l : Nat) (hl : m.LookupTable = some l) :
    recomputeColors env m w a alpha =
      some ({ id := w.nextId, mtime := w.clock + 1,
              colors := env.lutMapScalars ({ w.luts l with alpha := alpha }) a m.ColorMode
                m.ArrayComponent },
            { m with Colors := some (
              { id := w.nextId, mtime := w.clock + 1,
                colors := env.lutMapScalars ({ w.luts l with alpha := alpha }) a m.ColorMode
                  m.ArrayComponent }) },
            { w with clock := w.clock + 1, nextId := w.nextId + 1 }) := by
  unfold recomputeColors
  simp only [hl, lutSetAlpha, Function.update_same, Function.update_idem,
    Function.update_eq_self]

theorem resolveAbstractScalars_congr (env : Env) (m m2 : Mapper) (input : Option DataSet)
    (cellFlag : Int) (h1 : m2.ScalarMode = m.ScalarMode)
    (h2 : m2.ArrayAccessMode = m.ArrayAccessMode) (h3 : m2.ArrayId = m.ArrayId)
    (h4 : m2.ArrayName = m.ArrayName) :
    resolveAbstractScalars env m2 input cellFlag = resolveAbstractScalars env m input cellFlag := by
  unfold resolveAbstractScalars
  rw [h1, h2, h3, h4]

/-- What a call on the vertex-colour path has gone through. -/
theorem MapScalarsPath_vertex (env : Env) (m : Mapper) (w : World) (ds : DataSet)
    (cellFlag : Int) (h : MapScalarsPath env m w (some ds) cellFlag = ColorPath.vertex) :
    ∃ a m1 w1, (resolveAbstractScalars env m (some ds) cellFlag).1 = some a ∧
      m.ScalarVisibility = true ∧
      setupLookupTable env (resetArrayComponent m (some a)) w a = some (m1, w1) ∧
      CanUseTextureMapForColoring env m1 w1 (DataObject.dataSet ds) = false := by
  unfold MapScalarsPath at h
  simp only at h
  split at h
  · rename_i hv hs hi
    cases hi
    rw [resetArrayComponent_ScalarVisibility] at hv
    rw [hs] at h
    split at h
    · cases h
    · rename_i m1 w1 hsetup
      refine ⟨_, m1, w1, hs, hv, hsetup, ?_⟩
      split at h
      · cases h
      · rename_i hcan
        simpa using hcan
  · cases h

/-- The result of a call on the vertex-colour path, from the state after the
table set-up. -/
theorem MapScalars_vertex (env : Env) (m : Mapper) (w : World) (ds : DataSet) (alpha : Dbl)
    (cellFlag : Int) (a : AbstractArray) (m1 : Mapper) (w1 : World)
    (hres : (resolveAbstractScalars env m (some ds) cellFlag).1 = some a)
    (hvis : m.ScalarVisibility = true)
    (hsetup : setupLookupTable env (resetArrayComponent m (some a)) w a = some (m1, w1))
    (hcan : CanUseTextureMapForColoring env m1 w1 (DataObject.dataSet ds) = false) :
    MapScalars env m w (some ds) alpha cellFlag =
      match reusableColors { m1 with ColorCoordinates := none, ColorTextureMap := none } w1 ds
          alpha with
      | some c =>
        some { ret := some c,
               mapper := { m1 with ColorCoordinates := none, ColorTextureMap := none },
               world := w1, cellFlag := (resolveAbstractScalars env m (some ds) cellFlag).2 }
      | none =>
        match recomputeColors env { m1 with ColorCoordinates := none, ColorTextureMap := none }
            w1 a alpha with
        | none => none
        | some (c, m3, w3) =>
          some { ret := some c, mapper := m3, world := w3,
                 cellFlag := (resolveAbstractScalars env m (some ds) cellFlag).2 } := by
  unfold MapScalars
  simp only [hres]
  split
  · rename_i hv hs hi
    cases hs
    cases hi
    simp only [hsetup, hcan, Bool.false_eq_true, if_false]
  · rename_i hno
    rw [← resetArrayComponent_ScalarVisibility m (some a)] at hvis
    exact absurd rfl (hno a ds hvis rfl)

theorem GetMTime_le (m : Mapper) (w : World) (h : Stamped m w) : GetMTime m w ≤ w.clock := by
  obtain ⟨hm, hl⟩ := h
  unfold GetMTime
  split
  · simp only
    split
    · exact hl _
    · exact hm
  · exact hm

theorem reusableColors_some (m : Mapper) (w : World) (ds : DataSet) (alpha : Dbl)
    (c : ColorArray) (l : Nat) (hc : m.Colors = some c) (hl : m.LookupTable = some l)
    (ha : Dbl.eq (w.luts l).alpha alpha = true) (h1 : GetMTime m w < c.mtime)
    (h2 : ds.mtime < c.mtime) (h3 : (w.luts l).mtime < c.mtime) :
    reusableColors m w ds alpha = some c := by
  unfold reusableColors
  rw [hc, hl]
  simp only [ha, h1, h2, h3, and_self, if_true]

/-- Freshly mapped colours carry the next address and the next time stamp;
the table is left as it was found. -/
theorem recomputeColors_fresh (env : Env) (m : Mapper) (w : World) (a : AbstractArray)
    (alpha : Dbl) (l : Nat) (hl : m.LookupTable = some l) :
    ∃ c, recomputeColors env m w a alpha =
        some (c, { m with Colors := some c },
          { w with clock := w.clock + 1, nextId := w.nextId + 1 }) ∧
      c.id = w.nextId ∧ c.mtime = w.clock + 1 :=
  ⟨_, recomputeColors_eq env m w a alpha l hl, rfl, rfl⟩

/-- C3, as amended: two `MapScalars` calls in a row on the vertex-colour path
with the same input and an alpha that compares equal to the alpha stored in
the lookup table: the second call returns the very array the first returned
and changes nothing, no colours being recomputed. The time stamps are not
ahead of the clock, and the mapper's scalar range is free of NaN unless the
table's own range is used. -/
theorem MapScalars_twice_same_alpha (env : Env) (m : Mapper) (w : World) (ds : DataSet)
    (alpha : Dbl) (cellFlag : Int) (r1 : MapScalarsResult)
    (hst : Stamped m w) (hds : ds.mtime ≤ w.clock)
    (hrange : m.UseLookupTableScalarRange = true ∨
      (m.ScalarRange.1.IsNan = false ∧ m.ScalarRange.2.IsNan = false))
    (hpath : MapScalarsPath env m w (some ds) cellFlag = ColorPath.vertex)
    (h1 : MapScalars env m w (some ds) alpha cellFlag = some r1)
    (halpha : ∀ l, r1.mapper.LookupTable = some l →
      Dbl.eq (r1.world.luts l).alpha alpha = true) :
    MapScalars env r1.mapper r1.world (some ds) alpha cellFlag = some r1 := by
  obtain ⟨a, m1, w1, hres, hvis, hsetup, hcan⟩ := MapScalarsPath_vertex env m w ds cellFlag hpath
  rw [MapScalars_vertex env m w ds alpha cellFlag a m1 w1 hres hvis hsetup hcan] at h1
  have hst0 : Stamped (resetArrayComponent m (some a)) w := by
    rw [resetArrayComponent_mapper]; exact hst
  have hrange0 : (resetArrayComponent m (some a)).UseLookupTableScalarRange = true ∨
      ((resetArrayComponent m (some a)).ScalarRange.1.IsNan = false ∧
        (resetArrayComponent m (some a)).ScalarRange.2.IsNan = false) := by
    rw [resetArrayComponent_mapper]; exact hrange
  obtain ⟨hst1, hclock, l, hready⟩ :=
    setupLookupTable_ready env _ w a m1 w1 hst0 hrange0 hsetup
  obtain ⟨m1', w1', l', hs', hm1⟩ := setupLookupTable_frame env (resetArrayComponent m (some a)) w a
  rw [hsetup] at hs'
  have em : m1 = m1' := (Prod.mk.inj (Option.some.inj hs')).1
  subst em
  have hSM : m1.ScalarMode = m.ScalarMode := by rw [hm1, resetArrayComponent_mapper]
  have hAM : m1.ArrayAccessMode = m.ArrayAccessMode := by rw [hm1, resetArrayComponent_mapper]
  have hAI : m1.ArrayId = m.ArrayId := by rw [hm1, resetArrayComponent_mapper]
  have hAN : m1.ArrayName = m.ArrayName := by rw [hm1, resetArrayComponent_mapper]
  have hSV : m1.ScalarVisibility = true := by rw [hm1, resetArrayComponent_mapper]; exact hvis
  have hAC : m1.ArrayComponent = (resetArrayComponent m (some a)).ArrayComponent := by rw [hm1]
  have hl : m1.LookupTable = some l := hready.1
  obtain ⟨m2, hm2⟩ : ∃ m2 : Mapper,
      m2 = { m1 with ColorCoordinates := none, ColorTextureMap := none } := ⟨_, rfl⟩
  rw [← hm2] at h1
  have hres2 : resolveAbstractScalars env m2 (some ds) cellFlag =
      resolveAbstractScalars env m (some ds) cellFlag := by
    rw [hm2]; exact resolveAbstractScalars_congr env m _ (some ds) cellFlag hSM hAM hAI hAN
  have hSV2 : m2.ScalarVisibility = true := by rw [hm2]; exact hSV
  have hreset2 : resetArrayComponent m2 (some a) = m2 :=
    resetArrayComponent_again m m2 a (by rw [hm2]; exact hAC)
  have hready2 : TableReady m2 w1 a l := by rw [hm2]; exact hready
  have hcan2 : CanUseTextureMapForColoring env m2 w1 (DataObject.dataSet ds) = false := by
    rw [hm2]; exact hcan
  have hcc2 : m2.ColorCoordinates = none := by rw [hm2]
  have hctm2 : m2.ColorTextureMap = none := by rw [hm2]
  have hl2 : m2.LookupTable = some l := by rw [hm2]; exact hl
  cases hr : reusableColors m2 w1 ds alpha with
  | some c =>
    rw [hr] at h1
    have e := Option.some.inj h1
    subst e
    rw [MapScalars_reuse env m2 w1 ds alpha cellFlag a l c (by rw [hres2]; exact hres) hSV2
      hreset2 hready2 hcan2 hcc2 hctm2 hr, hres2]
  | none =>
    rw [hr] at h1
    obtain ⟨c, hrec, hcid, hcm⟩ := recomputeColors_fresh env m2 w1 a alpha l hl2
    rw [hrec] at h1
    have e := Option.some.inj h1
    subst e
    have hal : Dbl.eq (w1.luts l).alpha alpha = true := halpha l hl2
    have hg : GetMTime m2 w1 ≤ w1.clock := by
      have := GetMTime_le m1 w1 hst1
      rw [hm2]; exact this
    have h3 := hst1.2 l
    have hreuse : reusableColors { m2 with Colors := some c }
        { w1 with clock := w1.clock + 1, nextId := w1.nextId + 1 } ds alpha = some c :=
      reusableColors_some _ _ ds alpha c l rfl hl2 hal
        (by show GetMTime m2 w1 < c.mtime; omega) (by omega) (by show (w1.luts l).mtime < _; omega)
    have hres3 : resolveAbstractScalars env { m2 with Colors := some c } (some ds) cellFlag =
        resolveAbstractScalars env m (some ds) cellFlag := hres2
    show MapScalars env { m2 with Colors := some c }
      { w1 with clock := w1.clock + 1, nextId := w1.nextId + 1 } (some ds) alpha cellFlag = _
    rw [MapScalars_reuse env { m2 with Colors := some c }
      { w1 with clock := w1.clock + 1, nextId := w1.nextId + 1 } ds alpha cellFlag a l c
      (by rw [hres3]; exact hres) hSV2
      (resetArrayComponent_again m _ a (by rw [hm2]; exact hAC)) hready2 hcan2 hcc2 hctm2 hreuse,
      hres3]

/-- C3 at the sample mapper, whose table stores alpha 1, with requested alpha
1: both calls return the array allocated at address 5. -/
theorem MapScalars_twice_same_alpha_witness :
    (MapScalarsTwice sampleEnv sampleMapper sampleWorld (some samplePointData) (Dbl.fin 1) 0).map
      (fun p => (p.1.ret.map ColorArray.id, p.2.ret.map ColorArray.id)) = some (some 5, some 5) := by
  have hfirst : (MapScalars sampleEnv sampleMapper sampleWorld (some samplePointData)
      (Dbl.fin 1) 0).map
      (fun r => (r.ret.map ColorArray.id, r.mapper.LookupTable, (r.world.luts 0).alpha)) =
      some (some 5, some 0, Dbl.fin 1) := by rfl
  unfold MapScalarsTwice
  cases h : MapScalars sampleEnv sampleMapper sampleWorld (some samplePointData) (Dbl.fin 1) 0 with
  | none => rw [h] at hfirst; cases hfirst
  | some r1 =>
    rw [h] at hfirst
    have e := Option.some.inj hfirst
    have e1 : r1.ret.map ColorArray.id = some 5 := (Prod.mk.inj e).1
    have e2 : r1.mapper.LookupTable = some 0 := (Prod.mk.inj (Prod.mk.inj e).2).1
    have e3 : (r1.world.luts 0).alpha = Dbl.fin 1 := (Prod.mk.inj (Prod.mk.inj e).2).2
    have h2 := MapScalars_twice_same_alpha sampleEnv sampleMapper sampleWorld samplePointData
      (Dbl.fin 1) 0 r1 (show Stamped sampleMapper sampleWorld from
        ⟨by decide, fun _ => show (2 : Nat) ≤ 10 by decide⟩)
      (by decide) (Or.inr ⟨rfl, rfl⟩) (by decide) h
      (fun l hl => by
        rw [e2] at hl
        cases hl
        rw [e3]
        rfl)
    dsimp only
    rw [h2]
    show some (r1.ret.map ColorArray.id, r1.ret.map ColorArray.id) = _
    rw [e1]

/-- C3 fails as stated: on the sample mapper, whose table stores alpha 1, two
calls in a row with requested alpha 0 and nothing changed in between both
take the vertex-colour path, and the first returns the array allocated at
address 5 while the second maps the colours again into a new array at
address 6. -/
theorem MapScalars_twice_other_alpha :
    (MapScalarsTwice sampleEnv sampleMapper sampleWorld (some samplePointData)
        (Dbl.fin 0) 0).map
      (fun p => (MapScalarsPath sampleEnv sampleMapper sampleWorld (some samplePointData) 0,
        p.1.ret.map ColorArray.id,
        MapScalarsPath sampleEnv p.1.mapper p.1.world (some samplePointData) 0,
        p.2.ret.map ColorArray.id)) =
      some (ColorPath.vertex, some 5, ColorPath.vertex, some 6) := by
  rfl

/-! ### Staleness of the cached colours -/

theorem CreateDefaultLookupTable_nextId (env : Env) (m : Mapper) (w : World) :
    (CreateDefaultLookupTable env m w).2.nextId = w.nextId + 1 := by
  unfold CreateDefaultLookupTable
  simp only
  split
  · split <;> rfl
  · rfl

theorem selectLookupTable_mono (env : Env) (m : Mapper) (w : World) (a : AbstractArray)
    (m1 : Mapper) (w1 : World) (h : Stamped m w)
    (hs : selectLookupTable env m w a = some (m1, w1)) :
    m.MTime ≤ m1.MTime ∧ w.nextId ≤ w1.nextId ∧
      ∀ l, m.LookupTable = some l →
        (m1.LookupTable = some l ∧ w1.luts l = w.luts l) ∨ w.clock < m1.MTime := by
  obtain ⟨hm, _⟩ := h
  unfold selectLookupTable at hs
  split at hs
  · rename_i t ht
    have e := Option.some.inj hs
    have e1 : m1 = (SetLookupTable m w (some t)).1 := by rw [e]
    have e2 : w1 = (SetLookupTable m w (some t)).2 := by rw [e]
    subst e1 e2
    by_cases hne : m.LookupTable = some t
    · have e3 : SetLookupTable m w (some t) = (m, w) := by simp [SetLookupTable, hne]
      rw [e3]
      exact ⟨le_refl _, le_refl _, fun l hl => Or.inl ⟨hl, rfl⟩⟩
    · have e3 : SetLookupTable m w (some t) =
          ({ m with LookupTable := some t, MTime := w.clock + 1 },
            { w with clock := w.clock + 1 }) := by
        simp [SetLookupTable, hne, Modified]
      rw [e3]
      exact ⟨Nat.le_succ_of_le hm, le_refl _, fun l _ => Or.inr (Nat.lt_succ_self _)⟩
  · cases hl : m.LookupTable with
    | none =>
      simp only [hl, if_true, CreateDefaultLookupTable_mapper, lutBuild] at hs
      have e := Option.some.inj hs
      have e1 := (Prod.mk.inj e).1
      have e2 := (Prod.mk.inj e).2
      subst e1 e2
      refine ⟨le_refl _, ?_, fun l hl2 => by cases hl2⟩
      rw [CreateDefaultLookupTable_nextId]
      exact Nat.le_succ _
    | some l =>
      simp only [hl, reduceCtorEq, if_false, lutBuild] at hs
      have e := Option.some.inj hs
      have e1 : m = m1 := (Prod.mk.inj e).1
      have e2 : w = w1 := (Prod.mk.inj e).2
      subst e1 e2
      exact ⟨le_refl _, le_refl _, fun l2 hl2 => Or.inl ⟨hl.trans hl2, rfl⟩⟩

theorem lutSetRange_mono (m : Mapper) (w : World) (l : Nat) (r : Dbl × Dbl) (h : Stamped m w) :
    (lutSetRange w l r).nextId = w.nextId ∧
      ∀ k, (w.luts k).mtime ≤ ((lutSetRange w l r).luts k).mtime := by
  obtain ⟨_, hl⟩ := h
  unfold lutSetRange
  split
  · exact ⟨rfl, fun _ => le_refl _⟩
  · refine ⟨rfl, fun k => ?_⟩
    by_cases hk : k = l
    · subst hk
      simp only [Function.update_same]
      exact Nat.le_succ_of_le (hl k)
    · simp only [Function.update_noteq hk]
      exact le_refl _

theorem applyScalarRange_mono (m : Mapper) (w : World) (m1 : Mapper) (w1 : World)
    (h : Stamped m w) (hs : applyScalarRange m w = some (m1, w1)) :
    m1 = m ∧ w1.nextId = w.nextId ∧ ∀ k, (w.luts k).mtime ≤ (w1.luts k).mtime := by
  unfold applyScalarRange at hs
  split at hs
  · split at hs
    · exact absurd hs (by simp)
    · rename_i l hl
      have e := Option.some.inj hs
      have e1 := (Prod.mk.inj e).1
      have e2 := (Prod.mk.inj e).2
      subst e1 e2
      obtain ⟨h1, h2⟩ := lutSetRange_mono m w l m.ScalarRange h
      exact ⟨rfl, h1, h2⟩
  · have e := Option.some.inj hs
    have e1 := (Prod.mk.inj e).1
    have e2 := (Prod.mk.inj e).2
    subst e1 e2
    exact ⟨rfl, rfl, fun _ => le_refl _⟩

/-- The table set-up of `MapScalars` moves no time stamp backwards: the
mapper's own time and the allocator do not decrease, and a table the mapper
held before is either still its table, stamped no earlier than before, or the
mapper has been stamped modified past the old clock. -/
theorem setupLookupTable_mono (env : Env) (m : Mapper) (w : World) (a : AbstractArray)
    (m1 : Mapper) (w1 : World) (h : Stamped m w)
    (hs : setupLookupTable env m w a = some (m1, w1)) :
    m.MTime ≤ m1.MTime ∧ w.nextId ≤ w1.nextId ∧ w.clock ≤ w1.clock ∧
      ∀ l, m.LookupTable = some l →
        (m1.LookupTable = some l ∧ (w.luts l).mtime ≤ (w1.luts l).mtime) ∨ w.clock < m1.MTime := by
  unfold setupLookupTable at hs
  split at hs
  · exact absurd hs (by simp)
  · rename_i m0 w0 h0
    obtain ⟨hst0, hclock0, _⟩ := selectLookupTable_stamped env m w a m0 w0 h h0
    obtain ⟨ha, hb, hc⟩ := selectLookupTable_mono env m w a m0 w0 h h0
    obtain ⟨e1, hn, hk⟩ := applyScalarRange_mono m0 w0 m1 w1 hst0 hs
    subst e1
    have hclock1 : w0.clock ≤ w1.clock := by
      unfold applyScalarRange at hs
      split at hs
      · split at hs
        · exact absurd hs (by simp)
        · have e := (Prod.mk.inj (Option.some.inj hs)).2
          rw [← e]
          exact (lutSetRange_stamped m1 w0 _ _ hst0).2
      · have e := (Prod.mk.inj (Option.some.inj hs)).2
        rw [← e]
    refine ⟨ha, by omega, le_trans hclock0 hclock1, fun l hl => ?_⟩
    rcases hc l hl with ⟨h1, h2⟩ | h3
    · left
      refine ⟨h1, ?_⟩
      have := hk l
      rw [h2] at this
      exact this
    · exact Or.inr h3

theorem GetMTime_ge (m : Mapper) (w : World) (l : Nat) (hl : m.LookupTable = some l) :
    m.MTime ≤ GetMTime m w ∧ (w.luts l).mtime ≤ GetMTime m w := by
  unfold GetMTime
  rw [hl]
  simp only
  split <;> omega

theorem reusableColors_stale (m : Mapper) (w : World) (ds : DataSet) (alpha : Dbl)
    (c : ColorArray) (l : Nat) (hc : m.Colors = some c) (hl : m.LookupTable = some l)
    (h : ¬ (GetMTime m w < c.mtime ∧ ds.mtime < c.mtime ∧ (w.luts l).mtime < c.mtime)) :
    reusableColors m w ds alpha = none := by
  unfold reusableColors
  rw [hc, hl]
  simp only [h, if_false]
  split <;> rfl

/-- C4: on the vertex-colour path, cached colours older than the mapper, the
input or the mapper's lookup table are never returned: the call maps the
colours again and returns and installs an array allocated and stamped in this
call, which is not the cached array. In particular this is so after the range
of the lookup table has been changed, which stamps the table. -/
theorem MapScalars_stale_colors (env : Env) (m : Mapper) (w : World) (ds : DataSet)
    (alpha : Dbl) (cellFlag : Int) (c : ColorArray)
    (hst : Stamped m w) (hc : m.Colors = some c) (hcm : c.mtime ≤ w.clock)
    (hcid : c.id < w.nextId)
    (hpath : MapScalarsPath env m w (some ds) cellFlag = ColorPath.vertex)
    (hstale : m.MTime > c.mtime ∨ ds.mtime > c.mtime ∨
      ∃ l, m.LookupTable = some l ∧ (w.luts l).mtime > c.mtime) :
    ∃ r c2, MapScalars env m w (some ds) alpha cellFlag = some r ∧
      r.ret = some c2 ∧ r.mapper.Colors = some c2 ∧
      c2.id ≠ c.id ∧ w.nextId ≤ c2.id ∧ w.clock < c2.mtime := by
  obtain ⟨a, m1, w1, hres, hvis, hsetup, hcan⟩ := MapScalarsPath_vertex env m w ds cellFlag hpath
  rw [MapScalars_vertex env m w ds alpha cellFlag a m1 w1 hres hvis hsetup hcan]
  have hst0 : Stamped (resetArrayComponent m (some a)) w := by
    rw [resetArrayComponent_mapper]; exact hst
  obtain ⟨hmt, hnid, hclock, htab⟩ := setupLookupTable_mono env _ w a m1 w1 hst0 hsetup
  obtain ⟨m1', w1', l, hs', hm1⟩ := setupLookupTable_frame env (resetArrayComponent m (some a)) w a
  rw [hsetup] at hs'
  have em : m1 = m1' := (Prod.mk.inj (Option.some.inj hs')).1
  subst em
  have hl : m1.LookupTable = some l := by rw [hm1]
  have hc1 : m1.Colors = some c := by rw [hm1, resetArrayComponent_mapper]; exact hc
  have hmt0 : (resetArrayComponent m (some a)).MTime = m.MTime := by
    rw [resetArrayComponent_mapper]
  have hlt0 : (resetArrayComponent m (some a)).LookupTable = m.LookupTable := by
    rw [resetArrayComponent_mapper]
  rw [hmt0] at hmt
  rw [hlt0] at htab
  obtain ⟨hg1, hg2⟩ := GetMTime_ge m1 w1 l hl
  have hstale1 : ¬ (GetMTime { m1 with ColorCoordinates := none, ColorTextureMap := none } w1
      < c.mtime ∧ ds.mtime < c.mtime ∧ (w1.luts l).mtime < c.mtime) := by
    show ¬ (GetMTime m1 w1 < c.mtime ∧ ds.mtime < c.mtime ∧ (w1.luts l).mtime < c.mtime)
    rintro ⟨h1, h2, h3⟩
    rcases hstale with hs | hs | ⟨l0, hl0, hs⟩
    · omega
    · omega
    · rcases htab l0 hl0 with ⟨hsame, hle⟩ | hmod
      · rw [hl] at hsame
        have e := Option.some.inj hsame
        subst e
        omega
      · omega
  rw [reusableColors_stale { m1 with ColorCoordinates := none, ColorTextureMap := none } w1 ds
    alpha c l hc1 hl hstale1]
  obtain ⟨c2, hrec, hcid2, hcm2⟩ := recomputeColors_fresh env
    { m1 with ColorCoordinates := none, ColorTextureMap := none } w1 a alpha l hl
  rw [hrec]
  exact ⟨_, c2, rfl, rfl, rfl, by omega, by omega, by omega⟩

/-- C4 on the sample mapper: a first call, a change of the table's range to
(0, 2), and a second call return the arrays allocated at addresses 5 and 6;
and the theorem at the sample mapper holding colours cached at time 4 while
its table was last modified at time 9. -/
theorem MapScalars_stale_colors_witness :
    (MapScalarsAroundRangeChange sampleEnv sampleMapper sampleWorld (some samplePointData)
        (Dbl.fin 1) 0 (Dbl.fin 0, Dbl.fin 2)).map
      (fun p => (p.1.ret.map ColorArray.id, p.2.ret.map ColorArray.id)) = some (some 5, some 6) ∧
    ∃ r c2, MapScalars sampleEnv sampleCachedMapper sampleLaterWorld (some samplePointData)
        (Dbl.fin 1) 0 = some r ∧
      r.ret = some c2 ∧ r.mapper.Colors = some c2 ∧
      c2.id ≠ 1 ∧ 5 ≤ c2.id ∧ 10 < c2.mtime :=
  ⟨by rfl,
    MapScalars_stale_colors sampleEnv sampleCachedMapper sampleLaterWorld samplePointData
      (Dbl.fin 1) 0 { id := 1, mtime := 4, colors := [] }
      (show Stamped sampleCachedMapper sampleLaterWorld from
        ⟨by decide, fun _ => show (9 : Nat) ≤ 10 by decide⟩)
      rfl (by decide) (by decide) (by decide)
      (Or.inr (Or.inr ⟨0, rfl, show (4 : Nat) < 9 by decide⟩))⟩

/-! ### Choice between texture and vertex colours -/

theorem CanUseTextureMapForColoring_sound (env : Env) (m : Mapper) (w : World)
    (input : DataObject) (h : CanUseTextureMapForColoring env m w input = true) :
    CanUseTextureSpec env m w input := by
  unfold CanUseTextureMapForColoring at h
  split at h
  · cases h
  · rename_i hI
    split at h
    · cases h
    · rename_i hX
      refine ⟨by simpa using hI, ?_, ?_⟩
      · intro l hl
        rw [hl] at hX
        simpa using hX
      · intro ds hin
        subst hin
        simp only at h
        split at h
        · left; assumption
        · rename_i a ha
          right
          split at h
          · cases h
          · rename_i hf
            split at h
            · cases h
            · rename_i hd
              push_neg at hd
              exact ⟨a, ha, not_not.mp hf, fun hc => hd.1 hc.1 hc.2, hd.2⟩

theorem CanUseTextureMapForColoring_complete (env : Env) (m : Mapper) (w : World)
    (input : DataObject) (h : CanUseTextureSpec env m w input) :
    CanUseTextureMapForColoring env m w input = true := by
  obtain ⟨hI, hX, hD⟩ := h
  unfold CanUseTextureMapForColoring
  rw [if_neg (by simp [hI])]
  have hx : ¬ (match m.LookupTable with
      | some l => (w.luts l).indexedLookup
      | none => false) = true := by
    cases hl : m.LookupTable with
    | none => simp
    | some l => simp [hX l hl]
  rw [if_neg hx]
  cases input with
  | other t => rfl
  | dataSet ds =>
    simp only
    rcases hD ds rfl with hn | ⟨a, ha, hf, hd1, hd2⟩
    · rw [hn]
    · rw [ha]
      simp only
      rw [if_neg (not_not.mpr hf), if_neg (fun hc => hc.elim hd1 hd2)]

/-- C5: `CanUseTextureMapForColoring` returns true exactly under the
condition of the specification (`CanUseTextureSpec`); in particular it
returns false whenever interpolation before mapping is off, whenever the
assigned table is in indexed-lookup mode, and whenever the scalars resolved on
a data-set input are not point-associated. -/
theorem CanUseTextureMapForColoring_iff (env : Env) (m : Mapper) (w : World)
    (input : DataObject) :
    (CanUseTextureMapForColoring env m w input = true ↔ CanUseTextureSpec env m w input) ∧
    (m.InterpolateScalarsBeforeMapping = false →
      CanUseTextureMapForColoring env m w input = false) ∧
    (∀ l, m.LookupTable = some l → (w.luts l).indexedLookup = true →
      CanUseTextureMapForColoring env m w input = false) ∧
    (∀ ds a, input = DataObject.dataSet ds → (resolveScalars env m ds 0).1 = some a →
      (resolveScalars env m ds 0).2 ≠ 0 →
      CanUseTextureMapForColoring env m w input = false) := by
  have main : CanUseTextureMapForColoring env m w input = true ↔
      CanUseTextureSpec env m w input :=
    ⟨CanUseTextureMapForColoring_sound env m w input,
      CanUseTextureMapForColoring_complete env m w input⟩
  refine ⟨main, ?_, ?_, ?_⟩
  · intro h
    cases hc : CanUseTextureMapForColoring env m w input
    · rfl
    · have := (main.mp hc).1
      rw [h] at this
      cases this
  · intro l hl hx
    cases hc : CanUseTextureMapForColoring env m w input
    · rfl
    · have := (main.mp hc).2.1 l hl
      rw [hx] at this
      cases this
  · intro ds a hin hr hf
    cases hc : CanUseTextureMapForColoring env m w input
    · rfl
    · rcases (main.mp hc).2.2 ds hin with h | ⟨a2, _, h2, _⟩
      · rw [hr] at h
        cases h
      · exact absurd h2 hf

/-- C5 on the sample mapper with interpolation before mapping on: point
scalars can be coloured through a texture, cell scalars cannot. -/
theorem CanUseTextureMapForColoring_iff_witness :
    CanUseTextureMapForColoring sampleEnv sampleTextureMapper sampleWorld
      (DataObject.dataSet samplePointData) = true ∧
    CanUseTextureMapForColoring sampleEnv sampleTextureMapper sampleWorld
      (DataObject.dataSet sampleCellData) = false :=
  ⟨by decide,
    (CanUseTextureMapForColoring_iff sampleEnv sampleTextureMapper sampleWorld
      (DataObject.dataSet sampleCellData)).2.2.2 sampleCellData sampleArray rfl rfl (by decide)⟩

/-! ### Texture coordinates -/

/-- C6: for every scalar value, range minimum and inverse range width, a NaN
scalar gives the coordinates (0.5, 1.0), a scalar that is not NaN gives the t
coordinate 0.49, and t takes no other value. -/
theorem ScalarToTextureCoordinate_t (scalar_value range_min inv_range_width : Dbl) :
    (scalar_value.IsNan = true →
      ScalarToTextureCoordinate scalar_value range_min inv_range_width
        = (Dbl.fin (1 / 2), Dbl.fin 1)) ∧
    (scalar_value.IsNan = false →
      (ScalarToTextureCoordinate scalar_value range_min inv_range_width).2
        = Dbl.fin (49 / 100)) ∧
    ((ScalarToTextureCoordinate scalar_value range_min inv_range_width).2 = Dbl.fin 1 ∨
      (ScalarToTextureCoordinate scalar_value range_min inv_range_width).2
        = Dbl.fin (49 / 100)) := by
  have hnan : scalar_value.IsNan = true →
      ScalarToTextureCoordinate scalar_value range_min inv_range_width
        = (Dbl.fin (1 / 2), Dbl.fin 1) := by
    intro h
    unfold ScalarToTextureCoordinate
    simp only [h, if_true, Dbl.gt, Dbl.lt]
    norm_num
  have hnot : scalar_value.IsNan = false →
      (ScalarToTextureCoordinate scalar_value range_min inv_range_width).2
        = Dbl.fin (49 / 100) := by
    intro h
    unfold ScalarToTextureCoordinate
    simp only [h, Bool.false_eq_true, if_false]
    split
    · rfl
    · split <;> rfl
  refine ⟨hnan, hnot, ?_⟩
  cases h : scalar_value.IsNan
  · exact Or.inr (hnot h)
  · left
    rw [hnan h]

/-- C6 at a NaN scalar and at the scalar 3, for the range minimum 0 and the
inverse width 1. -/
theorem ScalarToTextureCoordinate_t_witness :
    ScalarToTextureCoordinate Dbl.nan (Dbl.fin 0) (Dbl.fin 1) = (Dbl.fin (1 / 2), Dbl.fin 1) ∧
    (ScalarToTextureCoordinate (Dbl.fin 3) (Dbl.fin 0) (Dbl.fin 1)).2 = Dbl.fin (49 / 100) :=
  ⟨(ScalarToTextureCoordinate_t Dbl.nan (Dbl.fin 0) (Dbl.fin 1)).1 rfl,
    (ScalarToTextureCoordinate_t (Dbl.fin 3) (Dbl.fin 0) (Dbl.fin 1)).2.1 rfl⟩

/-- The clamp of `ScalarToTextureCoordinate` on a product that is not NaN. -/
theorem clamp_eq_clampTo1000 (p : Dbl) (h : p.IsNan = false) :
    (if Dbl.gt p (Dbl.fin 1000) then Dbl.fin 1000
      else if Dbl.lt p (Dbl.fin (-1000)) then Dbl.fin (-1000) else p) = clampTo1000 p := by
  cases p with
  | nan => simp [Dbl.IsNan] at h
  | pinf => simp [Dbl.gt, Dbl.lt, clampTo1000]
  | ninf => simp [Dbl.gt, Dbl.lt, clampTo1000]
  | fin q =>
    simp only [Dbl.gt, Dbl.lt, clampTo1000, decide_eq_true_eq]
    by_cases h1 : (1000 : ℚ) < q
    · rw [if_pos h1, min_eq_left (le_of_lt h1), max_eq_right (by norm_num)]
    · rw [if_neg h1]
      push_neg at h1
      rw [min_eq_right h1]
      by_cases h2 : q < -1000
      · rw [if_pos h2, max_eq_left (le_of_lt h2)]
      · rw [if_neg h2]
        push_neg at h2
        rw [max_eq_right h2]

theorem clampTo1000_bounds (p : Dbl) (h : p.IsNan = false) :
    Dbl.le (Dbl.fin (-1000)) (clampTo1000 p) = true ∧
    Dbl.le (clampTo1000 p) (Dbl.fin 1000) = true := by
  cases p with
  | nan => simp [Dbl.IsNan] at h
  | pinf => simp [Dbl.le, Dbl.lt, Dbl.eq, clampTo1000]
  | ninf => simp [Dbl.le, Dbl.lt, Dbl.eq, clampTo1000]
  | fin q =>
    simp only [Dbl.le, Dbl.lt, Dbl.eq, clampTo1000, Bool.or_eq_true, decide_eq_true_eq,
      Dbl.fin.injEq]
    constructor
    · exact lt_or_eq_of_le (le_max_left _ _)
    · exact lt_or_eq_of_le (max_le (by norm_num) (min_le_left _ _))

theorem ScalarToTextureCoordinate_s_eq (v lo inv : Dbl) (hv : v.IsNan = false)
    (hp : (Dbl.mul (Dbl.sub v lo) inv).IsNan = false) :
    (ScalarToTextureCoordinate v lo inv).1 = clampTo1000 (Dbl.mul (Dbl.sub v lo) inv) := by
  rw [← clamp_eq_clampTo1000 _ hp]
  unfold ScalarToTextureCoordinate
  simp only [hv, Bool.false_eq_true, if_false]
  split
  · rfl
  · split <;> rfl

/-- The padded range of `CreateColorTextureCoordinates` for a finite range
with `range[0] < range[1]` and a positive number of colours. -/
theorem paddedRange_fin (r0 r1 : ℚ) (n : Int) (hn : 0 < n) (hr : r0 < r1) :
    paddedRange (Dbl.fin r0, Dbl.fin r1) n =
      (Dbl.fin (r0 - (r1 - r0) / n), Dbl.fin (1 / ((r1 - r0) * (1 + 2 / n)))) ∧
    0 < (r1 - r0) * (1 + 2 / (n : ℚ)) := by
  have hn0 : (0 : ℚ) < n := by exact_mod_cast hn
  have hne : (n : ℚ) ≠ 0 := ne_of_gt hn0
  have hpos : 0 < (r1 - r0) * (1 + 2 / (n : ℚ)) := by
    have : 0 < 2 / (n : ℚ) := by positivity
    exact mul_pos (by linarith) (by linarith)
  have hw : r1 + (r1 + -r0) / ↑n + -(r0 + -((r1 + -r0) / ↑n)) = (r1 - r0) * (1 + 2 / (n : ℚ)) := by
    field_simp
    ring
  refine ⟨?_, hpos⟩
  unfold paddedRange
  simp only [Dbl.sub, Dbl.neg, Dbl.add, Dbl.div, Dbl.ofInt, hne, if_false, hw, ne_of_gt hpos]
  congr 2
  ring

theorem ScalarToTextureCoordinate_fin (v lo inv : ℚ) :
    ScalarToTextureCoordinate (Dbl.fin v) (Dbl.fin lo) (Dbl.fin inv) =
      (Dbl.fin (max (-1000) (min 1000 ((v - lo) * inv))), Dbl.fin (49 / 100)) := by
  have hp : (Dbl.mul (Dbl.sub (Dbl.fin v) (Dbl.fin lo)) (Dbl.fin inv)).IsNan = false := rfl
  have h1 := ScalarToTextureCoordinate_s_eq (Dbl.fin v) (Dbl.fin lo) (Dbl.fin inv) rfl hp
  have h2 : (ScalarToTextureCoordinate (Dbl.fin v) (Dbl.fin lo) (Dbl.fin inv)).2 =
      Dbl.fin (49 / 100) := by
    unfold ScalarToTextureCoordinate
    simp only [Dbl.IsNan, Bool.false_eq_true, if_false]
    split
    · rfl
    · split <;> rfl
  have h3 : clampTo1000 (Dbl.mul (Dbl.sub (Dbl.fin v) (Dbl.fin lo)) (Dbl.fin inv)) =
      Dbl.fin (max (-1000) (min 1000 ((v - lo) * inv))) := by
    simp only [Dbl.sub, Dbl.neg, Dbl.add, Dbl.mul, clampTo1000, sub_eq_add_neg]
  rw [h3] at h1
  exact Prod.ext h1 h2

/-- The coordinates `CreateColorTextureCoordinates` gives the single value
`v` of a one-component array for the table range [0, 1] and `n` colours. -/
theorem CreateColorTextureCoordinates_unit_range (env : Env) (v : ℚ) (n : Int) (hn : 1 ≤ n) :
    CreateColorTextureCoordinates env [Dbl.fin v] 1 1 0 (Dbl.fin 0, Dbl.fin 1)
        (Dbl.fin 0, Dbl.fin 1) n false =
      [(Dbl.fin (max (-1000) (min 1000
          ((v - (0 - (1 - 0) / (n : ℚ))) * (1 / ((1 - 0) * (1 + 2 / (n : ℚ))))))),
        Dbl.fin (49 / 100))] := by
  obtain ⟨hpr, _⟩ := paddedRange_fin 0 1 n (by omega) (by norm_num)
  unfold CreateColorTextureCoordinates
  simp only [hpr]
  rw [if_neg (by omega)]
  show [ScalarToTextureCoordinate (Dbl.fin v) (Dbl.fin (0 - (1 - 0) / (n : ℚ)))
    (Dbl.fin (1 / ((1 - 0) * (1 + 2 / (n : ℚ)))))] = _
  rw [ScalarToTextureCoordinate_fin]

/-- C7, as amended: for every scalar value that is not NaN and every range
minimum and inverse range width for which the product
`(value - range_min) * inv_range_width` is not NaN (as for finite arguments),
the s coordinate is that product clamped to [-1000, 1000], so
`-1000 <= s <= 1000`; and for the table range [0, 1] and any positive number
of colours the value 1e9 gets s = 1000 and the value -1e9 gets s = -1000. -/
theorem ScalarToTextureCoordinate_s (scalar_value range_min inv_range_width : Dbl)
    (hv : scalar_value.IsNan = false)
    (hp : (Dbl.mul (Dbl.sub scalar_value range_min) inv_range_width).IsNan = false) :
    (ScalarToTextureCoordinate scalar_value range_min inv_range_width).1 =
      clampTo1000 (Dbl.mul (Dbl.sub scalar_value range_min) inv_range_width) ∧
    Dbl.le (Dbl.fin (-1000))
      (ScalarToTextureCoordinate scalar_value range_min inv_range_width).1 = true ∧
    Dbl.le (ScalarToTextureCoordinate scalar_value range_min inv_range_width).1
      (Dbl.fin 1000) = true ∧
    ∀ (env : Env) (n : Int), 1 ≤ n →
      CreateColorTextureCoordinates env [Dbl.fin 1000000000] 1 1 0 (Dbl.fin 0, Dbl.fin 1)
        (Dbl.fin 0, Dbl.fin 1) n false = [(Dbl.fin 1000, Dbl.fin (49 / 100))] ∧
      CreateColorTextureCoordinates env [Dbl.fin (-1000000000)] 1 1 0 (Dbl.fin 0, Dbl.fin 1)
        (Dbl.fin 0, Dbl.fin 1) n false = [(Dbl.fin (-1000), Dbl.fin (49 / 100))] := by
  have hs := ScalarToTextureCoordinate_s_eq scalar_value range_min inv_range_width hv hp
  obtain ⟨hb1, hb2⟩ := clampTo1000_bounds _ hp
  refine ⟨hs, by rw [hs]; exact hb1, by rw [hs]; exact hb2, ?_⟩
  intro env n hn
  have hn1 : (1 : ℚ) ≤ n := by exact_mod_cast hn
  have hn0 : (0 : ℚ) < n := by linarith
  have ht0 : (0 : ℚ) < 1 / n := by positivity
  have ht1 : (1 : ℚ) / n ≤ 1 := by
    rw [div_le_iff₀ hn0]
    linarith
  have e1 : (2 : ℚ) / n = 2 * (1 / n) := by ring
  have hb : (0 : ℚ) < (1 - 0) * (1 + 2 / (n : ℚ)) := by
    rw [e1]
    linarith
  rw [CreateColorTextureCoordinates_unit_range env _ n hn,
    CreateColorTextureCoordinates_unit_range env _ n hn]
  constructor
  · have hbig : (1000 : ℚ) ≤
        (1000000000 - (0 - (1 - 0) / (n : ℚ))) * (1 / ((1 - 0) * (1 + 2 / (n : ℚ)))) := by
      rw [mul_one_div, le_div_iff₀ hb, e1]
      have e2 : (1 - 0) / (n : ℚ) = 1 / n := by ring
      rw [e2]
      linarith
    rw [min_eq_left hbig, max_eq_right (by norm_num)]
  · have hsmall : (-1000000000 - (0 - (1 - 0) / (n : ℚ))) * (1 / ((1 - 0) * (1 + 2 / (n : ℚ))))
        ≤ (-1000 : ℚ) := by
      rw [mul_one_div, div_le_iff₀ hb, e1]
      have e2 : (1 - 0) / (n : ℚ) = 1 / n := by ring
      rw [e2]
      linarith
    rw [min_eq_right (le_trans hsmall (by norm_num)), max_eq_left hsmall]

/-- C7 at the value 2000 for the range minimum 0 and the inverse width 1. -/
theorem ScalarToTextureCoordinate_s_witness :
    (ScalarToTextureCoordinate (Dbl.fin 2000) (Dbl.fin 0) (Dbl.fin 1)).1 =
      clampTo1000 (Dbl.mul (Dbl.sub (Dbl.fin 2000) (Dbl.fin 0)) (Dbl.fin 1)) ∧
    Dbl.le (ScalarToTextureCoordinate (Dbl.fin 2000) (Dbl.fin 0) (Dbl.fin 1)).1
      (Dbl.fin 1000) = true :=
  ⟨(ScalarToTextureCoordinate_s (Dbl.fin 2000) (Dbl.fin 0) (Dbl.fin 1) rfl rfl).1,
    (ScalarToTextureCoordinate_s (Dbl.fin 2000) (Dbl.fin 0) (Dbl.fin 1) rfl rfl).2.2.1⟩

/-- C7 fails as stated: for the range [5, 5] and 256 colours
`CreateColorTextureCoordinates` passes the range minimum 5 and the inverse
width `1 / 0 = +inf`, and the scalar 5, which is not NaN, gets
`s = 0 * inf = NaN`, which neither comparison of the clamp catches: s is not
inside [-1000, 1000]. -/
theorem ScalarToTextureCoordinate_s_degenerate :
    paddedRange (Dbl.fin 5, Dbl.fin 5) 256 = (Dbl.fin 5, Dbl.pinf) ∧
    ScalarToTextureCoordinate (Dbl.fin 5) (Dbl.fin 5) Dbl.pinf
      = (Dbl.nan, Dbl.fin (49 / 100)) ∧
    Dbl.le (Dbl.fin (-1000))
      (ScalarToTextureCoordinate (Dbl.fin 5) (Dbl.fin 5) Dbl.pinf).1 = false ∧
    Dbl.le (ScalarToTextureCoordinate (Dbl.fin 5) (Dbl.fin 5) Dbl.pinf).1
      (Dbl.fin 1000) = false := by
  have h1 : paddedRange (Dbl.fin 5, Dbl.fin 5) 256 = (Dbl.fin 5, Dbl.pinf) := by
    simp [paddedRange, Dbl.sub, Dbl.neg, Dbl.add, Dbl.div, Dbl.ofInt, Dbl.signedInf]
  have h2 : ScalarToTextureCoordinate (Dbl.fin 5) (Dbl.fin 5) Dbl.pinf
      = (Dbl.nan, Dbl.fin (49 / 100)) := by
    simp [ScalarToTextureCoordinate, Dbl.IsNan, Dbl.sub, Dbl.neg, Dbl.add, Dbl.mul,
      Dbl.signedInf, Dbl.gt, Dbl.lt]
  refine ⟨h1, h2, ?_, ?_⟩
  · rw [h2]; rfl
  · rw [h2]; rfl

/-! ### Size and layout of the colour texture -/

theorem buildColorTextureMap_image (env : Env) (m : Mapper) (w : World) (l : Nat)
    (range : Dbl × Dbl) (ls : Bool) (alpha orig : Dbl) :
    ∃ t, (buildColorTextureMap env m w l range ls alpha orig).1.ColorTextureMap = some t ∧
      t.extent =
        (0, textureNumberOfColors (w.luts l).numberOfAvailableColors - 1, 0, 1, 0, 0) ∧
      t.samples = textureSamples env range
        (textureNumberOfColors (w.luts l).numberOfAvailableColors) ls := by
  unfold buildColorTextureMap
  simp only [lutSetAlpha, Function.update_same]
  exact ⟨_, rfl, rfl, rfl⟩

/-- C8: when the lookup table reports `n` available colours, the texture
that `MapScalarsToTexture` builds has `n + 2` texels along its ramp if
`n + 2 <= 65538` and 8192 texels otherwise, whatever the range, the alpha and
the mapper; a table reporting 2^24 colours gives 8192 texels, not 2^24 + 2. -/
theorem ColorTextureMap_width (env : Env) (m : Mapper) (w : World) (l : Nat)
    (range : Dbl × Dbl) (use_log_scale : Bool) (alpha orig_alpha : Dbl) :
    (buildColorTextureMap env m w l range use_log_scale alpha orig_alpha).1.ColorTextureMap.map
        ImageData.width =
      some (if (w.luts l).numberOfAvailableColors + 2 ≤ 65538
        then (w.luts l).numberOfAvailableColors + 2 else 8192) ∧
    (∀ m2 w2 a, m.ColorTextureMap = none → m.LookupTable = some l →
      MapScalarsToTexture env m w a alpha = some (m2, w2) →
      m2.ColorTextureMap.map ImageData.width =
        some (if (w.luts l).numberOfAvailableColors + 2 ≤ 65538
          then (w.luts l).numberOfAvailableColors + 2 else 8192)) ∧
    textureNumberOfColors (2 ^ 24) = 8192 := by
  have hN : textureNumberOfColors (w.luts l).numberOfAvailableColors =
      (if (w.luts l).numberOfAvailableColors + 2 ≤ 65538
        then (w.luts l).numberOfAvailableColors + 2 else 8192) := by
    unfold textureNumberOfColors
    simp only
    split <;> split <;> first | rfl | omega
  have hbuild : ∀ (m : Mapper) (range : Dbl × Dbl) (ls : Bool) (orig : Dbl),
      (buildColorTextureMap env m w l range ls alpha orig).1.ColorTextureMap.map
        ImageData.width =
      some (if (w.luts l).numberOfAvailableColors + 2 ≤ 65538
        then (w.luts l).numberOfAvailableColors + 2 else 8192) := by
    intro m range ls orig
    obtain ⟨t, ht, hext, _⟩ := buildColorTextureMap_image env m w l range ls alpha orig
    rw [ht, ← hN]
    simp only [Option.map_some', ImageData.width, hext]
    congr 1
    omega
  refine ⟨hbuild m range use_log_scale orig_alpha, ?_, by decide⟩
  have key : ∀ (m3 : Mapper) (r : Dbl × Dbl) (u : Bool) (o : Dbl), m3.ColorTextureMap = none →
      (updateColorTextureMap env m3 w l r u alpha o).1.ColorTextureMap.map ImageData.width =
      some (if (w.luts l).numberOfAvailableColors + 2 ≤ 65538
        then (w.luts l).numberOfAvailableColors + 2 else 8192) := by
    intro m3 r u o h3
    unfold updateColorTextureMap
    simp only [h3, if_true]
    exact hbuild _ _ _ _
  intro m2 w2 a hnone hl h
  unfold MapScalarsToTexture at h
  split at h
  · exact absurd h (by simp)
  · rename_i l2 hl2
    have e : l2 = l := Option.some.inj (hl2.symm.trans hl)
    subst e
    have h2 := updateColorCoordinates_mapper _ _ _ _ _ _ _ _ _ h
    rw [h2]
    exact key _ _ _ _ hnone

/-- C8 on a table reporting 2^24 available colours: the texture built is 8192
texels wide. -/
theorem ColorTextureMap_width_witness :
    (buildColorTextureMap sampleEnv sampleTextureMapper (sampleWorldWithColors (2 ^ 24)) 0
      (Dbl.fin 0, Dbl.fin 1) false (Dbl.fin 1) (Dbl.fin 1)).1.ColorTextureMap.map
        ImageData.width = some 8192 :=
  (ColorTextureMap_width sampleEnv sampleTextureMapper (sampleWorldWithColors (2 ^ 24)) 0
    (Dbl.fin 0, Dbl.fin 1) false (Dbl.fin 1) (Dbl.fin 1)).1

/-- C9 fails as stated: a table reporting 65536 available colours gets a
texture of 65538 texels, more than 8192. -/
theorem ColorTextureMap_width_65536 :
    textureNumberOfColors 65536 = 65538 ∧
    (buildColorTextureMap sampleEnv sampleTextureMapper (sampleWorldWithColors 65536) 0
      (Dbl.fin 0, Dbl.fin 1) false (Dbl.fin 1) (Dbl.fin 1)).1.ColorTextureMap.map
        ImageData.width = some 65538 ∧
    ¬ ((65538 : Int) ≤ 8192) := by
  refine ⟨by decide, ?_, by decide⟩
  obtain ⟨t, ht, hext, _⟩ := buildColorTextureMap_image sampleEnv sampleTextureMapper
    (sampleWorldWithColors 65536) 0 (Dbl.fin 0, Dbl.fin 1) false (Dbl.fin 1) (Dbl.fin 1)
  rw [ht]
  simp only [Option.map_some', ImageData.width, hext]
  rfl

/-- C9, as amended: for every number of available colours the table may
report, the texture that `MapScalarsToTexture` builds has at most 65538
texels along its ramp, and exactly 8192 when the table reports more than
65536 colours. -/
theorem ColorTextureMap_width_le (env : Env) (m : Mapper) (w : World) (l : Nat)
    (range : Dbl × Dbl) (use_log_scale : Bool) (alpha orig_alpha : Dbl) :
    (∃ t, (buildColorTextureMap env m w l range use_log_scale alpha
        orig_alpha).1.ColorTextureMap = some t ∧ t.width ≤ 65538 ∧
      (65536 < (w.luts l).numberOfAvailableColors → t.width = 8192)) ∧
    ∀ n : Int, textureNumberOfColors n ≤ 65538 ∧ (65536 < n → textureNumberOfColors n = 8192) := by
  have hN : ∀ n : Int,
      textureNumberOfColors n ≤ 65538 ∧ (65536 < n → textureNumberOfColors n = 8192) := by
    intro n
    unfold textureNumberOfColors
    simp only
    split
    · exact ⟨by decide, fun _ => rfl⟩
    · exact ⟨by omega, fun h => by omega⟩
  refine ⟨?_, hN⟩
  obtain ⟨t, ht, hext, _⟩ := buildColorTextureMap_image env m w l range use_log_scale alpha
    orig_alpha
  refine ⟨t, ht, ?_, ?_⟩
  · have := (hN (w.luts l).numberOfAvailableColors).1
    simp only [ImageData.width, hext]
    omega
  · intro h
    have := (hN (w.luts l).numberOfAvailableColors).2 h
    simp only [ImageData.width, hext]
    omega

theorem Dbl.add_fin (a b : ℚ) : Dbl.add (Dbl.fin a) (Dbl.fin b) = Dbl.fin (a + b) := rfl

theorem Dbl.mul_fin (a b : ℚ) : Dbl.mul (Dbl.fin a) (Dbl.fin b) = Dbl.fin (a * b) := rfl

theorem Dbl.eq_of_eq_true (a b : Dbl) (h : Dbl.eq a b = true) : a = b := by
  cases a <;> cases b <;> simp_all [Dbl.eq]

theorem SetResolveCoincidentTopologyZShift_eq (p : Process) (val : Dbl) :
    SetResolveCoincidentTopologyZShift p val =
      { p with globals := { p.globals with ResolveCoincidentTopologyZShift := val } } := by
  unfold SetResolveCoincidentTopologyZShift
  split
  · rename_i h
    rw [Dbl.eq_of_eq_true _ _ h]
  · rfl

theorem SetResolveCoincidentTopologyPolygonOffsetParameters_eq (p : Process)
    (factor units : Dbl) :
    SetResolveCoincidentTopologyPolygonOffsetParameters p factor units =
      { p with globals :=
        { p.globals with
          ResolveCoincidentTopologyPolygonOffsetFactor := factor
          ResolveCoincidentTopologyPolygonOffsetUnits := units } } := by
  unfold SetResolveCoincidentTopologyPolygonOffsetParameters
  split
  · rename_i h
    rw [Bool.and_eq_true] at h
    rw [Dbl.eq_of_eq_true _ _ h.1, Dbl.eq_of_eq_true _ _ h.2]
  · rfl

theorem SetResolveCoincidentTopologyLineOffsetParameters_eq (p : Process)
    (factor units : Dbl) :
    SetResolveCoincidentTopologyLineOffsetParameters p factor units =
      { p with globals :=
        { p.globals with
          ResolveCoincidentTopologyLineOffsetFactor := factor
          ResolveCoincidentTopologyLineOffsetUnits := units } } := by
  unfold SetResolveCoincidentTopologyLineOffsetParameters
  split
  · rename_i h
    rw [Bool.and_eq_true] at h
    rw [Dbl.eq_of_eq_true _ _ h.1, Dbl.eq_of_eq_true _ _ h.2]
  · rfl

theorem SetResolveCoincidentTopologyPointOffsetParameter_eq (p : Process) (units : Dbl) :
    SetResolveCoincidentTopologyPointOffsetParameter p units =
      { p with globals :=
        { p.globals with ResolveCoincidentTopologyPointOffsetUnits := units } } := by
  unfold SetResolveCoincidentTopologyPointOffsetParameter
  split
  · rename_i h
    rw [Dbl.eq_of_eq_true _ _ h]
  · rfl

theorem SetResolveCoincidentTopology_eq (p : Process) (val : Int) :
    SetResolveCoincidentTopology p val =
      { p with globals := { p.globals with ResolveCoincidentTopology := val } } := by
  unfold SetResolveCoincidentTopology
  split
  · rename_i h
    rw [h]
  · rfl

/-- The relative polygon setter stores both values and leaves the statics
alone. -/
theorem SetRelativeCoincidentTopologyPolygonOffsetParameters_stored (p : Process)
    (factor units : Dbl) :
    (SetRelativeCoincidentTopologyPolygonOffsetParameters p factor units).globals = p.globals ∧
    (SetRelativeCoincidentTopologyPolygonOffsetParameters p factor units).mapper.CoincidentPolygonFactor = factor ∧
    (SetRelativeCoincidentTopologyPolygonOffsetParameters p factor units).mapper.CoincidentPolygonOffset = units := by
  unfold SetRelativeCoincidentTopologyPolygonOffsetParameters
  split
  · rename_i h
    rw [Bool.and_eq_true] at h
    exact ⟨rfl, (Dbl.eq_of_eq_true _ _ h.1).symm, (Dbl.eq_of_eq_true _ _ h.2).symm⟩
  · exact ⟨rfl, rfl, rfl⟩

theorem SetRelativeCoincidentTopologyLineOffsetParameters_stored (p : Process)
    (factor units : Dbl) :
    (SetRelativeCoincidentTopologyLineOffsetParameters p factor units).globals = p.globals ∧
    (SetRelativeCoincidentTopologyLineOffsetParameters p factor units).mapper.CoincidentLineFactor = factor ∧
    (SetRelativeCoincidentTopologyLineOffsetParameters p factor units).mapper.CoincidentLineOffset = units := by
  unfold SetRelativeCoincidentTopologyLineOffsetParameters
  split
  · rename_i h
    rw [Bool.and_eq_true] at h
    exact ⟨rfl, (Dbl.eq_of_eq_true _ _ h.1).symm, (Dbl.eq_of_eq_true _ _ h.2).symm⟩
  · exact ⟨rfl, rfl, rfl⟩

theorem SetRelativeCoincidentTopologyPointOffsetParameter_stored (p : Process) (units : Dbl) :
    (SetRelativeCoincidentTopologyPointOffsetParameter p units).globals = p.globals ∧
    (SetRelativeCoincidentTopologyPointOffsetParameter p units).mapper.CoincidentPointOffset = units := by
  unfold SetRelativeCoincidentTopologyPointOffsetParameter
  split
  · rename_i h
    exact ⟨rfl, (Dbl.eq_of_eq_true _ _ h).symm⟩
  · exact ⟨rfl, rfl⟩

/-- C11: for arbitrary global values set through the global setters and
relative values set through the per-object setters, each effective accessor
returns the sum of the two: polygon offset factor and units, line offset
factor and units, point offset units, and the z-shift. -/
theorem CoincidentTopology_effective (p : Process) (g1 g2 r1 r2 : Dbl) :
    GetCoincidentTopologyPolygonOffsetParameters
        (SetRelativeCoincidentTopologyPolygonOffsetParameters
          (SetResolveCoincidentTopologyPolygonOffsetParameters p g1 g2) r1 r2)
      = (Dbl.add g1 r1, Dbl.add g2 r2) ∧
    GetCoincidentTopologyLineOffsetParameters
        (SetRelativeCoincidentTopologyLineOffsetParameters
          (SetResolveCoincidentTopologyLineOffsetParameters p g1 g2) r1 r2)
      = (Dbl.add g1 r1, Dbl.add g2 r2) ∧
    GetCoincidentTopologyPointOffsetParameter
        (SetRelativeCoincidentTopologyPointOffsetParameter
          (SetResolveCoincidentTopologyPointOffsetParameter p g1) r1)
      = Dbl.add g1 r1 ∧
    GetResolveCoincidentTopologyZShift
        (SetRelativeCoincidentTopologyZShift (SetResolveCoincidentTopologyZShift p g1) r1)
      = Dbl.add g1 r1 := by
  refine ⟨?_, ?_, ?_, ?_⟩
  · obtain ⟨hg, hf, hu⟩ := SetRelativeCoincidentTopologyPolygonOffsetParameters_stored
      (SetResolveCoincidentTopologyPolygonOffsetParameters p g1 g2) r1 r2
    unfold GetCoincidentTopologyPolygonOffsetParameters
    rw [hg, hf, hu, SetResolveCoincidentTopologyPolygonOffsetParameters_eq]
  · obtain ⟨hg, hf, hu⟩ := SetRelativeCoincidentTopologyLineOffsetParameters_stored
      (SetResolveCoincidentTopologyLineOffsetParameters p g1 g2) r1 r2
    unfold GetCoincidentTopologyLineOffsetParameters
    rw [hg, hf, hu, SetResolveCoincidentTopologyLineOffsetParameters_eq]
  · obtain ⟨hg, hu⟩ := SetRelativeCoincidentTopologyPointOffsetParameter_stored
      (SetResolveCoincidentTopologyPointOffsetParameter p g1) r1
    unfold GetCoincidentTopologyPointOffsetParameter
    rw [hg, hu, SetResolveCoincidentTopologyPointOffsetParameter_eq]
  · rw [SetResolveCoincidentTopologyZShift_eq]
    rfl

/-- C11 at start-up: a global line offset of (1, -4) and a relative one of
(-1, 0) give the effective pair (0, -4); a global z-shift of 0 and a relative
one of -2 give -2. -/
theorem CoincidentTopology_effective_witness :
    GetCoincidentTopologyLineOffsetParameters
        (SetRelativeCoincidentTopologyLineOffsetParameters
          (SetResolveCoincidentTopologyLineOffsetParameters sampleProcess (Dbl.fin 1)
            (Dbl.fin (-4))) (Dbl.fin (-1)) (Dbl.fin 0))
      = (Dbl.add (Dbl.fin 1) (Dbl.fin (-1)), Dbl.add (Dbl.fin (-4)) (Dbl.fin 0)) ∧
    GetResolveCoincidentTopologyZShift
        (SetRelativeCoincidentTopologyZShift
          (SetResolveCoincidentTopologyZShift sampleProcess (Dbl.fin 0)) (Dbl.fin (-2)))
      = Dbl.add (Dbl.fin 0) (Dbl.fin (-2)) :=
  ⟨(CoincidentTopology_effective sampleProcess (Dbl.fin 1) (Dbl.fin (-4)) (Dbl.fin (-1))
      (Dbl.fin 0)).2.1,
    (CoincidentTopology_effective sampleProcess (Dbl.fin 0) (Dbl.fin 0) (Dbl.fin (-2))
      (Dbl.fin 0)).2.2.2⟩

/-- C12 fails on the code: at start-up `SetRelativeCoincidentTopologyZShift`
with the shift 1 changes the stored relative z-shift from 0 to 1 and leaves
the mapper's modification time at 1, while
`SetRelativeCoincidentTopologyPointOffsetParameter` with the value 1 on the
same mapper stamps it with the next time, 11. -/
theorem SetRelativeCoincidentTopologyZShift_not_Modified :
    GetRelativeCoincidentTopologyZShift sampleProcess = Dbl.fin 0 ∧
    GetRelativeCoincidentTopologyZShift
      (SetRelativeCoincidentTopologyZShift sampleProcess (Dbl.fin 1)) = Dbl.fin 1 ∧
    sampleProcess.mapper.MTime = 1 ∧
    (SetRelativeCoincidentTopologyZShift sampleProcess (Dbl.fin 1)).mapper.MTime = 1 ∧
    (SetRelativeCoincidentTopologyZShift sampleProcess (Dbl.fin 1)).world.clock = 10 ∧
    (SetRelativeCoincidentTopologyPointOffsetParameter sampleProcess (Dbl.fin 1)).mapper.MTime
      = 11 := by
  decide

/-- C20: each global setter replaces its own static and nothing else: the
matching getter returns the value set, the other statics keep their values,
and the mapper and the shared state, time stamps included, are untouched. -/
theorem global_setters_frame (p : Process) (val faces : Int) (x y : Dbl) :
    (SetResolveCoincidentTopology p val =
        { p with globals := { p.globals with ResolveCoincidentTopology := val } } ∧
      GetResolveCoincidentTopology (SetResolveCoincidentTopology p val) = val) ∧
    (SetResolveCoincidentTopologyZShift p x =
        { p with globals := { p.globals with ResolveCoincidentTopologyZShift := x } } ∧
      GetGlobalResolveCoincidentTopologyZShift (SetResolveCoincidentTopologyZShift p x) = x) ∧
    (SetResolveCoincidentTopologyPolygonOffsetParameters p x y =
        { p with globals :=
          { p.globals with
            ResolveCoincidentTopologyPolygonOffsetFactor := x
            ResolveCoincidentTopologyPolygonOffsetUnits := y } } ∧
      GetResolveCoincidentTopologyPolygonOffsetParameters
        (SetResolveCoincidentTopologyPolygonOffsetParameters p x y) = (x, y)) ∧
    (SetResolveCoincidentTopologyLineOffsetParameters p x y =
        { p with globals :=
          { p.globals with
            ResolveCoincidentTopologyLineOffsetFactor := x
            ResolveCoincidentTopologyLineOffsetUnits := y } } ∧
      GetResolveCoincidentTopologyLineOffsetParameters
        (SetResolveCoincidentTopologyLineOffsetParameters p x y) = (x, y)) ∧
    (SetResolveCoincidentTopologyPointOffsetParameter p x =
        { p with globals :=
          { p.globals with ResolveCoincidentTopologyPointOffsetUnits := x } } ∧
      GetResolveCoincidentTopologyPointOffsetParameter
        (SetResolveCoincidentTopologyPointOffsetParameter p x) = x) ∧
    (SetResolveCoincidentTopologyPolygonOffsetFaces p faces =
        { p with globals :=
          { p.globals with ResolveCoincidentTopologyPolygonOffsetFaces := faces } } ∧
      GetResolveCoincidentTopologyPolygonOffsetFaces
        (SetResolveCoincidentTopologyPolygonOffsetFaces p faces) = faces) ∧
    ((SetResolveCoincidentTopology p val).mapper = p.mapper ∧
      (SetResolveCoincidentTopologyZShift p x).mapper = p.mapper ∧
      (SetResolveCoincidentTopologyPolygonOffsetParameters p x y).mapper = p.mapper ∧
      (SetResolveCoincidentTopologyLineOffsetParameters p x y).mapper = p.mapper ∧
      (SetResolveCoincidentTopologyPointOffsetParameter p x).mapper = p.mapper ∧
      (SetResolveCoincidentTopologyPolygonOffsetFaces p faces).mapper = p.mapper) ∧
    ((SetResolveCoincidentTopology p val).world.clock = p.world.clock ∧
      (SetResolveCoincidentTopologyZShift p x).world.clock = p.world.clock ∧
      (SetResolveCoincidentTopologyPolygonOffsetParameters p x y).world.clock = p.world.clock ∧
      (SetResolveCoincidentTopologyLineOffsetParameters p x y).world.clock = p.world.clock ∧
      (SetResolveCoincidentTopologyPointOffsetParameter p x).world.clock = p.world.clock ∧
      (SetResolveCoincidentTopologyPolygonOffsetFaces p faces).world.clock = p.world.clock) := by
  have h1 := SetResolveCoincidentTopology_eq p val
  have h2 := SetResolveCoincidentTopologyZShift_eq p x
  have h3 := SetResolveCoincidentTopologyPolygonOffsetParameters_eq p x y
  have h4 := SetResolveCoincidentTopologyLineOffsetParameters_eq p x y
  have h5 := SetResolveCoincidentTopologyPointOffsetParameter_eq p x
  refine ⟨⟨h1, by rw [h1]; rfl⟩, ⟨h2, by rw [h2]; rfl⟩, ⟨h3, by rw [h3]; rfl⟩,
    ⟨h4, by rw [h4]; rfl⟩, ⟨h5, by rw [h5]; rfl⟩, ⟨rfl, rfl⟩, ?_, ?_⟩
  · rw [h1, h2, h3, h4, h5]
    exact ⟨rfl, rfl, rfl, rfl, rfl, rfl⟩
  · rw [h1, h2, h3, h4, h5]
    exact ⟨rfl, rfl, rfl, rfl, rfl, rfl⟩

/-- C20 at start-up: setting the global line offset to (1, 2) leaves the
z-shift at its initial value and the mapper's relative line offset at 0. -/
theorem global_setters_frame_witness :
    GetResolveCoincidentTopologyLineOffsetParameters
      (SetResolveCoincidentTopologyLineOffsetParameters sampleProcess (Dbl.fin 1) (Dbl.fin 2))
        = (Dbl.fin 1, Dbl.fin 2) ∧
    (SetResolveCoincidentTopologyLineOffsetParameters sampleProcess (Dbl.fin 1)
      (Dbl.fin 2)).mapper = sampleProcess.mapper :=
  ⟨(global_setters_frame sampleProcess 0 0 (Dbl.fin 1) (Dbl.fin 2)).2.2.2.1.2,
    (global_setters_frame sampleProcess 0 0 (Dbl.fin 1) (Dbl.fin 2)).2.2.2.2.2.2.1.2.2.2.1⟩

/-! ### What `MapScalars` leaves alone -/

theorem MapScalarsToTexture_mapper (env : Env) (m : Mapper) (w : World) (a : AbstractArray)
    (alpha : Dbl) (m2 : Mapper) (w2 : World)
    (h : MapScalarsToTexture env m w a alpha = some (m2, w2)) :
    m2 = { m with Colors := none, ColorTextureMap := m2.ColorTextureMap,
                  ColorCoordinates := m2.ColorCoordinates } := by
  unfold MapScalarsToTexture at h
  split at h
  · exact absurd h (by simp)
  · have h2 := updateColorCoordinates_mapper _ _ _ _ _ _ _ _ _ h
    rw [h2, updateColorTextureMap_mapper]

/-- A `MapScalars` call changes the mapper at most in the array component,
which it resets, in its modification time, its table pointer and its three
colour caches. -/
theorem MapScalars_mapper (env : Env) (m : Mapper) (w : World) (input : Option DataSet)
    (alpha : Dbl) (cellFlag : Int) (r : MapScalarsResult)
    (h : MapScalars env m w input alpha cellFlag = some r) :
    r.mapper =
      { m with
        ArrayComponent :=
          (resetArrayComponent m (resolveAbstractScalars env m input cellFlag).1).ArrayComponent
        MTime := r.mapper.MTime
        LookupTable := r.mapper.LookupTable
        Colors := r.mapper.Colors
        ColorCoordinates := r.mapper.ColorCoordinates
        ColorTextureMap := r.mapper.ColorTextureMap } := by
  unfold MapScalars at h
  simp only at h
  split at h
  · rename_i scalars ds hv hs
    obtain ⟨m1, w1, l, hsetup, hm1⟩ := setupLookupTable_frame env
      (resetArrayComponent m (resolveAbstractScalars env m (some ds) cellFlag).1) w scalars
    have hl : m1.LookupTable = some l := by rw [hm1]
    rw [hsetup] at h
    simp only at h
    split at h
    · split at h
      · exact absurd h (by simp)
      · rename_i m2 w2 ht
        have e := Option.some.inj h
        subst e
        have h2 := MapScalarsToTexture_mapper env m1 w1 scalars alpha m2 w2 ht
        show m2 = _
        rw [h2, hm1, resetArrayComponent_mapper]
    · split at h
      · have e := Option.some.inj h
        subst e
        show ({ m1 with ColorCoordinates := none, ColorTextureMap := none } : Mapper) = _
        rw [hm1, resetArrayComponent_mapper]
      · obtain ⟨c, w3, hrec⟩ := recomputeColors_some env
          { m1 with ColorCoordinates := none, ColorTextureMap := none } w1 scalars alpha l hl
        rw [hrec] at h
        have e := Option.some.inj h
        subst e
        show ({ m1 with ColorCoordinates := none, ColorTextureMap := none,
                        Colors := some c } : Mapper) = _
        rw [hm1, resetArrayComponent_mapper]
  · have e := Option.some.inj h
    subst e
    dsimp only
    rw [resetArrayComponent_mapper]

/-- C13: after a `MapScalars` call the mapper's component index is 0 when no
array resolved or when the index was not below the component count of the
resolved array; an index below the component count, negative ones included,
is kept; so on an array, which has at least one component, the index ends
strictly below the component count. -/
theorem MapScalars_ArrayComponent (env : Env) (m : Mapper) (w : World)
    (input : Option DataSet) (alpha : Dbl) (cellFlag : Int) (r : MapScalarsResult)
    (h : MapScalars env m w input alpha cellFlag = some r) :
    ((resolveAbstractScalars env m input cellFlag).1 = none → r.mapper.ArrayComponent = 0) ∧
    ∀ a, (resolveAbstractScalars env m input cellFlag).1 = some a →
      (a.numberOfComponents ≤ m.ArrayComponent → r.mapper.ArrayComponent = 0) ∧
      (m.ArrayComponent < a.numberOfComponents →
        r.mapper.ArrayComponent = m.ArrayComponent) ∧
      (1 ≤ a.numberOfComponents → m.ArrayComponent < 0 →
        r.mapper.ArrayComponent = m.ArrayComponent) ∧
      (1 ≤ a.numberOfComponents → r.mapper.ArrayComponent < a.numberOfComponents) := by
  have hAC : r.mapper.ArrayComponent =
      (resetArrayComponent m (resolveAbstractScalars env m input cellFlag).1).ArrayComponent := by
    rw [MapScalars_mapper env m w input alpha cellFlag r h]
  constructor
  · intro hn
    rw [hAC, hn]
    rfl
  · intro a ha
    rw [ha] at hAC
    have hle : a.numberOfComponents ≤ m.ArrayComponent → r.mapper.ArrayComponent = 0 := by
      intro hc
      rw [hAC]
      unfold resetArrayComponent
      simp only [hc, if_true]
    have hlt : m.ArrayComponent < a.numberOfComponents →
        r.mapper.ArrayComponent = m.ArrayComponent := by
      intro hc
      rw [hAC]
      unfold resetArrayComponent
      simp only [not_le.mpr hc, if_false]
    refine ⟨hle, hlt, fun h1 h2 => hlt (by omega), fun h1 => ?_⟩
    by_cases hc : a.numberOfComponents ≤ m.ArrayComponent
    · rw [hle hc]
      omega
    · rw [hlt (by omega)]
      omega

/-- C13 on the sample mapper set to component 5 of the one-component sample
array: the call returns and leaves the component index 0. -/
theorem MapScalars_ArrayComponent_witness :
    (MapScalars sampleEnv sampleComponentMapper sampleWorld (some samplePointData)
      (Dbl.fin 1) 0).map (fun r => r.mapper.ArrayComponent) = some 0 := by
  cases h : MapScalars sampleEnv sampleComponentMapper sampleWorld (some samplePointData)
      (Dbl.fin 1) 0 with
  | none =>
    have hsome : (MapScalars sampleEnv sampleComponentMapper sampleWorld (some samplePointData)
      (Dbl.fin 1) 0).isSome = true := by rfl
    rw [h] at hsome
    cases hsome
  | some r =>
    exact congrArg some
      (((MapScalars_ArrayComponent sampleEnv sampleComponentMapper sampleWorld
        (some samplePointData) (Dbl.fin 1) 0 r h).2 sampleArray rfl).1 (by decide))

/-! ### Errors reported through `vtkErrorMacro` -/

theorem lutSetRange_errors (w : World) (l : Nat) (r : Dbl × Dbl) :
    (lutSetRange w l r).errors = w.errors := by
  unfold lutSetRange
  split <;> rfl

theorem CreateDefaultLookupTable_errors (env : Env) (m : Mapper) (w : World) :
    (CreateDefaultLookupTable env m w).2.errors = w.errors := by
  unfold CreateDefaultLookupTable
  simp only
  split
  · split <;> rfl
  · rfl

theorem SetLookupTable_errors (m : Mapper) (w : World) (t : Option Nat) :
    (SetLookupTable m w t).2.errors = w.errors := by
  unfold SetLookupTable
  split <;> rfl

theorem selectLookupTable_errors (env : Env) (m : Mapper) (w : World) (a : AbstractArray)
    (m1 : Mapper) (w1 : World) (h : selectLookupTable env m w a = some (m1, w1)) :
    w1.errors = w.errors := by
  unfold selectLookupTable at h
  simp only at h
  split at h
  · have e := (Prod.mk.inj (Option.some.inj h)).2
    rw [← e]
    exact SetLookupTable_errors m w _
  · by_cases hl : m.LookupTable = none
    · rw [if_pos hl] at h
      split at h
      · exact absurd h (by simp)
      · have e := (Prod.mk.inj (Option.some.inj h)).2
        rw [← e]
        exact CreateDefaultLookupTable_errors env m w
    · rw [if_neg hl] at h
      split at h
      · exact absurd h (by simp)
      · have e := (Prod.mk.inj (Option.some.inj h)).2
        rw [← e]
        rfl

theorem applyScalarRange_errors (m : Mapper) (w : World) (m1 : Mapper) (w1 : World)
    (h : applyScalarRange m w = some (m1, w1)) : w1.errors = w.errors := by
  unfold applyScalarRange at h
  split at h
  · split at h
    · exact absurd h (by simp)
    · have e := (Prod.mk.inj (Option.some.inj h)).2
      rw [← e, lutSetRange_errors]
  · have e := (Prod.mk.inj (Option.some.inj h)).2
    rw [← e]

/-- The table set-up of `MapScalars` reports no error. -/
theorem setupLookupTable_errors (env : Env) (m : Mapper) (w : World) (a : AbstractArray)
    (m1 : Mapper) (w1 : World) (h : setupLookupTable env m w a = some (m1, w1)) :
    w1.errors = w.errors := by
  unfold setupLookupTable at h
  split at h
  · exact absurd h (by simp)
  · rename_i m0 w0 h0
    rw [applyScalarRange_errors m0 w0 m1 w1 h]
    exact selectLookupTable_errors env m w a m0 w0 h0

theorem reusableColors_Colors (m : Mapper) (w : World) (ds : DataSet) (alpha : Dbl)
    (c : ColorArray) (h : reusableColors m w ds alpha = some c) : m.Colors = some c := by
  unfold reusableColors at h
  split at h
  · exact absurd h (by simp)
  · rename_i c2 hc
    split at h
    · exact absurd h (by simp)
    · split at h
      · split at h
        · rw [hc]
          exact h
        · exact absurd h (by simp)
      · exact absurd h (by simp)

/-- C14 fails as stated: on the sample mapper set to component 5 of the
one-component sample array, with scalar visibility on, `MapScalars` does not
return null: it resets the component index to 0 and returns, and installs in
`Colors`, the three colours mapped into a new array at address 5. -/
theorem MapScalars_component_5 :
    (MapScalars sampleEnv sampleComponentMapper sampleWorld (some samplePointData)
      (Dbl.fin 1) 0).map (fun r => (r.outputs, r.mapper.ArrayComponent, r.world.errors)) =
    some ((some { id := 5, mtime := 11, colors := [(0, 0, 0, 255), (0, 0, 0, 255), (0, 0, 0, 255)] },
      some { id := 5, mtime := 11, colors := [(0, 0, 0, 255), (0, 0, 0, 255), (0, 0, 0, 255)] },
      none, none), 0, []) := by
  rfl

/-- C14, as amended: a `MapScalars` call whose component index is not below
the component count of the resolved array behaves exactly as the same call
with the component index 0: the index is reset to 0 and the mapping goes on;
on the vertex-colour path it returns and installs a colour array and reports
no error. -/
theorem MapScalars_component_out_of_range (env : Env) (m : Mapper) (w : World)
    (input : Option DataSet) (alpha : Dbl) (cellFlag : Int) (a : AbstractArray)
    (hres : (resolveAbstractScalars env m input cellFlag).1 = some a)
    (hout : a.numberOfComponents ≤ m.ArrayComponent) :
    MapScalars env m w input alpha cellFlag =
      MapScalars env { m with ArrayComponent := 0 } w input alpha cellFlag ∧
    (∀ r, MapScalars env m w input alpha cellFlag = some r → r.mapper.ArrayComponent = 0) ∧
    (∀ ds, input = some ds → MapScalarsPath env m w input cellFlag = ColorPath.vertex →
      ∃ r c, MapScalars env m w input alpha cellFlag = some r ∧ r.ret = some c ∧
        r.mapper.Colors = some c ∧ r.world.errors = w.errors) := by
  have e1 : resolveAbstractScalars env { m with ArrayComponent := 0 } input cellFlag =
      resolveAbstractScalars env m input cellFlag := rfl
  have e2 : resetArrayComponent { m with ArrayComponent := 0 } (some a) =
      resetArrayComponent m (some a) := by
    unfold resetArrayComponent
    simp only [hout, if_true]
    split <;> rfl
  refine ⟨?_, ?_, ?_⟩
  · unfold MapScalars
    simp only [e1, hres, e2]
  · intro r h
    rw [MapScalars_mapper env m w input alpha cellFlag r h, hres]
    unfold resetArrayComponent
    simp only [hout, if_true]
  · intro ds hin hpath
    subst hin
    obtain ⟨a2, m1, w1, hres2, hvis, hsetup, hcan⟩ :=
      MapScalarsPath_vertex env m w ds cellFlag hpath
    rw [MapScalars_vertex env m w ds alpha cellFlag a2 m1 w1 hres2 hvis hsetup hcan]
    have herr := setupLookupTable_errors env _ w a2 m1 w1 hsetup
    obtain ⟨m1', w1', l, hs', hm1⟩ :=
      setupLookupTable_frame env (resetArrayComponent m (some a2)) w a2
    rw [hsetup] at hs'
    have em : m1 = m1' := (Prod.mk.inj (Option.some.inj hs')).1
    subst em
    have hl : m1.LookupTable = some l := by rw [hm1]
    cases hr : reusableColors { m1 with ColorCoordinates := none, ColorTextureMap := none } w1
        ds alpha with
    | some c =>
      exact ⟨_, c, rfl, rfl, reusableColors_Colors _ _ _ _ _ hr, herr⟩
    | none =>
      obtain ⟨c, hrec, _, _⟩ := recomputeColors_fresh env
        { m1 with ColorCoordinates := none, ColorTextureMap := none } w1 a2 alpha l hl
      rw [hrec]
      exact ⟨_, c, rfl, rfl, rfl, herr⟩

/-- C14 on the sample mapper set to component 5 of the one-component sample
array: the call gives what the call with component 0 gives. -/
theorem MapScalars_component_out_of_range_witness :
    MapScalars sampleEnv sampleComponentMapper sampleWorld (some samplePointData) (Dbl.fin 1) 0 =
      MapScalars sampleEnv { sampleComponentMapper with ArrayComponent := 0 } sampleWorld
        (some samplePointData) (Dbl.fin 1) 0 :=
  (MapScalars_component_out_of_range sampleEnv sampleComponentMapper sampleWorld
    (some samplePointData) (Dbl.fin 1) 0 sampleArray rfl (by decide)).1

/-! ### Unsupported storage types on the texture path -/

/-- A `MapScalarsToTexture` call on a mapper without texture map and without
texture coordinates, with a linear table and a storage type covered by
`vtkTemplateMacro`, builds both: the texture has `textureNumberOfColors n`
texels along its ramp, the coordinates are those that
`CreateColorTextureCoordinates` computes from the table's range and from `n`
itself, where `n` is the table's number of available colours. -/
theorem MapScalarsToTexture_fresh (env : Env) (m : Mapper) (w : World) (a : AbstractArray)
    (alpha : Dbl) (l : Nat) (hl : m.LookupTable = some l) (hc : m.ColorCoordinates = none)
    (ht : m.ColorTextureMap = none) (hlog : (w.luts l).usingLogScale = false)
    (hty : vtkTemplateMacroCovers a.dataType = true) :
    ∃ m2 w2 t c, MapScalarsToTexture env m w a alpha = some (m2, w2) ∧
      m2.ColorTextureMap = some t ∧
      t.width = textureNumberOfColors (w.luts l).numberOfAvailableColors ∧
      m2.ColorCoordinates = some c ∧
      c.coords = some (CreateColorTextureCoordinates env a.values a.numberOfTuples
        a.numberOfComponents
        (if (w.luts l).vectorMode = MAGNITUDE ∧ a.numberOfComponents > 1 then -1
          else (w.luts l).vectorComponent)
        (w.luts l).range (w.luts l).range (w.luts l).numberOfAvailableColors false) := by
  unfold MapScalarsToTexture
  split
  · rename_i hn
    rw [hl] at hn
    exact absurd hn (by simp)
  rename_i l2 hl2
  have el : l2 = l := Option.some.inj (hl2.symm.trans hl)
  subst el
  have hup : ∀ (r : Dbl × Dbl) (u : Bool) (o : Dbl),
      updateColorTextureMap env { m with Colors := none } w l2 r u alpha o =
        buildColorTextureMap env { m with Colors := none } w l2 r u alpha o := by
    intro r u o
    unfold updateColorTextureMap
    simp only [ht, if_true]
  simp only [hup, hlog, Bool.false_eq_true, if_false]
  unfold updateColorCoordinates
  have hcc : (buildColorTextureMap env { m with Colors := none } w l2 (w.luts l2).range false alpha
      (w.luts l2).alpha).1.ColorCoordinates = none := hc
  rw [hcc]
  simp only
  unfold buildColorCoordinates
  simp only [hty, if_true]
  refine ⟨_, _, _, _, rfl, rfl, ?_, rfl, ?_⟩
  · simp only [ImageData.width, lutSetAlpha, Function.update_same]
    omega
  · simp only [buildColorTextureMap, lutSetAlpha, Function.update_same, Function.update_idem]

/-- The texture-path call on the sample mapper with a table of 65537 colours
over the range from 0 to 1, for an array holding the single value `v`: the
texture has 8192 texels, the coordinate is computed with a padding of 1/65537
of the range. -/
theorem MapScalarsToTexture_65537 (v : ℚ) :
    ∃ m2 w2 t c, MapScalarsToTexture sampleEnv sampleMapper (sampleWorldWithColors 65537)
        (sampleValueArray v) (Dbl.fin 1) = some (m2, w2) ∧
      m2.ColorTextureMap = some t ∧ t.width = 8192 ∧ m2.ColorCoordinates = some c ∧
      c.coords = some [(Dbl.fin (max (-1000) (min 1000 ((v + 1 / 65537) * (65537 / 65539)))),
        Dbl.fin (49 / 100))] := by
  obtain ⟨m2, w2, t, c, h, htm, hw, hcc, hco⟩ := MapScalarsToTexture_fresh sampleEnv sampleMapper
    (sampleWorldWithColors 65537) (sampleValueArray v) (Dbl.fin 1) 0 rfl rfl rfl rfl rfl
  refine ⟨m2, w2, t, c, h, htm, hw.trans (by decide), hcc, hco.trans ?_⟩
  have e := CreateColorTextureCoordinates_unit_range sampleEnv v 65537 (by norm_num)
  have e2 : (v - (0 - (1 - 0) / ((65537 : Int) : ℚ))) * (1 / ((1 - 0) * (1 + 2 / ((65537 : Int) : ℚ))))
      = (v + 1 / 65537) * (65537 / 65539) := by
    norm_num
  rw [e2] at e
  exact congrArg some e

/-- C16 fails on a table with more than 65536 colours: with 65537 available
colours and the range from 0 to 1, one `MapScalarsToTexture` call builds a
texture of 8192 ramp texels but pads the coordinates by 1/65537 of the range.
The value 0, the lower end of the range, gets s = 1/65539 and not 1/8192; the
value 1 gets s = 65538/65539 and not 8191/8192; and the value 1/10000, inside
the range, gets an s below 1/8192, which lies in texel 0, the texel of the
values below the range. -/
theorem texture_coordinates_misaligned :
    (∃ m2 w2 t c, MapScalarsToTexture sampleEnv sampleMapper (sampleWorldWithColors 65537)
        (sampleValueArray 0) (Dbl.fin 1) = some (m2, w2) ∧
      m2.ColorTextureMap = some t ∧ t.width = 8192 ∧ m2.ColorCoordinates = some c ∧
      c.coords = some [(Dbl.fin (1 / 65539), Dbl.fin (49 / 100))]) ∧
    (∃ m2 w2 t c, MapScalarsToTexture sampleEnv sampleMapper (sampleWorldWithColors 65537)
        (sampleValueArray 1) (Dbl.fin 1) = some (m2, w2) ∧
      m2.ColorTextureMap = some t ∧ t.width = 8192 ∧ m2.ColorCoordinates = some c ∧
      c.coords = some [(Dbl.fin (65538 / 65539), Dbl.fin (49 / 100))]) ∧
    (∃ m2 w2 t c s, MapScalarsToTexture sampleEnv sampleMapper (sampleWorldWithColors 65537)
        (sampleValueArray (1 / 10000)) (Dbl.fin 1) = some (m2, w2) ∧
      m2.ColorTextureMap = some t ∧ t.width = 8192 ∧ m2.ColorCoordinates = some c ∧
      c.coords = some [(Dbl.fin s, Dbl.fin (49 / 100))] ∧ 0 < s ∧ s < 1 / 8192) ∧
    (1 / 65539 : ℚ) ≠ 1 / 8192 ∧ (65538 / 65539 : ℚ) ≠ 8191 / 8192 := by
  refine ⟨?_, ?_, ?_, by norm_num, by norm_num⟩
  · obtain ⟨m2, w2, t, c, h, htm, hw, hcc, hco⟩ := MapScalarsToTexture_65537 0
    refine ⟨m2, w2, t, c, h, htm, hw, hcc, hco.trans ?_⟩
    norm_num
  · obtain ⟨m2, w2, t, c, h, htm, hw, hcc, hco⟩ := MapScalarsToTexture_65537 1
    refine ⟨m2, w2, t, c, h, htm, hw, hcc, hco.trans ?_⟩
    norm_num
  · obtain ⟨m2, w2, t, c, h, htm, hw, hcc, hco⟩ := MapScalarsToTexture_65537 (1 / 10000)
    refine ⟨m2, w2, t, c, _, h, htm, hw, hcc, hco, ?_, ?_⟩ <;> norm_num

/-! ### The default lookup table -/

theorem paletteColors_mem (palette : List RGBA) (n : Nat) (h : palette ≠ []) :
    ∀ c ∈ (List.range n).map (fun i => palette.getD (i % palette.length) (0, 0, 0, 255)),
      c ∈ palette := by
  intro c hc
  obtain ⟨i, _, hi⟩ := List.mem_map.mp hc
  have hlen : 0 < palette.length := List.length_pos.mpr h
  have hlt : i % palette.length < palette.length := Nat.mod_lt i hlen
  rw [← hi, List.getD_eq_getElem palette _ hlt]
  exact List.getElem_mem hlt

/-- The table that `CreateDefaultLookupTable` leaves at the new address, by
the array the mapper's settings resolve on its input. -/
theorem CreateDefaultLookupTable_table (env : Env) (m : Mapper) (w : World) :
    (∀ a, (resolveAbstractScalars env m (GetInput m) 0).1 = some a → a.isDataArray = false →
      (CreateDefaultLookupTable env m w).2.luts w.nextId =
        { newLookupTable with
          indexedLookup := true
          numberOfAvailableColors := ((env.prominentValues a).length : Int)
          annotations := env.prominentValues a
          tableValues := (List.range (env.prominentValues a).length).map
            (fun i => env.palette.getD (i % env.palette.length) (0, 0, 0, 255))
          mtime := w.clock + 2 }) ∧
    (∀ a, (resolveAbstractScalars env m (GetInput m) 0).1 = some a → a.isDataArray = true →
      (CreateDefaultLookupTable env m w).2.luts w.nextId =
        { newLookupTable with mtime := w.clock + 1 }) ∧
    ((resolveAbstractScalars env m (GetInput m) 0).1 = none →
      (CreateDefaultLookupTable env m w).2.luts w.nextId =
        { newLookupTable with mtime := w.clock + 1 }) := by
  refine ⟨?_, ?_, ?_⟩
  · intro a h hnd
    unfold CreateDefaultLookupTable
    simp only
    split
    · rename_i a2 h2
      have e : a2 = a := Option.some.inj (h2.symm.trans h)
      subst e
      simp only [hnd, Bool.not_false, if_true, lutSetupIndexed, Function.update_same]
    · rename_i h2
      exact absurd (h2.symm.trans h) (by simp)
  · intro a h hd
    unfold CreateDefaultLookupTable
    simp only
    split
    · rename_i a2 h2
      have e : a2 = a := Option.some.inj (h2.symm.trans h)
      subst e
      simp only [hd, Bool.not_true, Bool.false_eq_true, if_false, Function.update_same]
    · rename_i h2
      exact absurd (h2.symm.trans h) (by simp)
  · intro h
    unfold CreateDefaultLookupTable
    simp only
    split
    · rename_i a2 h2
      exact absurd (h2.symm.trans h) (by simp)
    · simp only [Function.update_same]

/-- C17: `CreateDefaultLookupTable` leaves the mapper with the newly
allocated table. When the array resolved on the mapper's input is not a data
array, that table is in indexed-lookup mode, has as many table values and as
many annotations as the array has prominent values, the annotations being
those values, every table value is a colour of the palette, and the number of
annotations does not depend on the state the call starts from. When the
array is a data array, or there is none, the table is not in indexed-lookup
mode. -/
theorem CreateDefaultLookupTable_indexed (env : Env) (m : Mapper) (w : World) :
    (CreateDefaultLookupTable env m w).1.LookupTable = some w.nextId ∧
    (∀ a, (resolveAbstractScalars env m (GetInput m) 0).1 = some a → a.isDataArray = false →
      ((CreateDefaultLookupTable env m w).2.luts w.nextId).indexedLookup = true ∧
      ((CreateDefaultLookupTable env m w).2.luts w.nextId).tableValues.length =
        (env.prominentValues a).length ∧
      ((CreateDefaultLookupTable env m w).2.luts w.nextId).annotations = env.prominentValues a ∧
      ((CreateDefaultLookupTable env m w).2.luts w.nextId).annotations.length =
        (env.prominentValues a).length ∧
      (env.palette ≠ [] →
        ∀ c ∈ ((CreateDefaultLookupTable env m w).2.luts w.nextId).tableValues,
          c ∈ env.palette) ∧
      ∀ w2 : World,
        ((CreateDefaultLookupTable env m w2).2.luts w2.nextId).annotations.length =
          ((CreateDefaultLookupTable env m w).2.luts w.nextId).annotations.length) ∧
    (∀ a, (resolveAbstractScalars env m (GetInput m) 0).1 = some a → a.isDataArray = true →
      ((CreateDefaultLookupTable env m w).2.luts w.nextId).indexedLookup = false) ∧
    ((resolveAbstractScalars env m (GetInput m) 0).1 = none →
      ((CreateDefaultLookupTable env m w).2.luts w.nextId).indexedLookup = false) := by
  refine ⟨by rw [CreateDefaultLookupTable_mapper], ?_, ?_, ?_⟩
  · intro a h hnd
    have e := (CreateDefaultLookupTable_table env m w).1 a h hnd
    refine ⟨by rw [e], by rw [e]; simp, by rw [e], by rw [e], ?_, ?_⟩
    · intro hp
      rw [e]
      exact paletteColors_mem env.palette _ hp
    · intro w2
      rw [e, (CreateDefaultLookupTable_table env m w2).1 a h hnd]
  · intro a h hd
    rw [(CreateDefaultLookupTable_table env m w).2.1 a h hd]
    rfl
  · intro h
    rw [(CreateDefaultLookupTable_table env m w).2.2 h]
    rfl

/-- C17 on the sample mapper with a string array of three prominent values:
the default table is indexed and has three table values and annotations. -/
theorem CreateDefaultLookupTable_indexed_witness :
    ((CreateDefaultLookupTable sampleStringEnv sampleMapper sampleWorld).2.luts
        sampleWorld.nextId).indexedLookup = true ∧
    ((CreateDefaultLookupTable sampleStringEnv sampleMapper sampleWorld).2.luts
        sampleWorld.nextId).tableValues.length = 3 ∧
    ((CreateDefaultLookupTable sampleStringEnv sampleMapper sampleWorld).2.luts
        sampleWorld.nextId).annotations = ["a", "b", "c"] :=
  have h := (CreateDefaultLookupTable_indexed sampleStringEnv sampleMapper sampleWorld).2.1
    sampleStringArray rfl rfl
  ⟨h.1, h.2.1, h.2.2.1⟩

/-- C18: `GetLookupTable` never returns null. With a table assigned it
returns that table and changes neither the mapper nor the shared state. With
none assigned it installs the table it allocates at the next free address and
returns it, without stamping the mapper, and a call that follows at once
returns that same table and changes nothing. -/
theorem GetLookupTable_never_null (env : Env) (m : Mapper) (w : World) :
    (GetLookupTable env m w).1 ≠ none ∧
    (GetLookupTable env m w).1 = (GetLookupTable env m w).2.1.LookupTable ∧
    (∀ l, m.LookupTable = some l → GetLookupTable env m w = (some l, m, w)) ∧
    (m.LookupTable = none →
      (GetLookupTable env m w).1 = some w.nextId ∧
      (GetLookupTable env m w).2.1 = { m with LookupTable := some w.nextId } ∧
      (GetLookupTable env m w).2.2.nextId = w.nextId + 1 ∧
      GetLookupTable env (GetLookupTable env m w).2.1 (GetLookupTable env m w).2.2 =
        (some w.nextId, (GetLookupTable env m w).2.1, (GetLookupTable env m w).2.2)) := by
  have hsome : ∀ (m2 : Mapper) (w2 : World) (l : Nat), m2.LookupTable = some l →
      GetLookupTable env m2 w2 = (some l, m2, w2) := by
    intro m2 w2 l hl
    unfold GetLookupTable
    have hne : ¬ m2.LookupTable = none := by
      rw [hl]
      simp
    simp only [if_neg hne]
    rw [hl]
  have hnone : m.LookupTable = none →
      GetLookupTable env m w = (some w.nextId, { m with LookupTable := some w.nextId },
        (CreateDefaultLookupTable env m w).2) := by
    intro hn
    unfold GetLookupTable
    simp only [if_pos hn, CreateDefaultLookupTable_mapper]
  refine ⟨?_, rfl, fun l hl => hsome m w l hl, ?_⟩
  · cases hl : m.LookupTable with
    | none =>
      rw [hnone hl]
      simp
    | some l =>
      rw [hsome m w l hl]
      simp
  · intro hn
    rw [hnone hn]
    exact ⟨rfl, rfl, CreateDefaultLookupTable_nextId env m w, hsome _ _ _ rfl⟩

/-- C18 on the sample mapper with no table assigned: the call returns the new
table at address 5, and so does the call after it. -/
theorem GetLookupTable_never_null_witness :
    (GetLookupTable sampleEnv sampleBareMapper sampleWorld).1 = some 5 ∧
    (GetLookupTable sampleEnv (GetLookupTable sampleEnv sampleBareMapper sampleWorld).2.1
      (GetLookupTable sampleEnv sampleBareMapper sampleWorld).2.2).1 = some 5 :=
  have h := (GetLookupTable_never_null sampleEnv sampleBareMapper sampleWorld).2.2.2 rfl
  ⟨h.1, congrArg Prod.fst h.2.2.2⟩

/-! ### The range of the lookup table -/

theorem lutSetAlpha_range (w : World) (l : Nat) (alpha : Dbl) (k : Nat) :
    ((lutSetAlpha w l alpha).luts k).range = (w.luts k).range := by
  unfold lutSetAlpha
  by_cases hk : k = l
  · subst hk
    simp only [Function.update_same]
  · simp only [Function.update_noteq hk]

/-- After `SetRange` the table holds the range it was given. -/
theorem lutSetRange_stored (w : World) (l : Nat) (r : Dbl × Dbl) :
    ((lutSetRange w l r).luts l).range = r := by
  unfold lutSetRange
  split
  · rename_i h
    rw [Bool.and_eq_true] at h
    exact Prod.ext (Dbl.eq_of_eq_true _ _ h.1) (Dbl.eq_of_eq_true _ _ h.2)
  · simp only [Function.update_same]

theorem CreateDefaultLookupTable_other (env : Env) (m : Mapper) (w : World) (k : Nat)
    (hk : k ≠ w.nextId) : (CreateDefaultLookupTable env m w).2.luts k = w.luts k := by
  unfold CreateDefaultLookupTable
  simp only
  split
  · split
    · simp only [lutSetupIndexed, Function.update_noteq hk]
    · simp only [Function.update_noteq hk]
  · simp only [Function.update_noteq hk]

theorem SetLookupTable_luts (m : Mapper) (w : World) (t : Option Nat) :
    (SetLookupTable m w t).2.luts = w.luts := by
  unfold SetLookupTable
  split <;> rfl

/-- The choice of the table changes no table, except at the address of a
default table that it creates when neither the array nor the mapper has
one. -/
theorem selectLookupTable_luts (env : Env) (m : Mapper) (w : World) (a : AbstractArray)
    (m1 : Mapper) (w1 : World) (h : selectLookupTable env m w a = some (m1, w1)) :
    (∀ k, k ≠ w.nextId → w1.luts k = w.luts k) ∧
    ((arrayLookupTable a ≠ none ∨ m.LookupTable ≠ none) → w1.luts = w.luts) := by
  unfold selectLookupTable at h
  simp only at h
  split at h
  · rename_i t ht
    have e : (SetLookupTable m w (some t)).2 = w1 := by rw [Option.some.inj h]
    rw [← e, SetLookupTable_luts]
    exact ⟨fun _ _ => rfl, fun _ => rfl⟩
  · rename_i hnone
    by_cases hl : m.LookupTable = none
    · rw [if_pos hl] at h
      split at h
      · exact absurd h (by simp)
      · have e : (CreateDefaultLookupTable env m w).2 = w1 :=
          (Prod.mk.inj (Option.some.inj h)).2
        rw [← e]
        refine ⟨fun k hk => CreateDefaultLookupTable_other env m w k hk, ?_⟩
        intro hor
        rcases hor with h1 | h1
        · exact absurd hnone h1
        · exact absurd hl h1
    · rw [if_neg hl] at h
      split at h
      · exact absurd h (by simp)
      · have e := (Prod.mk.inj (Option.some.inj h)).2
        rw [← e]
        exact ⟨fun _ _ => rfl, fun _ => rfl⟩

theorem updateColorTextureMap_range (env : Env) (m : Mapper) (w : World) (l : Nat)
    (range : Dbl × Dbl) (ls : Bool) (alpha orig : Dbl) (k : Nat) :
    ((updateColorTextureMap env m w l range ls alpha orig).2.luts k).range =
      (w.luts k).range := by
  unfold updateColorTextureMap
  simp only
  split
  · unfold buildColorTextureMap
    simp only
    rw [lutSetAlpha_range]
    exact lutSetAlpha_range w l alpha k
  · rfl

theorem buildColorCoordinates_luts (env : Env) (m : Mapper) (w : World) (l : Nat)
    (a : AbstractArray) (range : Dbl × Dbl) (ls : Bool) :
    (buildColorCoordinates env m w l a range ls).2.luts = w.luts := by
  unfold buildColorCoordinates
  simp only
  split
  · rfl
  · split <;> rfl

theorem updateColorCoordinates_luts (env : Env) (m : Mapper) (w : World) (l : Nat)
    (a : AbstractArray) (range : Dbl × Dbl) (ls : Bool) (m2 : Mapper) (w2 : World)
    (h : updateColorCoordinates env m w l a range ls = some (m2, w2)) : w2.luts = w.luts := by
  have key : buildColorCoordinates env m w l a range ls = (m2, w2) → w2.luts = w.luts := by
    intro e
    have e1 : w2 = (buildColorCoordinates env m w l a range ls).2 := by rw [e]
    rw [e1]
    exact buildColorCoordinates_luts env m w l a range ls
  unfold updateColorCoordinates at h
  split at h
  · exact key (Option.some.inj h)
  · split at h
    · exact key (Option.some.inj h)
    · split at h
      · exact absurd h (by simp)
      · split at h
        · exact key (Option.some.inj h)
        · rw [← (Prod.mk.inj (Option.some.inj h)).2]

/-- The texture path changes the range of no table. -/
theorem MapScalarsToTexture_range (env : Env) (m : Mapper) (w : World) (a : AbstractArray)
    (alpha : Dbl) (m2 : Mapper) (w2 : World)
    (h : MapScalarsToTexture env m w a alpha = some (m2, w2)) (k : Nat) :
    (w2.luts k).range = (w.luts k).range := by
  unfold MapScalarsToTexture at h
  split at h
  · exact absurd h (by simp)
  · rw [updateColorCoordinates_luts _ _ _ _ _ _ _ _ _ h]
    exact updateColorTextureMap_range _ _ _ _ _ _ _ _ _

/-- The vertex path changes the range of no table. -/
theorem recomputeColors_range (env : Env) (m : Mapper) (w : World) (a : AbstractArray)
    (alpha : Dbl) (c : ColorArray) (m3 : Mapper) (w3 : World)
    (h : recomputeColors env m w a alpha = some (c, m3, w3)) (k : Nat) :
    (w3.luts k).range = (w.luts k).range := by
  unfold recomputeColors at h
  simp only at h
  split at h
  · exact absurd h (by simp)
  · rename_i l hl
    have e := (Prod.mk.inj (Prod.mk.inj (Option.some.inj h)).2).2
    rw [← e, lutSetAlpha_range]
    exact lutSetAlpha_range w l alpha k

/-- Lines 479 to 497 of `MapScalars` and the range: with
`UseLookupTableScalarRange` off the table in use holds the mapper's range
afterwards, with it on no table changes, except at the address of a default
table created by the call. -/
theorem setupLookupTable_range (env : Env) (m : Mapper) (w : World) (a : AbstractArray)
    (m1 : Mapper) (w1 : World) (h : setupLookupTable env m w a = some (m1, w1)) :
    ∃ l, m1.LookupTable = some l ∧
      (m.UseLookupTableScalarRange = false → (w1.luts l).range = m.ScalarRange) ∧
      (m.UseLookupTableScalarRange = true →
        (∀ k, k ≠ w.nextId → w1.luts k = w.luts k) ∧
        ((arrayLookupTable a ≠ none ∨ m.LookupTable ≠ none) → w1.luts = w.luts)) := by
  unfold setupLookupTable at h
  split at h
  · exact absurd h (by simp)
  · rename_i m0 w0 h0
    obtain ⟨m0', w0', l, hsel, hm0⟩ := selectLookupTable_frame env m w a
    rw [h0] at hsel
    have em : m0 = m0' := (Prod.mk.inj (Option.some.inj hsel)).1
    subst em
    have hl : m0.LookupTable = some l := by rw [hm0]
    have hU : m0.UseLookupTableScalarRange = m.UseLookupTableScalarRange := by rw [hm0]
    have hR : m0.ScalarRange = m.ScalarRange := by rw [hm0]
    have hluts := selectLookupTable_luts env m w a m0 w0 h0
    unfold applyScalarRange at h
    cases hu : m.UseLookupTableScalarRange with
    | false =>
      rw [hU, hu] at h
      simp only [Bool.not_false, if_true] at h
      split at h
      · exact absurd h (by simp)
      · rename_i l2 hl2
        have el : l2 = l := Option.some.inj (hl2.symm.trans hl)
        subst el
        have e1 : m0 = m1 := (Prod.mk.inj (Option.some.inj h)).1
        have e2 : lutSetRange w0 l2 m0.ScalarRange = w1 := (Prod.mk.inj (Option.some.inj h)).2
        subst e1
        refine ⟨l2, hl, fun _ => ?_, fun hc => absurd hc (by simp)⟩
        rw [← e2, lutSetRange_stored, hR]
    | true =>
      rw [hU, hu] at h
      simp only [Bool.not_true, Bool.false_eq_true, if_false] at h
      have e1 : m0 = m1 := (Prod.mk.inj (Option.some.inj h)).1
      have e2 : w0 = w1 := (Prod.mk.inj (Option.some.inj h)).2
      subst e1
      subst e2
      exact ⟨l, hl, fun hc => absurd hc (by simp), fun _ => hluts⟩

/-- A `MapScalars` call that reaches mapping and returns has gone through the
table set-up; what follows the set-up keeps the mapper's table pointer and the
range of every table. -/
theorem MapScalars_steps (env : Env) (m : Mapper) (w : World) (input : Option DataSet)
    (alpha : Dbl) (cellFlag : Int) (a : AbstractArray) (ds : DataSet) (r : MapScalarsResult)
    (hres : (resolveAbstractScalars env m input cellFlag).1 = some a)
    (hvis : m.ScalarVisibility = true) (hin : input = some ds)
    (h : MapScalars env m w input alpha cellFlag = some r) :
    ∃ m1 w1, setupLookupTable env (resetArrayComponent m (some a)) w a = some (m1, w1) ∧
      r.mapper.LookupTable = m1.LookupTable ∧
      ∀ k, (r.world.luts k).range = (w1.luts k).range := by
  unfold MapScalars at h
  simp only at h
  split at h
  · rename_i scalars ds2 hv hs
    have ea : scalars = a := Option.some.inj (hs.symm.trans hres)
    subst ea
    rw [hs] at h
    split at h
    · exact absurd h (by simp)
    · rename_i m1 w1 hsetup
      refine ⟨m1, w1, hsetup, ?_⟩
      split at h
      · split at h
        · exact absurd h (by simp)
        · rename_i m2 w2 ht
          have e := Option.some.inj h
          subst e
          refine ⟨?_, fun k => MapScalarsToTexture_range env m1 w1 scalars alpha m2 w2 ht k⟩
          show m2.LookupTable = _
          rw [MapScalarsToTexture_mapper env m1 w1 scalars alpha m2 w2 ht]
      · split at h
        · have e := Option.some.inj h
          subst e
          exact ⟨rfl, fun _ => rfl⟩
        · split at h
          · exact absurd h (by simp)
          · rename_i c m3 w3 hrec
            have e := Option.some.inj h
            subst e
            refine ⟨?_, fun k => recomputeColors_range env _ w1 scalars alpha c m3 w3 hrec k⟩
            show m3.LookupTable = _
            obtain ⟨l, hl⟩ : ∃ l, m1.LookupTable = some l := by
              cases hl : m1.LookupTable with
              | none =>
                unfold recomputeColors at hrec
                simp only [hl] at hrec
                exact absurd hrec (by simp)
              | some l => exact ⟨l, rfl⟩
            have hq := recomputeColors_eq env
              { m1 with ColorCoordinates := none, ColorTextureMap := none } w1 scalars alpha l hl
            rw [hrec] at hq
            have e3 := (Prod.mk.inj (Prod.mk.inj (Option.some.inj hq)).2).1
            rw [e3]
  · rename_i hno
    exact absurd hin (fun hi =>
      hno a ds ((resetArrayComponent_ScalarVisibility m _).trans hvis) hres hi)

/-- C19: a `MapScalars` call that reaches mapping (an array resolved, scalar
visibility on, an input given) and returns has set up a table, which the
mapper still holds afterwards. With `UseLookupTableScalarRange` off, the range
of that table is the mapper's `ScalarRange` when the set-up is done and when
the call returns. With it on, the range of every table is what it was before
the call, both when the set-up is done and when the call returns, the only
address excepted being the one at which the call creates a default table when
neither the array nor the mapper has a table. -/
theorem MapScalars_range (env : Env) (m : Mapper) (w : World) (input : Option DataSet)
    (alpha : Dbl) (cellFlag : Int) (a : AbstractArray) (ds : DataSet) (r : MapScalarsResult)
    (hres : (resolveAbstractScalars env m input cellFlag).1 = some a)
    (hvis : m.ScalarVisibility = true) (hin : input = some ds)
    (h : MapScalars env m w input alpha cellFlag = some r) :
    ∃ m1 w1 l, setupLookupTable env (resetArrayComponent m (some a)) w a = some (m1, w1) ∧
      m1.LookupTable = some l ∧ r.mapper.LookupTable = some l ∧
      (m.UseLookupTableScalarRange = false →
        (w1.luts l).range = m.ScalarRange ∧ (r.world.luts l).range = m.ScalarRange) ∧
      (m.UseLookupTableScalarRange = true →
        (∀ k, k ≠ w.nextId →
          (w1.luts k).range = (w.luts k).range ∧ (r.world.luts k).range = (w.luts k).range) ∧
        ((arrayLookupTable a ≠ none ∨ m.LookupTable ≠ none) →
          ∀ k, (w1.luts k).range = (w.luts k).range ∧
            (r.world.luts k).range = (w.luts k).range)) := by
  obtain ⟨m1, w1, hsetup, hlut, hpost⟩ :=
    MapScalars_steps env m w input alpha cellFlag a ds r hres hvis hin h
  obtain ⟨l, hl, hoff, hon⟩ :=
    setupLookupTable_range env (resetArrayComponent m (some a)) w a m1 w1 hsetup
  have hU : (resetArrayComponent m (some a)).UseLookupTableScalarRange =
      m.UseLookupTableScalarRange := by rw [resetArrayComponent_mapper]
  have hR : (resetArrayComponent m (some a)).ScalarRange = m.ScalarRange := by
    rw [resetArrayComponent_mapper]
  have hL : (resetArrayComponent m (some a)).LookupTable = m.LookupTable := by
    rw [resetArrayComponent_mapper]
  rw [hU, hR] at hoff
  rw [hU, hL] at hon
  refine ⟨m1, w1, l, hsetup, hl, hlut.trans hl, ?_, ?_⟩
  · intro hu
    exact ⟨hoff hu, (hpost l).trans (hoff hu)⟩
  · intro hu
    obtain ⟨h1, h2⟩ := hon hu
    refine ⟨fun k hk => ?_, fun hc k => ?_⟩
    · have e : (w1.luts k).range = (w.luts k).range := by rw [h1 k hk]
      exact ⟨e, (hpost k).trans e⟩
    · have e : (w1.luts k).range = (w.luts k).range := by rw [h2 hc]
      exact ⟨e, (hpost k).trans e⟩

/-- C19 on the sample mapper with the range from 2 to 7 and the table's own
range not in use: after the call the table at address 0 has that range. -/
theorem MapScalars_range_witness :
    (MapScalars sampleEnv sampleRangeMapper sampleWorld (some samplePointData)
      (Dbl.fin 1) 0).map (fun r => (r.world.luts 0).range) = some (Dbl.fin 2, Dbl.fin 7) := by
  cases h : MapScalars sampleEnv sampleRangeMapper sampleWorld (some samplePointData)
      (Dbl.fin 1) 0 with
  | none =>
    have hsome : (MapScalars sampleEnv sampleRangeMapper sampleWorld (some samplePointData)
      (Dbl.fin 1) 0).isSome = true := by rfl
    rw [h] at hsome
    cases hsome
  | some r =>
    obtain ⟨m1, w1, l, _, _, hl, hoff, _⟩ := MapScalars_range sampleEnv sampleRangeMapper
      sampleWorld (some samplePointData) (Dbl.fin 1) 0 sampleArray samplePointData r rfl rfl rfl h
    have hp : (MapScalars sampleEnv sampleRangeMapper sampleWorld (some samplePointData)
        (Dbl.fin 1) 0).map (fun r => r.mapper.LookupTable) = some (some 0) := by rfl
    rw [h] at hp
    have el : l = 0 := Option.some.inj (hl.symm.trans (Option.some.inj hp))
    subst el
    exact congrArg some (hoff rfl).2

/-! ### The alpha of the lookup table -/

/-- The texture is mapped with the requested alpha in the table, and the
tables are afterwards as they were when the alpha put back is the one the
table had. -/
theorem buildColorTextureMap_luts (env : Env) (m : Mapper) (w : World) (l : Nat)
    (range : Dbl × Dbl) (ls : Bool) (alpha : Dbl) :
    (buildColorTextureMap env m w l range ls alpha (w.luts l).alpha).2.luts = w.luts ∧
    ∃ t, (buildColorTextureMap env m w l range ls alpha (w.luts l).alpha).1.ColorTextureMap =
        some t ∧
      t.scalars.colors = env.lutMapScalars ({ w.luts l with alpha := alpha })
        { isDataArray := true, isUnsignedCharArray := false, dataType := VTK_DOUBLE,
          numberOfComponents := 1,
          numberOfTuples :=
            (textureNumberOfColors (w.luts l).numberOfAvailableColors * 2).toNat,
          values := textureSamples env range
            (textureNumberOfColors (w.luts l).numberOfAvailableColors) ls,
          lookupTable := none } m.ColorMode 0 := by
  unfold buildColorTextureMap
  simp only [lutSetAlpha, Function.update_same, Function.update_idem, Function.update_eq_self]
  exact ⟨trivial, _, rfl, rfl⟩

theorem updateColorTextureMap_luts (env : Env) (m : Mapper) (w : World) (l : Nat)
    (range : Dbl × Dbl) (ls : Bool) (alpha : Dbl) :
    (updateColorTextureMap env m w l range ls alpha (w.luts l).alpha).2.luts = w.luts := by
  unfold updateColorTextureMap
  simp only
  split
  · exact (buildColorTextureMap_luts env m w l range ls alpha).1
  · rfl

/-- The texture path leaves every table as it found it. -/
theorem MapScalarsToTexture_luts (env : Env) (m : Mapper) (w : World) (a : AbstractArray)
    (alpha : Dbl) (m2 : Mapper) (w2 : World)
    (h : MapScalarsToTexture env m w a alpha = some (m2, w2)) : w2.luts = w.luts := by
  unfold MapScalarsToTexture at h
  split at h
  · exact absurd h (by simp)
  · rw [updateColorCoordinates_luts _ _ _ _ _ _ _ _ _ h]
    exact updateColorTextureMap_luts _ _ _ _ _ _ _

/-- The vertex path leaves every table as it found it. -/
theorem recomputeColors_luts (env : Env) (m : Mapper) (w : World) (a : AbstractArray)
    (alpha : Dbl) (c : ColorArray) (m3 : Mapper) (w3 : World)
    (h : recomputeColors env m w a alpha = some (c, m3, w3)) : w3.luts = w.luts := by
  cases hl : m.LookupTable with
  | none =>
    unfold recomputeColors at h
    simp only [hl] at h
    exact absurd h (by simp)
  | some l =>
    rw [recomputeColors_eq env m w a alpha l hl] at h
    rw [← (Prod.mk.inj (Prod.mk.inj (Option.some.inj h)).2).2]

theorem lutSetRange_alpha (w : World) (l : Nat) (r : Dbl × Dbl) (k : Nat) :
    ((lutSetRange w l r).luts k).alpha = (w.luts k).alpha := by
  unfold lutSetRange
  split
  · rfl
  · by_cases hk : k = l
    · subst hk
      simp only [Function.update_same]
    · simp only [Function.update_noteq hk]

theorem applyScalarRange_alpha (m : Mapper) (w : World) (m1 : Mapper) (w1 : World)
    (h : applyScalarRange m w = some (m1, w1)) (k : Nat) :
    (w1.luts k).alpha = (w.luts k).alpha := by
  unfold applyScalarRange at h
  split at h
  · split at h
    · exact absurd h (by simp)
    · have e := (Prod.mk.inj (Option.some.inj h)).2
      rw [← e, lutSetRange_alpha]
  · have e := (Prod.mk.inj (Option.some.inj h)).2
    rw [← e]

/-- Lines 479 to 497 of `MapScalars` change the alpha of no table, the
address of a default table created there excepted. -/
theorem setupLookupTable_alpha (env : Env) (m : Mapper) (w : World) (a : AbstractArray)
    (m1 : Mapper) (w1 : World) (h : setupLookupTable env m w a = some (m1, w1)) :
    (∀ k, k ≠ w.nextId → (w1.luts k).alpha = (w.luts k).alpha) ∧
    ((arrayLookupTable a ≠ none ∨ m.LookupTable ≠ none) →
      ∀ k, (w1.luts k).alpha = (w.luts k).alpha) := by
  unfold setupLookupTable at h
  split at h
  · exact absurd h (by simp)
  · rename_i m0 w0 h0
    obtain ⟨h1, h2⟩ := selectLookupTable_luts env m w a m0 w0 h0
    have h3 := applyScalarRange_alpha m0 w0 m1 w1 h
    refine ⟨fun k hk => ?_, fun hc k => ?_⟩
    · rw [h3 k, h1 k hk]
    · rw [h3 k, h2 hc]

/-- A `MapScalars` call that reaches mapping and returns has gone through the
table set-up, and what follows the set-up leaves every table as it was. -/
theorem MapScalars_luts (env : Env) (m : Mapper) (w : World) (input : Option DataSet)
    (alpha : Dbl) (cellFlag : Int) (a : AbstractArray) (ds : DataSet) (r : MapScalarsResult)
    (hres : (resolveAbstractScalars env m input cellFlag).1 = some a)
    (hvis : m.ScalarVisibility = true) (hin : input = some ds)
    (h : MapScalars env m w input alpha cellFlag = some r) :
    ∃ m1 w1, setupLookupTable env (resetArrayComponent m (some a)) w a = some (m1, w1) ∧
      r.mapper.LookupTable = m1.LookupTable ∧ r.world.luts = w1.luts := by
  obtain ⟨m1, w1, hsetup, hlut, _⟩ :=
    MapScalars_steps env m w input alpha cellFlag a ds r hres hvis hin h
  refine ⟨m1, w1, hsetup, hlut, ?_⟩
  unfold MapScalars at h
  simp only at h
  split at h
  · rename_i scalars ds2 hv hs
    have ea : scalars = a := Option.some.inj (hs.symm.trans hres)
    subst ea
    rw [hs, hsetup] at h
    simp only at h
    split at h
    · split at h
      · exact absurd h (by simp)
      · rename_i m2 w2 ht
        have e := Option.some.inj h
        subst e
        exact MapScalarsToTexture_luts env m1 w1 scalars alpha m2 w2 ht
    · split at h
      · have e := Option.some.inj h
        subst e
        rfl
      · split at h
        · exact absurd h (by simp)
        · rename_i c m3 w3 hrec
          have e := Option.some.inj h
          subst e
          exact recomputeColors_luts env _ w1 scalars alpha c m3 w3 hrec
  · rename_i hno
    exact absurd hin (fun hi =>
      hno a ds ((resetArrayComponent_ScalarVisibility m _).trans hvis) hres hi)

/-- C21: a `MapScalars` call that reaches mapping and returns leaves the alpha
of the table it has used as it was when the mapping began, and the alpha of
every table as it was before the call (the address of a default table created
by the call excepted, which did not hold a table before), whatever the
requested alpha and whichever path is taken. The requested alpha is in the
table only while the colours are computed: the vertex colours and the texture
colours are those the table gives with the requested alpha. -/
theorem MapScalars_alpha (env : Env) (m : Mapper) (w : World) (input : Option DataSet)
    (alpha : Dbl) (cellFlag : Int) (a : AbstractArray) (ds : DataSet) (r : MapScalarsResult)
    (hres : (resolveAbstractScalars env m input cellFlag).1 = some a)
    (hvis : m.ScalarVisibility = true) (hin : input = some ds)
    (h : MapScalars env m w input alpha cellFlag = some r) :
    ∃ m1 w1 l, setupLookupTable env (resetArrayComponent m (some a)) w a = some (m1, w1) ∧
      m1.LookupTable = some l ∧ r.mapper.LookupTable = some l ∧
      (r.world.luts l).alpha = (w1.luts l).alpha ∧
      (∀ k, k ≠ w.nextId → (r.world.luts k).alpha = (w.luts k).alpha) ∧
      ((arrayLookupTable a ≠ none ∨ m.LookupTable ≠ none) →
        ∀ k, (r.world.luts k).alpha = (w.luts k).alpha) ∧
      (∀ c m3 w3,
        recomputeColors env { m1 with ColorCoordinates := none, ColorTextureMap := none } w1 a
          alpha = some (c, m3, w3) →
        c.colors = env.lutMapScalars ({ w1.luts l with alpha := alpha }) a m1.ColorMode
          m1.ArrayComponent ∧ w3.luts = w1.luts) ∧
      (∀ range ls, ∃ t,
        (buildColorTextureMap env { m1 with Colors := none } w1 l range ls alpha
          (w1.luts l).alpha).1.ColorTextureMap = some t ∧
        t.scalars.colors = env.lutMapScalars ({ w1.luts l with alpha := alpha })
          { isDataArray := true, isUnsignedCharArray := false, dataType := VTK_DOUBLE,
            numberOfComponents := 1,
            numberOfTuples :=
              (textureNumberOfColors (w1.luts l).numberOfAvailableColors * 2).toNat,
            values := textureSamples env range
              (textureNumberOfColors (w1.luts l).numberOfAvailableColors) ls,
            lookupTable := none } m1.ColorMode 0 ∧
        (buildColorTextureMap env { m1 with Colors := none } w1 l range ls alpha
          (w1.luts l).alpha).2.luts = w1.luts) := by
  obtain ⟨m1, w1, hsetup, hlut, hluts⟩ :=
    MapScalars_luts env m w input alpha cellFlag a ds r hres hvis hin h
  obtain ⟨m1', w1', l, hs', hm1⟩ :=
    setupLookupTable_frame env (resetArrayComponent m (some a)) w a
  rw [hsetup] at hs'
  have em : m1 = m1' := (Prod.mk.inj (Option.some.inj hs')).1
  subst em
  have hl : m1.LookupTable = some l := by rw [hm1]
  obtain ⟨ha1, ha2⟩ := setupLookupTable_alpha env (resetArrayComponent m (some a)) w a m1 w1 hsetup
  have hL : (resetArrayComponent m (some a)).LookupTable = m.LookupTable := by
    rw [resetArrayComponent_mapper]
  rw [hL] at ha2
  refine ⟨m1, w1, l, hsetup, hl, hlut.trans hl, by rw [hluts], ?_, ?_, ?_, ?_⟩
  · intro k hk
    rw [hluts]
    exact ha1 k hk
  · intro hc k
    rw [hluts]
    exact ha2 hc k
  · intro c m3 w3 hrec
    have hq := recomputeColors_eq env
      { m1 with ColorCoordinates := none, ColorTextureMap := none } w1 a alpha l hl
    rw [hrec] at hq
    have e1 := (Prod.mk.inj (Option.some.inj hq)).1
    have e3 := (Prod.mk.inj (Prod.mk.inj (Option.some.inj hq)).2).2
    rw [e1, e3]
    exact ⟨rfl, rfl⟩
  · intro range ls
    obtain ⟨h1, t, h2, h3⟩ :=
      buildColorTextureMap_luts env { m1 with Colors := none } w1 l range ls alpha
    exact ⟨t, h2, h3, h1⟩

/-- C21 on the sample mapper, whose table has alpha 1, with the requested
alpha 0: after the call the table at address 0 has alpha 1. -/
theorem MapScalars_alpha_witness :
    (MapScalars sampleEnv sampleMapper sampleWorld (some samplePointData)
      (Dbl.fin 0) 0).map (fun r => (r.world.luts 0).alpha) = some (Dbl.fin 1) := by
  cases h : MapScalars sampleEnv sampleMapper sampleWorld (some samplePointData)
      (Dbl.fin 0) 0 with
  | none =>
    have hsome : (MapScalars sampleEnv sampleMapper sampleWorld (some samplePointData)
      (Dbl.fin 0) 0).isSome = true := by rfl
    rw [h] at hsome
    cases hsome
  | some r =>
    obtain ⟨m1, w1, l, _, _, _, _, _, hall, _⟩ := MapScalars_alpha sampleEnv sampleMapper
      sampleWorld (some samplePointData) (Dbl.fin 0) 0 sampleArray samplePointData r rfl rfl rfl h
    exact congrArg some (hall (Or.inr (by decide)) 0)

/-! ### The value behind a texture coordinate -/

/-- The coordinates are those of one value per tuple: the magnitude when the
component passed in is negative or not below the component count, that
component otherwise; the log scale is applied to either. -/
theorem CreateColorTextureCoordinates_values (env : Env) (input : List Dbl) (numScalars : Nat)
    (numComps component : Int) (range table_range : Dbl × Dbl) (n : Int) (ls : Bool) :
    CreateColorTextureCoordinates env input numScalars numComps component range table_range n ls =
      (List.range numScalars).map (fun scalarIdx =>
        ScalarToTextureCoordinate
          (if ls then
            env.ApplyLogScale
              (if component < 0 ∨ component ≥ numComps
                then tupleMagnitude env input numComps scalarIdx
                else tupleComponent input numComps component scalarIdx) table_range range
          else
            (if component < 0 ∨ component ≥ numComps
              then tupleMagnitude env input numComps scalarIdx
              else tupleComponent input numComps component scalarIdx))
          (paddedRange range n).1 (paddedRange range n).2) := by
  unfold CreateColorTextureCoordinates tupleMagnitude tupleComponent
  simp only
  split
  · rfl
  · rfl

/-- The component that `MapScalarsToTexture` passes on is out of range exactly
when the table is in magnitude mode on a multi-component array or the table's
vector component is itself out of range; otherwise it is the table's vector
component. -/
theorem textureScalarComponent_range (lut : ScalarsToColors) (a : AbstractArray) :
    ((textureScalarComponent lut a < 0 ∨ textureScalarComponent lut a ≥ a.numberOfComponents) ↔
      ((lut.vectorMode = MAGNITUDE ∧ a.numberOfComponents > 1) ∨ lut.vectorComponent < 0 ∨
        lut.vectorComponent ≥ a.numberOfComponents)) ∧
    (¬ (lut.vectorMode = MAGNITUDE ∧ a.numberOfComponents > 1) →
      textureScalarComponent lut a = lut.vectorComponent) := by
  unfold textureScalarComponent
  by_cases hm : lut.vectorMode = MAGNITUDE ∧ a.numberOfComponents > 1
  · rw [if_pos hm]
    exact ⟨⟨fun _ => Or.inl hm, fun _ => Or.inl (by decide)⟩, fun hc => absurd hm hc⟩
  · rw [if_neg hm]
    refine ⟨⟨fun h => Or.inr h, fun h => ?_⟩, fun _ => rfl⟩
    rcases h with h | h
    · exact absurd h hm
    · exact h


theorem tupleMagnitude_3_4 :
    tupleMagnitude sampleSqrtEnv [Dbl.fin 3, Dbl.fin 4] 2 0 = Dbl.fin 5 := by
  have h : tupleMagnitude sampleSqrtEnv [Dbl.fin 3, Dbl.fin 4] 2 0 =
      sampleSqrtEnv.sqrt (Dbl.add (Dbl.add (Dbl.fin 0) (Dbl.mul (Dbl.fin 3) (Dbl.fin 3)))
        (Dbl.mul (Dbl.fin 4) (Dbl.fin 4))) := rfl
  rw [h, Dbl.mul_fin, Dbl.mul_fin, Dbl.add_fin, Dbl.add_fin]
  have e : (0 + 3 * 3 + 4 * 4 : ℚ) = 25 := by norm_num
  rw [e]
  show (if Dbl.eq (Dbl.fin 25) (Dbl.fin 25) then Dbl.fin 5 else Dbl.fin 25) = Dbl.fin 5
  rw [Dbl.eq_self (Dbl.fin 25) rfl, if_pos rfl]

/-- The coordinates of the single tuple (3, 4) for a table of 8 colours over
the range from 0 to 10, by the component passed in: component 0 gives the
coordinate of 3, component 1 that of 4, and a component out of range that of
the magnitude 5. -/
theorem CreateColorTextureCoordinates_3_4 :
    CreateColorTextureCoordinates sampleSqrtEnv [Dbl.fin 3, Dbl.fin 4] 1 2 0
      (Dbl.fin 0, Dbl.fin 10) (Dbl.fin 0, Dbl.fin 10) 8 false =
        [(Dbl.fin (17 / 50), Dbl.fin (49 / 100))] ∧
    CreateColorTextureCoordinates sampleSqrtEnv [Dbl.fin 3, Dbl.fin 4] 1 2 1
      (Dbl.fin 0, Dbl.fin 10) (Dbl.fin 0, Dbl.fin 10) 8 false =
        [(Dbl.fin (21 / 50), Dbl.fin (49 / 100))] ∧
    (∀ c : Int, c < 0 ∨ c ≥ 2 →
      CreateColorTextureCoordinates sampleSqrtEnv [Dbl.fin 3, Dbl.fin 4] 1 2 c
        (Dbl.fin 0, Dbl.fin 10) (Dbl.fin 0, Dbl.fin 10) 8 false =
          [(Dbl.fin (1 / 2), Dbl.fin (49 / 100))]) := by
  obtain ⟨hpr, _⟩ := paddedRange_fin 0 10 8 (by norm_num) (by norm_num)
  have h0 : tupleComponent [Dbl.fin 3, Dbl.fin 4] 2 0 0 = Dbl.fin 3 := rfl
  have h1 : tupleComponent [Dbl.fin 3, Dbl.fin 4] 2 1 0 = Dbl.fin 4 := rfl
  have hr : List.range 1 = [0] := rfl
  refine ⟨?_, ?_, ?_⟩
  · rw [CreateColorTextureCoordinates_values, hpr, hr]
    simp only [List.map_cons, List.map_nil, Bool.false_eq_true, if_false]
    rw [if_neg (by decide : ¬ ((0 : Int) < 0 ∨ (0 : Int) ≥ 2)), h0, ScalarToTextureCoordinate_fin]
    norm_num
  · rw [CreateColorTextureCoordinates_values, hpr, hr]
    simp only [List.map_cons, List.map_nil, Bool.false_eq_true, if_false]
    rw [if_neg (by decide : ¬ ((1 : Int) < 0 ∨ (1 : Int) ≥ 2)), h1, ScalarToTextureCoordinate_fin]
    norm_num
  · intro c hc
    rw [CreateColorTextureCoordinates_values, hpr, hr]
    simp only [List.map_cons, List.map_nil, Bool.false_eq_true, if_false]
    rw [if_pos hc, tupleMagnitude_3_4, ScalarToTextureCoordinate_fin]
    norm_num


/-- C22 fails as stated: a table in component mode whose vector component is
5, on the two-component tuple (3, 4). `MapScalarsToTexture` gives the tuple
the coordinate s = 1/2, that of the magnitude 5, although the table is not in
magnitude mode; the components 3 and 4 have the coordinates 17/50 and
21/50. -/
theorem texture_value_component_5 :
    ((sampleVectorWorld COMPONENT 5).luts 0).vectorMode ≠ MAGNITUDE ∧
    (∃ m2 w2 c, MapScalarsToTexture sampleSqrtEnv sampleMapper (sampleVectorWorld COMPONENT 5)
        sampleVectorArray (Dbl.fin 1) = some (m2, w2) ∧
      m2.ColorCoordinates = some c ∧
      c.coords = some [(Dbl.fin (1 / 2), Dbl.fin (49 / 100))]) ∧
    tupleMagnitude sampleSqrtEnv sampleVectorArray.values 2 0 = Dbl.fin 5 ∧
    CreateColorTextureCoordinates sampleSqrtEnv sampleVectorArray.values 1 2 0
      (Dbl.fin 0, Dbl.fin 10) (Dbl.fin 0, Dbl.fin 10) 8 false =
        [(Dbl.fin (17 / 50), Dbl.fin (49 / 100))] ∧
    CreateColorTextureCoordinates sampleSqrtEnv sampleVectorArray.values 1 2 1
      (Dbl.fin 0, Dbl.fin 10) (Dbl.fin 0, Dbl.fin 10) 8 false =
        [(Dbl.fin (21 / 50), Dbl.fin (49 / 100))] := by
  refine ⟨by decide, ?_, tupleMagnitude_3_4, CreateColorTextureCoordinates_3_4.1,
    CreateColorTextureCoordinates_3_4.2.1⟩
  obtain ⟨m2, w2, t, c, h, _, _, hcc, hco⟩ := MapScalarsToTexture_fresh sampleSqrtEnv sampleMapper
    (sampleVectorWorld COMPONENT 5) sampleVectorArray (Dbl.fin 1) 0 rfl rfl rfl rfl rfl
  exact ⟨m2, w2, c, h, hcc,
    hco.trans (congrArg some (CreateColorTextureCoordinates_3_4.2.2 5 (Or.inr (by decide))))⟩

/-- C22, as amended: the value behind the texture coordinate of a tuple is
the magnitude of the tuple exactly when the table is in magnitude mode and
the array has more than one component, or the table's vector component is
negative or not below the component count; in every other case it is the
component of the tuple that the table's vector component selects. The log
scale, when in use, is applied to the value either way, and these are the
coordinates that `MapScalarsToTexture` stores for a storage type it
covers. -/
theorem texture_value_selection (env : Env) (lut : ScalarsToColors) (a : AbstractArray)
    (range : Dbl × Dbl) (ls : Bool) :
    (((lut.vectorMode = MAGNITUDE ∧ a.numberOfComponents > 1) ∨ lut.vectorComponent < 0 ∨
        lut.vectorComponent ≥ a.numberOfComponents) →
      CreateColorTextureCoordinates env a.values a.numberOfTuples a.numberOfComponents
          (textureScalarComponent lut a) range lut.range lut.numberOfAvailableColors ls =
        (List.range a.numberOfTuples).map (fun scalarIdx =>
          ScalarToTextureCoordinate
            (if ls then
              env.ApplyLogScale (tupleMagnitude env a.values a.numberOfComponents scalarIdx)
                lut.range range
            else tupleMagnitude env a.values a.numberOfComponents scalarIdx)
            (paddedRange range lut.numberOfAvailableColors).1
            (paddedRange range lut.numberOfAvailableColors).2)) ∧
    (¬ ((lut.vectorMode = MAGNITUDE ∧ a.numberOfComponents > 1) ∨ lut.vectorComponent < 0 ∨
        lut.vectorComponent ≥ a.numberOfComponents) →
      CreateColorTextureCoordinates env a.values a.numberOfTuples a.numberOfComponents
          (textureScalarComponent lut a) range lut.range lut.numberOfAvailableColors ls =
        (List.range a.numberOfTuples).map (fun scalarIdx =>
          ScalarToTextureCoordinate
            (if ls then
              env.ApplyLogScale
                (tupleComponent a.values a.numberOfComponents lut.vectorComponent scalarIdx)
                lut.range range
            else tupleComponent a.values a.numberOfComponents lut.vectorComponent scalarIdx)
            (paddedRange range lut.numberOfAvailableColors).1
            (paddedRange range lut.numberOfAvailableColors).2)) ∧
    (∀ (m : Mapper) (w : World) (l : Nat), vtkTemplateMacroCovers a.dataType = true →
      (buildColorCoordinates env m w l a range ls).1.ColorCoordinates.bind (fun c => c.coords) =
        some (CreateColorTextureCoordinates env a.values a.numberOfTuples a.numberOfComponents
          (textureScalarComponent (w.luts l) a) range (w.luts l).range
          (w.luts l).numberOfAvailableColors ls)) := by
  obtain ⟨hiff, hvc⟩ := textureScalarComponent_range lut a
  refine ⟨?_, ?_, ?_⟩
  · intro h
    have hc := hiff.mpr h
    rw [CreateColorTextureCoordinates_values]
    simp only [if_pos hc]
  · intro h
    have hmag : ¬ (lut.vectorMode = MAGNITUDE ∧ a.numberOfComponents > 1) :=
      fun hm => h (Or.inl hm)
    have hneg : ¬ (lut.vectorComponent < 0 ∨ lut.vectorComponent ≥ a.numberOfComponents) :=
      fun hm => h (Or.inr hm)
    rw [CreateColorTextureCoordinates_values, hvc hmag]
    simp only [if_neg hneg]
  · intro m w l hty
    unfold buildColorCoordinates textureScalarComponent
    simp only [hty, if_true]
    rfl

/-- C22 on a table in magnitude mode and the two-component tuple (3, 4): the
coordinate is that of the magnitude. -/
theorem texture_value_selection_witness :
    CreateColorTextureCoordinates sampleSqrtEnv sampleVectorArray.values
        sampleVectorArray.numberOfTuples sampleVectorArray.numberOfComponents
        (textureScalarComponent ((sampleVectorWorld MAGNITUDE 0).luts 0) sampleVectorArray)
        (Dbl.fin 0, Dbl.fin 10) ((sampleVectorWorld MAGNITUDE 0).luts 0).range
        ((sampleVectorWorld MAGNITUDE 0).luts 0).numberOfAvailableColors false =
      (List.range sampleVectorArray.numberOfTuples).map (fun scalarIdx =>
        ScalarToTextureCoordinate
          (if false = true then
            sampleSqrtEnv.ApplyLogScale
              (tupleMagnitude sampleSqrtEnv sampleVectorArray.values
                sampleVectorArray.numberOfComponents scalarIdx)
              ((sampleVectorWorld MAGNITUDE 0).luts 0).range (Dbl.fin 0, Dbl.fin 10)
          else tupleMagnitude sampleSqrtEnv sampleVectorArray.values
            sampleVectorArray.numberOfComponents scalarIdx)
          (paddedRange (Dbl.fin 0, Dbl.fin 10)
            ((sampleVectorWorld MAGNITUDE 0).luts 0).numberOfAvailableColors).1
          (paddedRange (Dbl.fin 0, Dbl.fin 10)
            ((sampleVectorWorld MAGNITUDE 0).luts 0).numberOfAvailableColors).2) :=
  (texture_value_selection sampleSqrtEnv ((sampleVectorWorld MAGNITUDE 0).luts 0)
    sampleVectorArray (Dbl.fin 0, Dbl.fin 10) false).1 (Or.inl ⟨rfl, by decide⟩)


/-! ### The modification time -/

/-- C23: `GetMTime` is the larger of the mapper's own modification time and
that of its lookup table, and the mapper's own time when no table is
assigned; so it is never older than the table's modification time, and a
range change that stamps the table of a mapper whose stamps are not ahead of
the counter makes `GetMTime` the new stamp, later than what it was. -/
theorem GetMTime_max (m : Mapper) (w : World) :
    (∀ l, m.LookupTable = some l →
      GetMTime m w = max m.MTime (w.luts l).mtime ∧
      (w.luts l).mtime ≤ GetMTime m w ∧ m.MTime ≤ GetMTime m w) ∧
    (m.LookupTable = none → GetMTime m w = m.MTime) ∧
    (∀ l r, m.LookupTable = some l → Stamped m w →
      (Dbl.eq (w.luts l).range.1 r.1 && Dbl.eq (w.luts l).range.2 r.2) = false →
      GetMTime m (lutSetRange w l r) = w.clock + 1 ∧
      GetMTime m w < GetMTime m (lutSetRange w l r)) := by
  have hmax : ∀ (w2 : World) (l : Nat), m.LookupTable = some l →
      GetMTime m w2 = max m.MTime (w2.luts l).mtime := by
    intro w2 l hl
    unfold GetMTime
    rw [hl]
    simp only
    split
    · rw [max_eq_right (by omega)]
    · rw [max_eq_left (by omega)]
  refine ⟨?_, ?_, ?_⟩
  · intro l hl
    rw [hmax w l hl]
    exact ⟨rfl, le_max_right _ _, le_max_left _ _⟩
  · intro hl
    unfold GetMTime
    rw [hl]
  · intro l r hl hst hne
    have hle := GetMTime_le m w hst
    have hm : m.MTime ≤ w.clock := hst.1
    have hnew : ((lutSetRange w l r).luts l).mtime = w.clock + 1 := by
      unfold lutSetRange
      rw [hne]
      simp only [Bool.false_eq_true, if_false, Function.update_same]
    have e : GetMTime m (lutSetRange w l r) = w.clock + 1 := by
      rw [hmax _ l hl, hnew, max_eq_right (by omega)]
    exact ⟨e, by omega⟩

/-- C23 on the sample mapper, stamped 1, whose table is stamped 2. -/
theorem GetMTime_max_witness : GetMTime sampleMapper sampleWorld = 2 :=
  ((GetMTime_max sampleMapper sampleWorld).1 0 rfl).1.trans (by decide)


/-! ### Copying a mapper -/

theorem SameRelative.refl (a : Mapper) : SameRelative a a := ⟨rfl, rfl, rfl, rfl, rfl, rfl⟩

theorem SameRelative.trans {a b c : Mapper} (h1 : SameRelative a b) (h2 : SameRelative b c) :
    SameRelative a c :=
  ⟨h1.1.trans h2.1, h1.2.1.trans h2.2.1, h1.2.2.1.trans h2.2.2.1,
    h1.2.2.2.1.trans h2.2.2.2.1, h1.2.2.2.2.1.trans h2.2.2.2.2.1,
    h1.2.2.2.2.2.trans h2.2.2.2.2.2⟩

theorem SetLookupTable_relative (m : Mapper) (w : World) (t : Option Nat) :
    SameRelative (SetLookupTable m w t).1 m := by
  unfold SetLookupTable
  split <;> exact ⟨rfl, rfl, rfl, rfl, rfl, rfl⟩

theorem SetScalarVisibility_relative (m : Mapper) (w : World) (v : Bool) :
    SameRelative (SetScalarVisibility m w v).1 m := by
  unfold SetScalarVisibility
  split <;> exact ⟨rfl, rfl, rfl, rfl, rfl, rfl⟩

theorem SetScalarRange_relative (m : Mapper) (w : World) (v : Dbl × Dbl) :
    SameRelative (SetScalarRange m w v).1 m := by
  unfold SetScalarRange
  split <;> exact ⟨rfl, rfl, rfl, rfl, rfl, rfl⟩

theorem SetColorMode_relative (m : Mapper) (w : World) (v : Int) :
    SameRelative (SetColorMode m w v).1 m := by
  unfold SetColorMode
  split <;> exact ⟨rfl, rfl, rfl, rfl, rfl, rfl⟩

theorem SetScalarMode_relative (m : Mapper) (w : World) (v : Int) :
    SameRelative (SetScalarMode m w v).1 m := by
  unfold SetScalarMode
  split <;> exact ⟨rfl, rfl, rfl, rfl, rfl, rfl⟩

theorem SetUseLookupTableScalarRange_relative (m : Mapper) (w : World) (v : Bool) :
    SameRelative (SetUseLookupTableScalarRange m w v).1 m := by
  unfold SetUseLookupTableScalarRange
  split <;> exact ⟨rfl, rfl, rfl, rfl, rfl, rfl⟩

theorem SetInterpolateScalarsBeforeMapping_relative (m : Mapper) (w : World) (v : Bool) :
    SameRelative (SetInterpolateScalarsBeforeMapping m w v).1 m := by
  unfold SetInterpolateScalarsBeforeMapping
  split <;> exact ⟨rfl, rfl, rfl, rfl, rfl, rfl⟩

theorem SetFieldDataTupleId_relative (m : Mapper) (w : World) (v : Int) :
    SameRelative (SetFieldDataTupleId m w v).1 m := by
  unfold SetFieldDataTupleId
  split <;> exact ⟨rfl, rfl, rfl, rfl, rfl, rfl⟩

theorem SetArrayName_relative (m : Mapper) (w : World) (v : String) :
    SameRelative (SetArrayName m w v).1 m := by
  unfold SetArrayName
  split <;> exact ⟨rfl, rfl, rfl, rfl, rfl, rfl⟩

theorem ColorByArrayComponent_relative (m : Mapper) (w : World) (arrayNum component : Int) :
    SameRelative (ColorByArrayComponent m w arrayNum component).1 m := by
  unfold ColorByArrayComponent
  split <;> exact ⟨rfl, rfl, rfl, rfl, rfl, rfl⟩

theorem ColorByArrayComponentName_relative (m : Mapper) (w : World) (arrayName : Option String)
    (component : Int) :
    SameRelative (ColorByArrayComponentName m w arrayName component).1 m := by
  unfold ColorByArrayComponentName
  split
  · exact SameRelative.refl m
  · split
    · exact SameRelative.refl m
    · exact SetArrayName_relative (Modified m w).1 (Modified m w).2 _

theorem GetLookupTable_relative (env : Env) (m : Mapper) (w : World) :
    SameRelative (GetLookupTable env m w).2.1 m := by
  unfold GetLookupTable
  simp only
  split
  · rw [CreateDefaultLookupTable_mapper]
    exact ⟨rfl, rfl, rfl, rfl, rfl, rfl⟩
  · exact SameRelative.refl m


theorem SetRelativeCoincidentTopologyPolygonOffsetParameters_others (p : Process)
    (factor units : Dbl) :
    (SetRelativeCoincidentTopologyPolygonOffsetParameters p factor units).mapper.CoincidentLineFactor = p.mapper.CoincidentLineFactor ∧
    (SetRelativeCoincidentTopologyPolygonOffsetParameters p factor units).mapper.CoincidentLineOffset = p.mapper.CoincidentLineOffset ∧
    (SetRelativeCoincidentTopologyPolygonOffsetParameters p factor units).mapper.CoincidentPointOffset = p.mapper.CoincidentPointOffset ∧
    (SetRelativeCoincidentTopologyPolygonOffsetParameters p factor units).mapper.RelativeCoincidentTopologyZShift = p.mapper.RelativeCoincidentTopologyZShift := by
  unfold SetRelativeCoincidentTopologyPolygonOffsetParameters
  split <;> exact ⟨rfl, rfl, rfl, rfl⟩

theorem SetRelativeCoincidentTopologyLineOffsetParameters_others (p : Process)
    (factor units : Dbl) :
    (SetRelativeCoincidentTopologyLineOffsetParameters p factor units).mapper.CoincidentPolygonFactor = p.mapper.CoincidentPolygonFactor ∧
    (SetRelativeCoincidentTopologyLineOffsetParameters p factor units).mapper.CoincidentPolygonOffset = p.mapper.CoincidentPolygonOffset ∧
    (SetRelativeCoincidentTopologyLineOffsetParameters p factor units).mapper.CoincidentPointOffset = p.mapper.CoincidentPointOffset ∧
    (SetRelativeCoincidentTopologyLineOffsetParameters p factor units).mapper.RelativeCoincidentTopologyZShift = p.mapper.RelativeCoincidentTopologyZShift := by
  unfold SetRelativeCoincidentTopologyLineOffsetParameters
  split <;> exact ⟨rfl, rfl, rfl, rfl⟩

theorem SetRelativeCoincidentTopologyPointOffsetParameter_others (p : Process) (units : Dbl) :
    (SetRelativeCoincidentTopologyPointOffsetParameter p units).mapper.CoincidentPolygonFactor = p.mapper.CoincidentPolygonFactor ∧
    (SetRelativeCoincidentTopologyPointOffsetParameter p units).mapper.CoincidentPolygonOffset = p.mapper.CoincidentPolygonOffset ∧
    (SetRelativeCoincidentTopologyPointOffsetParameter p units).mapper.CoincidentLineFactor = p.mapper.CoincidentLineFactor ∧
    (SetRelativeCoincidentTopologyPointOffsetParameter p units).mapper.CoincidentLineOffset = p.mapper.CoincidentLineOffset ∧
    (SetRelativeCoincidentTopologyPointOffsetParameter p units).mapper.RelativeCoincidentTopologyZShift = p.mapper.RelativeCoincidentTopologyZShift := by
  unfold SetRelativeCoincidentTopologyPointOffsetParameter
  split <;> exact ⟨rfl, rfl, rfl, rfl, rfl⟩

/-- Lines 337 to 353 of `ShallowCopy` leave the relative coincident-topology
parameters of the copy as they were. -/
theorem copyConfiguration_relative (this : Mapper) (w : World) (lut : Option Nat) (m : Mapper) :
    SameRelative (copyConfiguration this w lut m).1 this := by
  unfold copyConfiguration
  simp only
  split
  · refine SameRelative.trans (ColorByArrayComponent_relative _ _ _ _) ?_
    refine SameRelative.trans (SetFieldDataTupleId_relative _ _ _) ?_
    refine SameRelative.trans (SetInterpolateScalarsBeforeMapping_relative _ _ _) ?_
    refine SameRelative.trans (SetUseLookupTableScalarRange_relative _ _ _) ?_
    refine SameRelative.trans (SetScalarMode_relative _ _ _) ?_
    refine SameRelative.trans (SetColorMode_relative _ _ _) ?_
    refine SameRelative.trans (SetScalarRange_relative _ _ _) ?_
    refine SameRelative.trans (SetScalarVisibility_relative _ _ _) ?_
    exact SetLookupTable_relative this w lut
  · refine SameRelative.trans (ColorByArrayComponentName_relative _ _ _ _) ?_
    refine SameRelative.trans (SetFieldDataTupleId_relative _ _ _) ?_
    refine SameRelative.trans (SetInterpolateScalarsBeforeMapping_relative _ _ _) ?_
    refine SameRelative.trans (SetUseLookupTableScalarRange_relative _ _ _) ?_
    refine SameRelative.trans (SetScalarMode_relative _ _ _) ?_
    refine SameRelative.trans (SetColorMode_relative _ _ _) ?_
    refine SameRelative.trans (SetScalarRange_relative _ _ _) ?_
    refine SameRelative.trans (SetScalarVisibility_relative _ _ _) ?_
    exact SetLookupTable_relative this w lut

/-- Lines 355 to 363 of `ShallowCopy` give the copy the relative polygon,
line and point offsets of the source; the relative z-shift and the statics
are not touched. -/
theorem copyRelativeOffsets_stored (p src : Process) :
    (copyRelativeOffsets p src).globals = p.globals ∧
    (copyRelativeOffsets p src).mapper.CoincidentPolygonFactor =
      src.mapper.CoincidentPolygonFactor ∧
    (copyRelativeOffsets p src).mapper.CoincidentPolygonOffset =
      src.mapper.CoincidentPolygonOffset ∧
    (copyRelativeOffsets p src).mapper.CoincidentLineFactor = src.mapper.CoincidentLineFactor ∧
    (copyRelativeOffsets p src).mapper.CoincidentLineOffset = src.mapper.CoincidentLineOffset ∧
    (copyRelativeOffsets p src).mapper.CoincidentPointOffset = src.mapper.CoincidentPointOffset ∧
    (copyRelativeOffsets p src).mapper.RelativeCoincidentTopologyZShift =
      p.mapper.RelativeCoincidentTopologyZShift := by
  unfold copyRelativeOffsets
  simp only [GetRelativeCoincidentTopologyPolygonOffsetParameters,
    GetRelativeCoincidentTopologyLineOffsetParameters,
    GetRelativeCoincidentTopologyPointOffsetParameter]
  obtain ⟨a1, a2, a3⟩ := SetRelativeCoincidentTopologyPolygonOffsetParameters_stored p
    src.mapper.CoincidentPolygonFactor src.mapper.CoincidentPolygonOffset
  obtain ⟨_, _, _, a7⟩ := SetRelativeCoincidentTopologyPolygonOffsetParameters_others p
    src.mapper.CoincidentPolygonFactor src.mapper.CoincidentPolygonOffset
  obtain ⟨b1, b2, b3⟩ := SetRelativeCoincidentTopologyLineOffsetParameters_stored
    (SetRelativeCoincidentTopologyPolygonOffsetParameters p
      src.mapper.CoincidentPolygonFactor src.mapper.CoincidentPolygonOffset)
    src.mapper.CoincidentLineFactor src.mapper.CoincidentLineOffset
  obtain ⟨b4, b5, _, b7⟩ := SetRelativeCoincidentTopologyLineOffsetParameters_others
    (SetRelativeCoincidentTopologyPolygonOffsetParameters p
      src.mapper.CoincidentPolygonFactor src.mapper.CoincidentPolygonOffset)
    src.mapper.CoincidentLineFactor src.mapper.CoincidentLineOffset
  obtain ⟨c1, c2⟩ := SetRelativeCoincidentTopologyPointOffsetParameter_stored
    (SetRelativeCoincidentTopologyLineOffsetParameters
      (SetRelativeCoincidentTopologyPolygonOffsetParameters p
        src.mapper.CoincidentPolygonFactor src.mapper.CoincidentPolygonOffset)
      src.mapper.CoincidentLineFactor src.mapper.CoincidentLineOffset)
    src.mapper.CoincidentPointOffset
  obtain ⟨c3, c4, c5, c6, c7⟩ := SetRelativeCoincidentTopologyPointOffsetParameter_others
    (SetRelativeCoincidentTopologyLineOffsetParameters
      (SetRelativeCoincidentTopologyPolygonOffsetParameters p
        src.mapper.CoincidentPolygonFactor src.mapper.CoincidentPolygonOffset)
      src.mapper.CoincidentLineFactor src.mapper.CoincidentLineOffset)
    src.mapper.CoincidentPointOffset
  exact ⟨c1.trans (b1.trans a1), c3.trans (b4.trans a2), c4.trans (b5.trans a3),
    c5.trans b2, c6.trans b3, c2, c7.trans (b7.trans a7)⟩

/-- `ShallowCopy` from a mapper gives the copy the relative polygon, line and
point offsets of that mapper and leaves the relative z-shift of the copy as
it was; the statics are not touched. -/
theorem ShallowCopy_relative (env : Env) (p : Process) (m : Mapper) :
    (ShallowCopy env p (some m)).1.globals = p.globals ∧
    (ShallowCopy env p (some m)).1.mapper.CoincidentPolygonFactor = m.CoincidentPolygonFactor ∧
    (ShallowCopy env p (some m)).1.mapper.CoincidentPolygonOffset = m.CoincidentPolygonOffset ∧
    (ShallowCopy env p (some m)).1.mapper.CoincidentLineFactor = m.CoincidentLineFactor ∧
    (ShallowCopy env p (some m)).1.mapper.CoincidentLineOffset = m.CoincidentLineOffset ∧
    (ShallowCopy env p (some m)).1.mapper.CoincidentPointOffset = m.CoincidentPointOffset ∧
    (ShallowCopy env p (some m)).1.mapper.RelativeCoincidentTopologyZShift =
      p.mapper.RelativeCoincidentTopologyZShift := by
  obtain ⟨g1, g2, g3, g4, g5, _⟩ := GetLookupTable_relative env m p.world
  obtain ⟨_, _, _, _, _, k6⟩ := copyConfiguration_relative p.mapper
    (GetLookupTable env m p.world).2.2 (GetLookupTable env m p.world).1
    (GetLookupTable env m p.world).2.1
  obtain ⟨r0, r1, r2, r3, r4, r5, r6⟩ := copyRelativeOffsets_stored
    { p with
      mapper := (copyConfiguration p.mapper (GetLookupTable env m p.world).2.2
        (GetLookupTable env m p.world).1 (GetLookupTable env m p.world).2.1).1
      world := (copyConfiguration p.mapper (GetLookupTable env m p.world).2.2
        (GetLookupTable env m p.world).1 (GetLookupTable env m p.world).2.1).2 }
    { p with mapper := (GetLookupTable env m p.world).2.1 }
  exact ⟨r0, r1.trans g1, r2.trans g2, r3.trans g3, r4.trans g4, r5.trans g5, r6.trans k6⟩


/-- C24 fails on the code: `ShallowCopy` into the sample mapper at start-up
(all relative parameters 0) from a mapper with relative polygon offset (1, 2),
line offset (1, 0), point offset 2 and z-shift 1. The copy gets the three
offsets, but its relative z-shift stays 0 while the source has 1, so its
effective z-shift is 1/100 where that of the source is 101/100. For every
source and every copy the relative z-shift of the copy is the one it had. -/
theorem ShallowCopy_drops_RelativeCoincidentTopologyZShift :
    GetRelativeCoincidentTopologyPolygonOffsetParameters
      (ShallowCopy sampleEnv sampleProcess (some sampleShiftedMapper)).1 =
        (Dbl.fin 1, Dbl.fin 2) ∧
    GetRelativeCoincidentTopologyLineOffsetParameters
      (ShallowCopy sampleEnv sampleProcess (some sampleShiftedMapper)).1 =
        (Dbl.fin 1, Dbl.fin 0) ∧
    GetRelativeCoincidentTopologyPointOffsetParameter
      (ShallowCopy sampleEnv sampleProcess (some sampleShiftedMapper)).1 = Dbl.fin 2 ∧
    GetRelativeCoincidentTopologyZShift
      (ShallowCopy sampleEnv sampleProcess (some sampleShiftedMapper)).1 = Dbl.fin 0 ∧
    GetRelativeCoincidentTopologyZShift { sampleProcess with mapper := sampleShiftedMapper } =
      Dbl.fin 1 ∧
    GetResolveCoincidentTopologyZShift
      (ShallowCopy sampleEnv sampleProcess (some sampleShiftedMapper)).1 = Dbl.fin (1 / 100) ∧
    GetResolveCoincidentTopologyZShift { sampleProcess with mapper := sampleShiftedMapper } =
      Dbl.fin (101 / 100) ∧
    (∀ (env : Env) (p : Process) (m : Mapper),
      GetRelativeCoincidentTopologyZShift (ShallowCopy env p (some m)).1 =
        GetRelativeCoincidentTopologyZShift p) := by
  obtain ⟨h0, h1, h2, h3, h4, h5, h6⟩ :=
    ShallowCopy_relative sampleEnv sampleProcess sampleShiftedMapper
  refine ⟨Prod.ext h1 h2, Prod.ext h3 h4, h5, h6, rfl, ?_, ?_,
    fun env p m => (ShallowCopy_relative env p m).2.2.2.2.2.2⟩
  · unfold GetResolveCoincidentTopologyZShift
    rw [h0, h6]
    show Dbl.add (Dbl.fin (1 / 100)) (Dbl.fin 0) = _
    rw [Dbl.add_fin]
    norm_num
  · show Dbl.add (Dbl.fin (1 / 100)) (Dbl.fin 1) = _
    rw [Dbl.add_fin]
    norm_num


/-! ### Monotonicity of the texture coordinate -/

/-- With the range from 0 to plus infinity the step `k` of
`MapScalarsToTexture` is infinite and every sample of the ramp is NaN: the
layout of the texture is that of finite ranges only. -/
theorem textureSamples_infinite_end :
    Dbl.lt (Dbl.fin 0) Dbl.pinf = true ∧
    textureStep (Dbl.fin 0, Dbl.pinf) 4 = Dbl.pinf ∧
    textureSamples sampleEnv (Dbl.fin 0, Dbl.pinf) 4 false =
      [Dbl.nan, Dbl.nan, Dbl.nan, Dbl.nan, Dbl.nan, Dbl.nan, Dbl.nan, Dbl.nan] := by
  decide

end VtkMapper
